import Mathlib

/-!
InputEvents: key/gesture/queue dispatch and the menu timer.

A shallow embedding of `src/src/InputEvents.cpp`.  The process-wide variables of
the translation unit (`current_mode`, `MenuTimeOut`, `GCE_Queue`, `NMEA_Queue`)
and the collaborators the functions query (`globalRunningEvent`, `IsPanning`,
`has_dialog`, `menu_timeout`, `ButtonLabel::IsEnabled`) are the fields of `Core`.
The configuration object `input_config`, declared in a header that is not part of
the sources, is the parameter `InputConfig`.  Calls that leave the translation
unit are recorded in a call log (`State.trace`), which no action can rewrite.
-/

namespace InputEvents

/-- Capacity of `GCE_Queue` (`#define MAX_GCE_QUEUE 10`). -/
def MAX_GCE_QUEUE : Nat := 10

/-- Capacity of `NMEA_Queue` (`#define MAX_NMEA_QUEUE 10`). -/
def MAX_NMEA_QUEUE : Nat := 10

/-- Number of values of a 32-bit `unsigned`. -/
def UINT_RANGE : Nat := 4294967296

/-- Conversion `unsigned` to `int` (two's complement, 32 bit), as performed by
`NMEA_Queue[i] = ne_id`. -/
def toInt32 (n : Nat) : Int :=
  if n % UINT_RANGE < 2147483648 then ((n % UINT_RANGE : Nat) : Int)
  else ((n % UINT_RANGE : Nat) : Int) - 4294967296

/-- Conversion `int` to `unsigned` (32 bit), as performed when a queue slot is
passed to `processNmea_real(unsigned)`. -/
def toUInt32 (i : Int) : Nat := (i % 4294967296).toNat

/-- Mutable program state that an action (an opaque callable) may read and write. -/
structure Core where
  /-- The variable `static mode current_mode`. -/
  current_mode : Nat
  /-- The variable `static unsigned MenuTimeOut`. -/
  MenuTimeOut : Nat
  /-- The array `static int GCE_Queue[MAX_GCE_QUEUE]`. -/
  GCE_Queue : List Int
  /-- The array `static int NMEA_Queue[MAX_NMEA_QUEUE]`. -/
  NMEA_Queue : List Int
  /-- Value of `globalRunningEvent.Test()`. -/
  running : Bool
  /-- Value of `CommonInterface::IsPanning()`. -/
  panning : Bool
  /-- Value of `CommonInterface::main_window.has_dialog()`. -/
  has_dialog : Bool
  /-- Value of `CommonInterface::GetUISettings().menu_timeout`. -/
  menu_timeout : Nat
  /-- Value of `ButtonLabel::IsEnabled(i)`. -/
  IsEnabled : Nat → Bool

/-- Calls observed by the call log. -/
inductive Obs where
  /-- The call `event.event(event.misc)` made by `processGo` for `events[eventid]`. -/
  | action (eventid : Nat)
  /-- Entry of `processNmea_real(ne_id)`. -/
  | nmea_real (ne_id : Nat)
  /-- Entry of `processGlideComputer_real(gce_id)`. -/
  | gce_real (gce_id : Nat)
  /-- The call `ButtonLabel::SetLabelText(i, label)`. -/
  | SetLabelText (i : Nat) (label : Option String)
  /-- The call `sub_Pan(vswitch)`. -/
  | sub_Pan (vswitch : Int)
  /-- The call `XCSoarInterface::SignalShutdown(false)`. -/
  | SignalShutdown
  /-- Entry of `ProcessMenuTimer()`. -/
  | ProcessMenuTimer
  deriving DecidableEq, Repr

/-- Program state together with the call log and the record of a violated
`assert`. -/
structure State extends Core where
  /-- Calls made so far, oldest first. -/
  trace : List Obs
  /-- Whether an `assert` of the translation unit has been violated. -/
  assert_failed : Bool

/-- An entry of `input_config.events` (`InputConfig::Event`): the callable (or
`NULL`), its parameter and the successor id. -/
structure Event where
  event : Option (String → Core → Core)
  misc : String
  next : Nat

/-- An entry of a menu (`MenuItem`): label (or `NULL`), event id and the values
of its `defined()` and `IsDynamic()` queries. -/
structure MenuItem where
  label : Option String
  event : Nat
  defined : Bool
  IsDynamic : Bool

/-- A menu of one mode: `menu[i]` and `menu.FindByEvent(event)`. -/
structure Menu where
  items : Nat → MenuItem
  FindByEvent : Nat → Int

/-- The configuration object `input_config` with the constants of the headers
that declare it. -/
structure InputConfig where
  /-- Mode names, `input_config.modes`. -/
  modes : List String
  /-- Table `input_config.Key2Event[mode][key_code]`. -/
  Key2Event : Nat → Nat → Nat
  /-- Lookup `input_config.Gesture2Event.get(data, 0)` before the default. -/
  Gesture2Event : String → Option Nat
  /-- Table `input_config.N2Event[ne_id]`. -/
  N2Event : Nat → Nat
  /-- Table `input_config.GC2Event[gce_id]`. -/
  GC2Event : Nat → Nat
  /-- Table `input_config.events[eventid]`. -/
  events : Nat → Event
  /-- Table `input_config.menus[mode]`. -/
  menus : Nat → Menu
  MAX_KEY : Nat
  MAX_ITEMS : Nat
  NE_COUNT : Nat
  GCE_COUNT : Nat
  MODE_DEFAULT : Nat
  MODE_PAN : Nat
  MODE_MENU : Nat
  /-- Value of `is_altair()`. -/
  is_altair : Bool
  /-- Effect of the collaborator `sub_Pan(vswitch)` on the program state. -/
  sub_Pan : Int → Core → Core

/-- Append one call to the log. -/
def State.log (s : State) (o : Obs) : State :=
  { s with trace := s.trace ++ [o] }

/-- Both queues cleared: `std::fill(GCE_Queue, GCE_Queue + MAX_GCE_QUEUE, -1)` and
the same for `NMEA_Queue`, as done by `readFile` and by `DoQueuedEvents`. -/
def clearQueues (s : State) : State :=
  { s with GCE_Queue := List.replicate MAX_GCE_QUEUE (-1),
           NMEA_Queue := List.replicate MAX_NMEA_QUEUE (-1) }

/-- Embeds `getModeID()`. -/
def getModeID (s : State) : Nat := s.current_mode

/-- Embeds `drawButtons(Mode, full)`: relabel every item (`full`) or the dynamic ones. -/
def drawButtons (cfg : InputConfig) (Mode : Nat) (full : Bool) (s : State) : State :=
  if !s.running then s
  else
    let menu := cfg.menus Mode
    let redrawn := (List.range cfg.MAX_ITEMS).filter (fun i => full || (menu.items i).IsDynamic)
    { s with trace := s.trace ++ redrawn.map (fun i => Obs.SetLabelText i (menu.items i).label) }

/-- Embeds `setMode(mode mode)`. -/
def setMode (cfg : InputConfig) (mode : Nat) (s : State) : State :=
  let s0 : State :=
    { s with assert_failed := s.assert_failed || !(decide (mode < cfg.modes.length)) }
  if mode = s0.current_mode then s0
  else
    let s1 : State := { s0 with current_mode := mode }
    drawButtons cfg s1.current_mode true s1

/-- Modelled from the spec: `InputConfig::LookupMode`, whose definition is not part
of the sources; the index of `name` in the ordered set of mode names, and -1
for a name that is not a mode. -/
def LookupMode (cfg : InputConfig) (name : String) : Int :=
  if name ∈ cfg.modes then (cfg.modes.indexOf name : Nat) else -1

/-- Embeds `setMode(const TCHAR *mode)`. -/
def setModeByName (cfg : InputConfig) (mode : String) (s : State) : State :=
  let m := LookupMode cfg mode
  if m ≥ 0 then setMode cfg m.toNat s else s

/-- Embeds `LeaveMode(const TCHAR *mode)`. -/
def LeaveMode (cfg : InputConfig) (mode : String) (s : State) : State :=
  if cfg.modes.get? s.current_mode = some mode then setMode cfg cfg.MODE_DEFAULT s
  else s


/-- Embeds `key_to_event(mode, key_code)`. -/
def key_to_event (cfg : InputConfig) (mode key_code : Nat) : Nat :=
  if key_code ≥ cfg.MAX_KEY then 0
  else
    let event_id := cfg.Key2Event mode key_code
    if event_id = 0 then cfg.Key2Event 0 key_code else event_id

/-- Embeds `gesture_to_event(data)`. -/
def gesture_to_event (cfg : InputConfig) (data : String) : Nat :=
  (cfg.Gesture2Event data).getD 0

/-- One pass of the body of the `while` loop of `processGo` for `eventid`. -/
def runEntry (cfg : InputConfig) (eventid : Nat) (s : State) : State :=
  match (cfg.events eventid).event with
  | some f =>
      { s with toCore := { f (cfg.events eventid).misc s.toCore with MenuTimeOut := 0 },
               trace := s.trace ++ [Obs.action eventid] }
  | none => s

/-- Embeds `processGo(eventid)`.  The loop has no bound of its own, so the embedding
counts loop tests: `none` means the count was used up before the loop ended. -/
def processGo (cfg : InputConfig) : Nat → Nat → State → Option State
  | 0, _, _ => none
  | fuel + 1, eventid, s =>
      if s.running && decide (eventid > 0) then
        processGo cfg fuel (cfg.events eventid).next (runEntry cfg eventid s)
      else some s

/-- Embeds `processButton(bindex)`. -/
def processButton (cfg : InputConfig) (fuel : Nat) (bindex : Nat) (s : State) :
    Option (Bool × State) :=
  if !s.running then some (false, s)
  else if bindex ≥ cfg.MAX_ITEMS then some (false, s)
  else
    let lastMode := getModeID s
    let item := (cfg.menus lastMode).items bindex
    if !item.defined then some (false, s)
    else
      (processGo cfg fuel item.event s).map fun s1 =>
        (true, if lastMode = getModeID s1 ∧ item.IsDynamic = true
               then drawButtons cfg lastMode false s1 else s1)

/-- Embeds `ProcessKey(mode, key_code)`.  `SignalShutdown` is a collaborator; its call is
logged. -/
def ProcessKey (cfg : InputConfig) (fuel : Nat) (mode key_code : Nat) (s : State) :
    Option (Bool × State) :=
  if cfg.is_altair && key_code == 0xF5 then some (true, s.log Obs.SignalShutdown)
  else if !s.running then some (false, s)
  else
    let event_id := key_to_event cfg mode key_code
    if event_id = 0 then some (false, s)
    else
      let lastMode := mode
      let menu := cfg.menus mode
      let i := menu.FindByEvent event_id
      let found : Bool := decide (i ≥ 0) && (menu.items i.toNat).defined
      let bindex : Int := if found then i else -1
      let pLabelText : Option String := if found then (menu.items i.toNat).label else none
      let s1? := if bindex < 0 ∨ s.IsEnabled bindex.toNat = true
                 then processGo cfg fuel event_id s else some s
      s1?.map fun s1 =>
        (true, if lastMode = getModeID s1 ∧ bindex > 0 ∧ pLabelText ≠ none
               then drawButtons cfg lastMode false s1 else s1)

/-- Embeds `processKey(key_code)`. -/
def processKey (cfg : InputConfig) (fuel : Nat) (key_code : Nat) (s : State) :
    Option (Bool × State) :=
  ProcessKey cfg fuel (getModeID s) key_code s

/-- Embeds `processGesture(data)`. -/
def processGesture (cfg : InputConfig) (fuel : Nat) (data : String) (s : State) :
    Option (Bool × State) :=
  let event_id := gesture_to_event cfg data
  if event_id ≠ 0 then (processGo cfg fuel event_id s).map (fun r => (true, r))
  else some (false, s)

/-- The scan `for (i = 0; i < n; i++) if (Q[i] == -1) { Q[i] = id; break; }`
over the slots of `Q`, from slot 0. -/
def storeFirstFree : Nat → List Int → Int → List Int
  | 0, q, _ => q
  | _ + 1, [], _ => []
  | n + 1, x :: xs, v => if x = -1 then v :: xs else x :: storeFirstFree n xs v

/-- Embeds `processNmea(ne_id)`. -/
def processNmea (ne_id : Nat) (s : State) : Bool × State :=
  (true, { s with NMEA_Queue := storeFirstFree MAX_NMEA_QUEUE s.NMEA_Queue (toInt32 ne_id) })

/-- Embeds `processGlideComputer(gce_id)`. -/
def processGlideComputer (gce_id : Nat) (s : State) : Bool × State :=
  (true, { s with GCE_Queue := storeFirstFree MAX_GCE_QUEUE s.GCE_Queue (toInt32 gce_id) })

/-- Embeds `processNmea_real(ne_id)`.  The entries of `N2Event` are event ids, so the
conversion to `int event_id` keeps their value. -/
def processNmea_real (cfg : InputConfig) (fuel : Nat) (ne_id : Nat) (s : State) :
    Option (Bool × State) :=
  let s := s.log (Obs.nmea_real ne_id)
  if !s.running then some (false, s)
  else if ne_id ≥ cfg.NE_COUNT then some (false, s)
  else
    let event_id := cfg.N2Event ne_id
    if event_id > 0 then (processGo cfg fuel event_id s).map (fun r => (true, r))
    else some (false, s)

/-- Embeds `processGlideComputer_real(gce_id)`.  The entries of `GC2Event` are event ids,
so the conversion to `int event_id` keeps their value. -/
def processGlideComputer_real (cfg : InputConfig) (fuel : Nat) (gce_id : Nat) (s : State) :
    Option (Bool × State) :=
  let s := s.log (Obs.gce_real gce_id)
  if !s.running then some (false, s)
  else if gce_id ≥ cfg.GCE_COUNT then some (false, s)
  else
    let event_id := cfg.GC2Event gce_id
    if event_id > 0 then (processGo cfg fuel event_id s).map (fun r => (true, r))
    else some (false, s)

/-- First dispatch loop of `DoQueuedEvents`, over `GCE_Queue_copy`. -/
def dispatchGCE (cfg : InputConfig) (fuel : Nat) : List Int → State → Option State
  | [], s => some s
  | x :: xs, s =>
      if x ≠ -1 then
        (processGlideComputer_real cfg fuel (toUInt32 x) s).bind
          (fun r => dispatchGCE cfg fuel xs r.2)
      else dispatchGCE cfg fuel xs s

/-- Second dispatch loop of `DoQueuedEvents`, over `NMEA_Queue_copy`. -/
def dispatchNMEA (cfg : InputConfig) (fuel : Nat) : List Int → State → Option State
  | [], s => some s
  | x :: xs, s =>
      if x ≠ -1 then
        (processNmea_real cfg fuel (toUInt32 x) s).bind
          (fun r => dispatchNMEA cfg fuel xs r.2)
      else dispatchNMEA cfg fuel xs s

/-- Embeds `DoQueuedEvents()`: copy and clear both queues, then dispatch the copies. -/
def DoQueuedEvents (cfg : InputConfig) (fuel : Nat) (s : State) : Option State :=
  let GCE_Queue_copy := s.GCE_Queue.take MAX_GCE_QUEUE
  let NMEA_Queue_copy := s.NMEA_Queue.take MAX_NMEA_QUEUE
  let s1 := clearQueues s
  (dispatchGCE cfg fuel GCE_Queue_copy s1).bind
    (fun s2 => dispatchNMEA cfg fuel NMEA_Queue_copy s2)

/-- Embeds `ProcessMenuTimer()`. -/
def ProcessMenuTimer (cfg : InputConfig) (s : State) : State :=
  let s := s.log Obs.ProcessMenuTimer
  if s.has_dialog then s
  else
    let s1 :=
      if s.MenuTimeOut = s.menu_timeout then
        if s.panning then setMode cfg cfg.MODE_PAN s else setMode cfg cfg.MODE_DEFAULT s
      else s
    let s2 := drawButtons cfg (getModeID s1) false s1
    { s2 with MenuTimeOut := (s2.MenuTimeOut + 1) % UINT_RANGE }

/-- Embeds `HideMenu()`. -/
def HideMenu (cfg : InputConfig) (s : State) : State :=
  ProcessMenuTimer cfg { s with MenuTimeOut := s.menu_timeout }

/-- Embeds `ShowMenu()`. -/
def ShowMenu (cfg : InputConfig) (s : State) : State :=
  let s1 : State :=
    if s.panning then { s with toCore := cfg.sub_Pan 0 s.toCore,
                               trace := s.trace ++ [Obs.sub_Pan 0] }
    else s
  let s2 := setMode cfg cfg.MODE_MENU s1
  ProcessMenuTimer cfg { s2 with MenuTimeOut := 0 }

/-- Embeds `ProcessTimer()`. -/
def ProcessTimer (cfg : InputConfig) (fuel : Nat) (s : State) : Option State :=
  (if s.running then DoQueuedEvents cfg fuel s else some s).map (ProcessMenuTimer cfg)

/-! ## Vocabulary of the statements -/

/-- The list `l` is the chain of `id`: the ids met from `id` by following `next`
links up to, and without, the terminating `0`. -/
def IsChain (cfg : InputConfig) : Nat → List Nat → Prop
  | id, [] => id = 0
  | id, x :: xs => id ≠ 0 ∧ x = id ∧ IsChain cfg (cfg.events id).next xs

/-- State after the loop body of `processGo` has run for the first `j` entries of
`l`, in list order, whatever the running flag says. -/
def afterEntries (cfg : InputConfig) (l : List Nat) (j : Nat) (s : State) : State :=
  (l.take j).foldl (fun t e => runEntry cfg e t) s

/-- Whether `events[e]` carries a callable (`event.event != NULL`). -/
def hasAction (cfg : InputConfig) (e : Nat) : Bool := ((cfg.events e).event).isSome

/-- Every chain of the configuration reaches `0` within `n` links. -/
def ChainsWithin (cfg : InputConfig) (n : Nat) : Prop :=
  ∀ id, ∃ l, IsChain cfg id l ∧ l.length ≤ n

/-- No callable of the configuration writes to either queue. -/
def ActionsKeepQueues (cfg : InputConfig) : Prop :=
  ∀ id f, (cfg.events id).event = some f →
    ∀ c : Core, (f (cfg.events id).misc c).GCE_Queue = c.GCE_Queue ∧
      (f (cfg.events id).misc c).NMEA_Queue = c.NMEA_Queue

/-- A queue of capacity 10 with no free slot. -/
def QueueFull (q : List Int) : Prop := q.length = 10 ∧ ∀ x ∈ q, x ≠ -1

/-- The ids a dispatch loop of `DoQueuedEvents` passes on for the copy `q`: the
occupied slots, in slot order, converted to `unsigned`. -/
def drained (q : List Int) : List Nat := (q.filter (fun x => x ≠ -1)).map toUInt32

/-- Selects the log entries that are entries of `processNmea_real`. -/
def Obs.isNmea : Obs → Bool
  | Obs.nmea_real _ => true
  | _ => false

/-- Selects the log entries that are entries of `processGlideComputer_real`. -/
def Obs.isGce : Obs → Bool
  | Obs.gce_real _ => true
  | _ => false

/-- Selects the log entries of the dispatcher itself: entries of the two
`_real` functions and of `ProcessMenuTimer`. -/
def Obs.isDispatch : Obs → Bool
  | Obs.nmea_real _ => true
  | Obs.gce_real _ => true
  | Obs.ProcessMenuTimer => true
  | _ => false

/-- The call log of `s'` extends that of `s` by calls whose dispatcher entries are
exactly `c`, and both queues are as in `s` as long as no callable writes to them. -/
def Dispatched (cfg : InputConfig) (s s' : State) (c : List Obs) : Prop :=
  (∃ t, s'.trace = s.trace ++ t ∧ t.filter Obs.isDispatch = c) ∧
  (ActionsKeepQueues cfg →
    s'.GCE_Queue = s.GCE_Queue ∧ s'.NMEA_Queue = s.NMEA_Queue)

/-- Enqueue the ids of `ids`, first to last, with `processNmea`. -/
def enqueueAllNmea (ids : List Nat) (s : State) : State :=
  ids.foldl (fun u id => (processNmea id u).2) s

/-- Enqueue the ids of `ids`, first to last, with `processGlideComputer`. -/
def enqueueAllGce (ids : List Nat) (s : State) : State :=
  ids.foldl (fun u id => (processGlideComputer id u).2) s

/-- Program state of `ShowMenu` after its first statement: `sub_Pan(0)` has run
if panning was active. -/
def afterPanOff (cfg : InputConfig) (s : State) : State :=
  if s.panning then { s with toCore := cfg.sub_Pan 0 s.toCore,
                             trace := s.trace ++ [Obs.sub_Pan 0] }
  else s

/-- The calls `drawButtons(Mode, full)` makes to the renderer once it is past its
test of the running flag: `ButtonLabel::SetLabelText(i, label)` for every item
`i < MAX_ITEMS` of the menu of `Mode` (`full`), or for the dynamic ones. -/
def redrawCalls (cfg : InputConfig) (Mode : Nat) (full : Bool) : List Obs :=
  ((List.range cfg.MAX_ITEMS).filter
      (fun i => full || ((cfg.menus Mode).items i).IsDynamic)).map
    (fun i => Obs.SetLabelText i ((cfg.menus Mode).items i).label)

/-- The mode `ProcessMenuTimer` leaves behind when no dialog is visible: the
fallback mode (`MODE_PAN` while panning, else `MODE_DEFAULT`) if the counter
equals `menu_timeout`, the current mode otherwise. -/
def timerMode (cfg : InputConfig) (s : State) : Nat :=
  if s.MenuTimeOut = s.menu_timeout then
    (if s.panning then cfg.MODE_PAN else cfg.MODE_DEFAULT)
  else s.current_mode

/-- The slot `menu.FindByEvent(event_id)` returns in `ProcessKey(mode, key_code)`
for the event id the key resolves to. -/
def keyItem (cfg : InputConfig) (mode key_code : Nat) : Int :=
  (cfg.menus mode).FindByEvent (key_to_event cfg mode key_code)

/-- The event id of the key belongs to a defined menu item of the mode whose
button is disabled. -/
def KeyItemDisabled (cfg : InputConfig) (mode key_code : Nat) (s : State) : Prop :=
  0 ≤ keyItem cfg mode key_code ∧
  ((cfg.menus mode).items (keyItem cfg mode key_code).toNat).defined = true ∧
  s.IsEnabled (keyItem cfg mode key_code).toNat = false

/-- State of `DoQueuedEvents` at a point of its two dispatch loops: the queues
have been copied and cleared, the slots `g` of `GCE_Queue_copy` and then the
slots `n` of `NMEA_Queue_copy` have been dispatched. -/
def drainPrefix (cfg : InputConfig) (fuel : Nat) (g n : List Int) (s : State) :
    Option State :=
  (dispatchGCE cfg fuel g (clearQueues s)).bind (fun u => dispatchNMEA cfg fuel n u)

/-- A step of an interleaving of producers and the consumer: an enqueue with
`processNmea`, an enqueue with `processGlideComputer`, or a `ProcessTimer` call. -/
inductive Op where
  | nmea (ne_id : Nat)
  | gce (gce_id : Nat)
  | tick
  deriving DecidableEq, Repr

/-- The ids of a step are values of the type `unsigned`. -/
def Op.valid : Op → Prop
  | Op.nmea id => id < UINT_RANGE
  | Op.gce id => id < UINT_RANGE
  | Op.tick => True

/-- Run the steps of an interleaving, first to last. -/
def runOps (cfg : InputConfig) (fuel : Nat) : List Op → State → Option State
  | [], s => some s
  | Op.nmea id :: ops, s => runOps cfg fuel ops (processNmea id s).2
  | Op.gce id :: ops, s => runOps cfg fuel ops (processGlideComputer id s).2
  | Op.tick :: ops, s => (ProcessTimer cfg fuel s).bind (fun u => runOps cfg fuel ops u)

/-- The ids enqueued with `processNmea` since the last `ProcessTimer` call of the
interleaving, in the order of enqueuing; `acc` holds those enqueued before the
steps listed. -/
def pendingNmea (acc : List Nat) : List Op → List Nat
  | [] => acc
  | Op.nmea id :: ops => pendingNmea (acc ++ [id]) ops
  | Op.gce _ :: ops => pendingNmea acc ops
  | Op.tick :: ops => pendingNmea [] ops

/-- The ids enqueued with `processGlideComputer` since the last `ProcessTimer` call
of the interleaving, in the order of enqueuing; `acc` holds those enqueued
before the steps listed. -/
def pendingGce (acc : List Nat) : List Op → List Nat
  | [] => acc
  | Op.nmea _ :: ops => pendingGce acc ops
  | Op.gce id :: ops => pendingGce (acc ++ [id]) ops
  | Op.tick :: ops => pendingGce [] ops

/-- The queue `q` of capacity 10 holds, from slot 0 and without a gap, ids that
were taken in order from `acc`, and is empty behind them. -/
def Holds (q : List Int) (acc : List Nat) : Prop :=
  ∃ l : List Nat, q = l.map toInt32 ++ List.replicate (10 - l.length) (-1) ∧
    l.length ≤ 10 ∧ l.Sublist acc ∧ ∀ id ∈ l, id < UINT_RANGE - 1

/-- The operations of the translation unit that assign `current_mode`: `setMode`
by id and by name, `LeaveMode`, `ShowMenu`, `HideMenu`, `ProcessMenuTimer`. -/
inductive ModeOp where
  | byId (m : Nat)
  | byName (name : String)
  | leave (name : String)
  | showMenu
  | hideMenu
  | menuTimer

/-- Effect of an operation on the state. -/
def ModeOp.apply (cfg : InputConfig) : ModeOp → State → State
  | ModeOp.byId m, s => setMode cfg m s
  | ModeOp.byName name, s => setModeByName cfg name s
  | ModeOp.leave name, s => LeaveMode cfg name s
  | ModeOp.showMenu, s => ShowMenu cfg s
  | ModeOp.hideMenu, s => HideMenu cfg s
  | ModeOp.menuTimer, s => ProcessMenuTimer cfg s

/-- The precondition an operation asserts on its argument:
`assert((unsigned)mode < input_config.modes.size())` in `setMode(mode)`. -/
def ModeOp.admissible (cfg : InputConfig) : ModeOp → Prop
  | ModeOp.byId m => m < cfg.modes.length
  | _ => True

/-- The three mode constants the translation unit uses are modes of the
configuration. -/
def ModesValid (cfg : InputConfig) : Prop :=
  cfg.MODE_DEFAULT < cfg.modes.length ∧ cfg.MODE_PAN < cfg.modes.length ∧
  cfg.MODE_MENU < cfg.modes.length

/-- A step on the queues: an enqueue with `processNmea`, an enqueue with
`processGlideComputer`, or a `DoQueuedEvents` call. -/
inductive QueueOp where
  | nmea (ne_id : Nat)
  | gce (gce_id : Nat)
  | drain
  deriving DecidableEq, Repr

/-- Run steps on the queues, first to last. -/
def runQueueOps (cfg : InputConfig) (fuel : Nat) : List QueueOp → State → Option State
  | [], s => some s
  | QueueOp.nmea id :: ops, s => runQueueOps cfg fuel ops (processNmea id s).2
  | QueueOp.gce id :: ops, s => runQueueOps cfg fuel ops (processGlideComputer id s).2
  | QueueOp.drain :: ops, s =>
      (DoQueuedEvents cfg fuel s).bind (fun u => runQueueOps cfg fuel ops u)

/-- The occupied slots of the queue `q` of capacity 10 are its first
`pre.length` slots, holding `pre`; all slots behind them are empty. -/
def OccupiedPrefix (q pre : List Int) : Prop :=
  (∀ x ∈ pre, x ≠ -1) ∧ pre.length ≤ 10 ∧
  q = pre ++ List.replicate (10 - pre.length) (-1)

/-- The queue `q` of capacity 10 has no occupied slot behind an empty one. -/
def GapFree (q : List Int) : Prop :=
  q.length = 10 ∧ ∀ i j, i < j → j < 10 → q[i]? = some (-1) → q[j]? = some (-1)

/-! ## A concrete configuration -/

/-- An action that switches to mode 1. -/
def actionToPan : String → Core → Core := fun _ c => { c with current_mode := 1 }

/-- An action that clears the running flag. -/
def actionShutdown : String → Core → Core := fun _ c => { c with running := false }

/-- Events of the example: 5 runs `actionToPan` and links to 7; 7 has no callable;
9 runs `actionShutdown` and links to 5. -/
def exampleEvents (id : Nat) : Event :=
  if id = 5 then { event := some actionToPan, misc := "", next := 7 }
  else if id = 9 then { event := some actionShutdown, misc := "", next := 5 }
  else { event := none, misc := "", next := 0 }

/-- Menus of the example: no item anywhere. -/
def exampleMenu : Menu :=
  { items := fun _ => { label := none, event := 0, defined := false,
                        IsDynamic := false },
    FindByEvent := fun _ => -1 }

/-- Example configuration with the modes default, pan, infobox, menu; key 65
bound to event 5 in the default mode and key 66 to event 9 in mode 3. -/
def exampleConfig : InputConfig :=
  { modes := ["default", "pan", "infobox", "menu"],
    Key2Event := fun m k =>
      if m = 0 ∧ k = 65 then 5 else if m = 3 ∧ k = 66 then 9 else 0,
    Gesture2Event := fun g => if g = "DU" then some 5 else none,
    N2Event := fun n => if n = 1 then 5 else if n = 2 then 9 else 0,
    GC2Event := fun n => if n = 2 then 7 else 0,
    events := exampleEvents,
    menus := fun _ => exampleMenu,
    MAX_KEY := 255, MAX_ITEMS := 32, NE_COUNT := 4, GCE_COUNT := 40,
    MODE_DEFAULT := 0, MODE_PAN := 1, MODE_MENU := 3,
    is_altair := false,
    sub_Pan := fun _ c => { c with panning := false } }

/-- Example state: mode `m`, counter `t`, timeout `timeout`, empty queues, running,
not panning, no dialog, every button enabled, empty log. -/
def exampleState (m t timeout : Nat) : State :=
  { current_mode := m, MenuTimeOut := t,
    GCE_Queue := List.replicate 10 (-1), NMEA_Queue := List.replicate 10 (-1),
    running := true, panning := false, has_dialog := false,
    menu_timeout := timeout, IsEnabled := fun _ => true,
    trace := [], assert_failed := false }

/-- Example state in which both queues hold ten ids. -/
def fullState : State :=
  { exampleState 0 0 5 with
    GCE_Queue := [1, 2, 3, 4, 5, 6, 7, 8, 9, 10],
    NMEA_Queue := [11, 12, 13, 14, 15, 16, 17, 18, 19, 20] }

/-- Example state with NMEA id 1 and glide-computer id 2 queued. -/
def queuedState : State :=
  (processGlideComputer 2 (processNmea 1 (exampleState 0 0 5)).2).2

/-- Menu with one item: slot 1 shows the dynamic label of event 5. -/
def dynamicMenu : Menu :=
  { items := fun i =>
      if i = 1 then { label := some "Pan $(PanModeStatus)", event := 5, defined := true,
                      IsDynamic := true }
      else { label := none, event := 0, defined := false, IsDynamic := false },
    FindByEvent := fun e => if e = 5 then 1 else -1 }

/-- The example configuration with `dynamicMenu` as the menu of every mode. -/
def dynamicConfig : InputConfig := { exampleConfig with menus := fun _ => dynamicMenu }

/-- The example configuration on an Altair. -/
def altairConfig : InputConfig := { exampleConfig with is_altair := true }

/-- Example state with the running flag false. -/
def stoppedState (m t timeout : Nat) : State :=
  { exampleState m t timeout with running := false }

/-- Example state in which every button is disabled. -/
def disabledState (m t timeout : Nat) : State :=
  { exampleState m t timeout with IsEnabled := fun _ => false }

/-- Example state with the NMEA ids 2 and 1 queued, in this order; id 2 is bound
to event 9, whose callable clears the running flag. -/
def shutdownQueuedState : State :=
  (processNmea 1 (processNmea 2 (exampleState 0 0 5)).2).2

/-- Example state reached in the drain of `shutdownQueuedState` when NMEA id 2
has been dispatched. -/
def shutdownMidDrain : State :=
  { exampleState 0 0 5 with
    running := false, trace := [Obs.nmea_real 2, Obs.action 9] }

/-- Menu with one item: slot 0 shows the dynamic label of event 5. -/
def slotZeroMenu : Menu :=
  { items := fun i =>
      if i = 0 then { label := some "Pan $(PanModeStatus)", event := 5, defined := true,
                      IsDynamic := true }
      else { label := none, event := 0, defined := false, IsDynamic := false },
    FindByEvent := fun e => if e = 5 then 0 else -1 }

/-- The example configuration with `slotZeroMenu` as the menu of every mode. -/
def slotZeroConfig : InputConfig := { exampleConfig with menus := fun _ => slotZeroMenu }

/-- Menu with two items: slot 1 shows a dynamic label (event 9), slot 2 the fixed
label of event 5. -/
def mixedMenu : Menu :=
  { items := fun i =>
      if i = 1 then { label := some "$(CheckFlying)Quit", event := 9, defined := true,
                      IsDynamic := true }
      else if i = 2 then { label := some "Pan On", event := 5, defined := true,
                           IsDynamic := false }
      else { label := none, event := 0, defined := false, IsDynamic := false },
    FindByEvent := fun e => if e = 5 then 2 else if e = 9 then 1 else -1 }

/-- The example configuration with `mixedMenu` as the menu of every mode. -/
def mixedConfig : InputConfig := { exampleConfig with menus := fun _ => mixedMenu }

/-! ## Key resolution -/

/-- C1: for a key code below `MAX_KEY`, a mode without a binding for the key
resolves like mode 0, a nonzero binding of the mode is returned as it is, and
the result is 0 when neither the mode nor mode 0 binds the key. -/
theorem key_to_event_fallback (cfg : InputConfig) (m k : Nat) (hk : k < cfg.MAX_KEY) :
    (cfg.Key2Event m k = 0 → key_to_event cfg m k = key_to_event cfg 0 k) ∧
    (cfg.Key2Event m k ≠ 0 → key_to_event cfg m k = cfg.Key2Event m k) ∧
    (cfg.Key2Event m k = 0 → cfg.Key2Event 0 k = 0 → key_to_event cfg m k = 0) := by
  have hk' : ¬ k ≥ cfg.MAX_KEY := Nat.not_le.mpr hk
  refine ⟨?_, ?_, ?_⟩
  · intro h0
    simp only [key_to_event, hk', if_false, h0, if_true]
    split <;> simp_all
  · intro h0
    simp only [key_to_event, hk', if_false, h0]
  · intro h0 h1
    simp only [key_to_event, hk', if_false, h0, h1, if_true]

/-- Witness of C1: key 65 in mode 1 of the example falls back to event 5 of
mode 0. -/
theorem key_to_event_fallback_witness :
    (65 : Nat) < exampleConfig.MAX_KEY ∧ exampleConfig.Key2Event 1 65 = 0 ∧
    key_to_event exampleConfig 1 65 = key_to_event exampleConfig 0 65 ∧
    key_to_event exampleConfig 1 65 = 5 :=
  ⟨by decide, by decide,
   (key_to_event_fallback exampleConfig 1 65 (by decide)).1 (by decide), by decide⟩

/-! ## Walking a chain -/

theorem isChain_unique (cfg : InputConfig) :
    ∀ (l₁ l₂ : List Nat) (id : Nat), IsChain cfg id l₁ → IsChain cfg id l₂ → l₁ = l₂ := by
  intro l₁
  induction l₁ with
  | nil =>
    intro l₂ id h₁ h₂
    cases l₂ with
    | nil => rfl
    | cons y ys => exact absurd h₁ h₂.1
  | cons x xs ih =>
    intro l₂ id h₁ h₂
    cases l₂ with
    | nil => exact absurd h₂ h₁.1
    | cons y ys =>
      obtain ⟨_, hx, hxs⟩ := h₁
      obtain ⟨_, hy, hys⟩ := h₂
      rw [hx, hy, ih ys _ hxs hys]

theorem isChain_mem_suffix (cfg : InputConfig) :
    ∀ (l : List Nat) (id x : Nat), IsChain cfg id l → x ∈ l →
      ∃ pre post, l = pre ++ x :: post ∧ IsChain cfg x (x :: post) := by
  intro l
  induction l with
  | nil => intro id x _ hx; cases hx
  | cons y ys ih =>
    intro id x h hx
    have hy : y = id := h.2.1
    rcases List.mem_cons.mp hx with hxy | hxys
    · refine ⟨[], ys, by simp [hxy], ?_⟩
      rw [hxy, hy]
      exact ⟨h.1, rfl, h.2.2⟩
    · obtain ⟨pre, post, hl, hc⟩ := ih _ x h.2.2 hxys
      exact ⟨y :: pre, post, by simp [hl], hc⟩

theorem isChain_nodup (cfg : InputConfig) :
    ∀ (l : List Nat) (id : Nat), IsChain cfg id l → l.Nodup := by
  intro l
  induction l with
  | nil => intro _ _; exact List.nodup_nil
  | cons y ys ih =>
    intro id h
    refine List.nodup_cons.mpr ⟨?_, ih _ h.2.2⟩
    intro hmem
    obtain ⟨pre, post, hl, hc⟩ := isChain_mem_suffix cfg ys _ y h.2.2 hmem
    have hy : y = id := h.2.1
    have h' : IsChain cfg y (y :: ys) := by rw [hy]; exact ⟨h.1, rfl, h.2.2⟩
    have heq := isChain_unique cfg _ _ _ hc h'
    have hlen : (y :: post).length = (y :: ys).length := by rw [heq]
    rw [hl] at hlen
    simp at hlen
    omega

theorem runEntry_trace (cfg : InputConfig) (e : Nat) (s : State) :
    (runEntry cfg e s).trace =
      s.trace ++ (if hasAction cfg e then [Obs.action e] else []) := by
  unfold runEntry hasAction
  cases h : (cfg.events e).event <;> simp

theorem afterEntries_zero (cfg : InputConfig) (l : List Nat) (s : State) :
    afterEntries cfg l 0 s = s := by
  simp [afterEntries]

theorem afterEntries_succ (cfg : InputConfig) (x : Nat) (xs : List Nat) (j : Nat)
    (s : State) :
    afterEntries cfg (x :: xs) (j + 1) s = afterEntries cfg xs j (runEntry cfg x s) := by
  simp [afterEntries]

theorem afterEntries_trace (cfg : InputConfig) :
    ∀ (l : List Nat) (j : Nat) (s : State),
      (afterEntries cfg l j s).trace =
        s.trace ++ ((l.take j).filter (hasAction cfg)).map Obs.action := by
  intro l
  induction l with
  | nil => intro j s; simp [afterEntries]
  | cons x xs ih =>
    intro j s
    cases j with
    | zero => simp [afterEntries]
    | succ j =>
      rw [afterEntries_succ, ih, runEntry_trace]
      by_cases hx : hasAction cfg x = true
      · simp [List.take_succ_cons, List.filter_cons, hx]
      · simp [List.take_succ_cons, List.filter_cons, hx]

theorem processGo_zero_id (cfg : InputConfig) (fuel : Nat) (s : State) :
    processGo cfg (fuel + 1) 0 s = some s := by
  simp [processGo]

theorem processGo_not_running (cfg : InputConfig) (fuel id : Nat) (s : State)
    (h : s.running = false) : processGo cfg (fuel + 1) id s = some s := by
  simp [processGo, h]

theorem processGo_step (cfg : InputConfig) (fuel id : Nat) (s : State)
    (h : s.running = true) (hid : id ≠ 0) :
    processGo cfg (fuel + 1) id s =
      processGo cfg fuel (cfg.events id).next (runEntry cfg id s) := by
  have : id > 0 := Nat.pos_of_ne_zero hid
  simp [processGo, h, this]

/-- With more loop tests allowed than the chain has entries, `processGo` runs
the loop body for the first `k` entries of the chain, where `k` is the first
position at which the running flag is false (or the whole length). -/
theorem processGo_of_chain (cfg : InputConfig) :
    ∀ (l : List Nat) (id fuel : Nat) (s : State), IsChain cfg id l → l.length < fuel →
      ∃ k, k ≤ l.length ∧ processGo cfg fuel id s = some (afterEntries cfg l k s) ∧
        (∀ j, j < k → (afterEntries cfg l j s).running = true) ∧
        (k < l.length → (afterEntries cfg l k s).running = false) := by
  intro l
  induction l with
  | nil =>
    intro id fuel s h hf
    have hid : id = 0 := h
    obtain ⟨f, rfl⟩ : ∃ f, fuel = f + 1 := ⟨fuel - 1, by omega⟩
    refine ⟨0, le_refl _, ?_, ?_, ?_⟩
    · rw [hid, processGo_zero_id, afterEntries_zero]
    · intro j hj; omega
    · intro hk; simp at hk
  | cons x xs ih =>
    intro id fuel s h hf
    obtain ⟨hne, hx, hxs⟩ := h
    obtain ⟨f, rfl⟩ : ∃ f, fuel = f + 1 := ⟨fuel - 1, by omega⟩
    have hf' : xs.length < f := by simp at hf; omega
    cases hrun : s.running with
    | false =>
      refine ⟨0, Nat.zero_le _, ?_, ?_, ?_⟩
      · rw [processGo_not_running cfg f id s hrun, afterEntries_zero]
      · intro j hj; omega
      · intro _; rw [afterEntries_zero]; exact hrun
    | true =>
      obtain ⟨k, hk, hgo, hbefore, hstop⟩ := ih _ f (runEntry cfg id s) hxs hf'
      refine ⟨k + 1, by simp; omega, ?_, ?_, ?_⟩
      · rw [processGo_step cfg f id s hrun hne, hgo, hx, afterEntries_succ]
      · intro j hj
        cases j with
        | zero => rw [afterEntries_zero]; exact hrun
        | succ j =>
          rw [hx, afterEntries_succ]
          exact hbefore j (by omega)
      · intro hlt
        rw [hx, afterEntries_succ]
        exact hstop (by simp at hlt; omega)

/-- C2: for the chain `l` of `id` (the entries reachable by `next` links, which
exist as a finite list exactly when the links are acyclic) and more loop tests
than entries, `processGo` returns, having run the loop body for the first `k`
entries of the chain in link order, with the running flag true before each of
them; it stops short of the end (`k < l.length`) only with the running flag
false; the callables called are those of these `k` entries, in order; no id
occurs twice in the chain; and `processGo(0)` returns the state as it was. -/
theorem processGo_runs_chain (cfg : InputConfig) (id fuel : Nat) (l : List Nat) (s : State)
    (hl : IsChain cfg id l) (hfuel : l.length < fuel) :
    (∃ k, k ≤ l.length ∧ processGo cfg fuel id s = some (afterEntries cfg l k s) ∧
        (∀ j, j < k → (afterEntries cfg l j s).running = true) ∧
        (k < l.length → (afterEntries cfg l k s).running = false) ∧
        (afterEntries cfg l k s).trace =
          s.trace ++ ((l.take k).filter (hasAction cfg)).map Obs.action) ∧
    l.Nodup ∧ processGo cfg fuel 0 s = some s := by
  refine ⟨?_, isChain_nodup cfg l id hl, ?_⟩
  · obtain ⟨k, hk, hgo, hbefore, hstop⟩ := processGo_of_chain cfg l id fuel s hl hfuel
    exact ⟨k, hk, hgo, hbefore, hstop, afterEntries_trace cfg l k s⟩
  · obtain ⟨f, rfl⟩ : ∃ f, fuel = f + 1 := ⟨fuel - 1, by omega⟩
    exact processGo_zero_id cfg f s

/-- Witness of C2: in the example the chain of event 9 is 9, 5, 7; the callable
of 9 clears the running flag, so only it is called. -/
theorem processGo_runs_chain_witness :
    IsChain exampleConfig 9 [9, 5, 7] ∧ [9, 5, 7].length < 4 ∧
    ([9, 5, 7].Nodup ∧
      processGo exampleConfig 4 0 (exampleState 0 0 5) = some (exampleState 0 0 5)) ∧
    (processGo exampleConfig 4 9 (exampleState 0 0 5)).map (fun t => (t.trace, t.running)) =
      some ([Obs.action 9], false) :=
  ⟨by simp [IsChain, exampleConfig, exampleEvents], by decide,
   (processGo_runs_chain exampleConfig 9 4 [9, 5, 7] (exampleState 0 0 5)
      (by simp [IsChain, exampleConfig, exampleEvents]) (by decide)).2,
   by decide⟩

/-! ## The dispatcher entries of the call log -/

theorem dispatched_refl (cfg : InputConfig) (s : State) : Dispatched cfg s s [] :=
  ⟨⟨[], by simp, rfl⟩, fun _ => ⟨rfl, rfl⟩⟩

theorem dispatched_trans (cfg : InputConfig) (s₁ s₂ s₃ : State) (c₁ c₂ : List Obs)
    (h₁ : Dispatched cfg s₁ s₂ c₁) (h₂ : Dispatched cfg s₂ s₃ c₂) :
    Dispatched cfg s₁ s₃ (c₁ ++ c₂) := by
  obtain ⟨⟨t₁, ht₁, hc₁⟩, hq₁⟩ := h₁
  obtain ⟨⟨t₂, ht₂, hc₂⟩, hq₂⟩ := h₂
  refine ⟨⟨t₁ ++ t₂, ?_, ?_⟩, ?_⟩
  · rw [ht₂, ht₁, List.append_assoc]
  · rw [List.filter_append, hc₁, hc₂]
  · intro hk
    exact ⟨(hq₂ hk).1.trans (hq₁ hk).1, (hq₂ hk).2.trans (hq₁ hk).2⟩

theorem dispatched_runEntry (cfg : InputConfig) (e : Nat) (s : State) :
    Dispatched cfg s (runEntry cfg e s) [] := by
  refine ⟨⟨if hasAction cfg e then [Obs.action e] else [], runEntry_trace cfg e s, ?_⟩, ?_⟩
  · split <;> simp [Obs.isDispatch]
  · intro hk
    unfold runEntry
    cases h : (cfg.events e).event with
    | none => exact ⟨rfl, rfl⟩
    | some f => exact hk e f h s.toCore

theorem dispatched_afterEntries (cfg : InputConfig) :
    ∀ (l : List Nat) (j : Nat) (s : State), Dispatched cfg s (afterEntries cfg l j s) [] := by
  intro l
  induction l with
  | nil => intro j s; simpa [afterEntries] using dispatched_refl cfg s
  | cons x xs ih =>
    intro j s
    cases j with
    | zero => rw [afterEntries_zero]; exact dispatched_refl cfg s
    | succ j =>
      rw [afterEntries_succ]
      have := dispatched_trans cfg _ _ _ _ _ (dispatched_runEntry cfg x s)
        (ih j (runEntry cfg x s))
      simpa using this

/-- When every chain ends within `n` links, `processGo` returns for every id as
soon as more than `n` loop tests are allowed. -/
theorem processGo_returns (cfg : InputConfig) (n fuel id : Nat) (s : State)
    (hn : ChainsWithin cfg n) (hf : n < fuel) :
    ∃ s', processGo cfg fuel id s = some s' ∧ Dispatched cfg s s' [] := by
  obtain ⟨l, hl, hlen⟩ := hn id
  obtain ⟨k, _, hgo, _, _⟩ := processGo_of_chain cfg l id fuel s hl (by omega)
  exact ⟨_, hgo, dispatched_afterEntries cfg l k s⟩

theorem dispatched_log (cfg : InputConfig) (s : State) (o : Obs)
    (ho : o.isDispatch = true) : Dispatched cfg s (s.log o) [o] :=
  ⟨⟨[o], rfl, by simp [ho]⟩, fun _ => ⟨rfl, rfl⟩⟩

theorem processNmea_real_returns (cfg : InputConfig) (n fuel ne_id : Nat) (s : State)
    (hn : ChainsWithin cfg n) (hf : n < fuel) :
    ∃ r, processNmea_real cfg fuel ne_id s = some r ∧
      Dispatched cfg s r.2 [Obs.nmea_real ne_id] := by
  have hlog := dispatched_log cfg s (Obs.nmea_real ne_id) rfl
  unfold processNmea_real
  simp only []
  split
  · exact ⟨_, rfl, hlog⟩
  · split
    · exact ⟨_, rfl, hlog⟩
    · split
      · obtain ⟨s', hgo, hd⟩ :=
          processGo_returns cfg n fuel (cfg.N2Event ne_id) (s.log (Obs.nmea_real ne_id)) hn hf
        refine ⟨(true, s'), by rw [hgo]; rfl, ?_⟩
        simpa using dispatched_trans cfg _ _ _ _ _ hlog hd
      · exact ⟨_, rfl, hlog⟩

theorem processGlideComputer_real_returns (cfg : InputConfig) (n fuel gce_id : Nat)
    (s : State) (hn : ChainsWithin cfg n) (hf : n < fuel) :
    ∃ r, processGlideComputer_real cfg fuel gce_id s = some r ∧
      Dispatched cfg s r.2 [Obs.gce_real gce_id] := by
  have hlog := dispatched_log cfg s (Obs.gce_real gce_id) rfl
  unfold processGlideComputer_real
  simp only []
  split
  · exact ⟨_, rfl, hlog⟩
  · split
    · exact ⟨_, rfl, hlog⟩
    · split
      · obtain ⟨s', hgo, hd⟩ :=
          processGo_returns cfg n fuel (cfg.GC2Event gce_id) (s.log (Obs.gce_real gce_id)) hn hf
        refine ⟨(true, s'), by rw [hgo]; rfl, ?_⟩
        simpa using dispatched_trans cfg _ _ _ _ _ hlog hd
      · exact ⟨_, rfl, hlog⟩

theorem drained_cons_free (q : List Int) : drained ((-1) :: q) = drained q := by
  simp [drained]

theorem drained_cons_used (x : Int) (q : List Int) (hx : x ≠ -1) :
    drained (x :: q) = toUInt32 x :: drained q := by
  simp [drained, hx]

theorem dispatchNMEA_returns (cfg : InputConfig) (n fuel : Nat)
    (hn : ChainsWithin cfg n) (hf : n < fuel) :
    ∀ (q : List Int) (s : State), ∃ s', dispatchNMEA cfg fuel q s = some s' ∧
      Dispatched cfg s s' ((drained q).map Obs.nmea_real) := by
  intro q
  induction q with
  | nil => intro s; exact ⟨s, rfl, by simpa [drained] using dispatched_refl cfg s⟩
  | cons x xs ih =>
    intro s
    by_cases hx : x = -1
    · obtain ⟨s', hs', hd⟩ := ih s
      refine ⟨s', by simp [dispatchNMEA, hx, hs'], ?_⟩
      rw [hx, drained_cons_free]; exact hd
    · obtain ⟨r, hr, hd₁⟩ := processNmea_real_returns cfg n fuel (toUInt32 x) s hn hf
      obtain ⟨s', hs', hd₂⟩ := ih r.2
      refine ⟨s', by simp [dispatchNMEA, hx, hr, hs'], ?_⟩
      rw [drained_cons_used x xs hx]
      simpa using dispatched_trans cfg _ _ _ _ _ hd₁ hd₂

theorem dispatchGCE_returns (cfg : InputConfig) (n fuel : Nat)
    (hn : ChainsWithin cfg n) (hf : n < fuel) :
    ∀ (q : List Int) (s : State), ∃ s', dispatchGCE cfg fuel q s = some s' ∧
      Dispatched cfg s s' ((drained q).map Obs.gce_real) := by
  intro q
  induction q with
  | nil => intro s; exact ⟨s, rfl, by simpa [drained] using dispatched_refl cfg s⟩
  | cons x xs ih =>
    intro s
    by_cases hx : x = -1
    · obtain ⟨s', hs', hd⟩ := ih s
      refine ⟨s', by simp [dispatchGCE, hx, hs'], ?_⟩
      rw [hx, drained_cons_free]; exact hd
    · obtain ⟨r, hr, hd₁⟩ := processGlideComputer_real_returns cfg n fuel (toUInt32 x) s hn hf
      obtain ⟨s', hs', hd₂⟩ := ih r.2
      refine ⟨s', by simp [dispatchGCE, hx, hr, hs'], ?_⟩
      rw [drained_cons_used x xs hx]
      simpa using dispatched_trans cfg _ _ _ _ _ hd₁ hd₂

/-- The call `DoQueuedEvents` returns when every chain is finite; its dispatcher entries
are those of the occupied slots of `GCE_Queue` followed by those of the occupied
slots of `NMEA_Queue`, and both queues are empty afterwards unless a callable
has written to them. -/
theorem DoQueuedEvents_returns (cfg : InputConfig) (n fuel : Nat) (s : State)
    (hn : ChainsWithin cfg n) (hf : n < fuel) :
    ∃ s' t, DoQueuedEvents cfg fuel s = some s' ∧ s'.trace = s.trace ++ t ∧
      t.filter Obs.isDispatch =
        (drained (s.GCE_Queue.take MAX_GCE_QUEUE)).map Obs.gce_real ++
          (drained (s.NMEA_Queue.take MAX_NMEA_QUEUE)).map Obs.nmea_real ∧
      (ActionsKeepQueues cfg →
        s'.GCE_Queue = List.replicate MAX_GCE_QUEUE (-1) ∧
        s'.NMEA_Queue = List.replicate MAX_NMEA_QUEUE (-1)) := by
  obtain ⟨s₂, hs₂, hd₁⟩ :=
    dispatchGCE_returns cfg n fuel hn hf (s.GCE_Queue.take MAX_GCE_QUEUE) (clearQueues s)
  obtain ⟨s₃, hs₃, hd₂⟩ :=
    dispatchNMEA_returns cfg n fuel hn hf (s.NMEA_Queue.take MAX_NMEA_QUEUE) s₂
  obtain ⟨⟨t, ht, hc⟩, hq⟩ := dispatched_trans cfg _ _ _ _ _ hd₁ hd₂
  refine ⟨s₃, t, ?_, ht, hc, ?_⟩
  · simp [DoQueuedEvents, hs₂, hs₃]
  · intro hk
    exact hq hk

/-! ## The two queues -/

theorem toInt32_ne_sentinel (n : Nat) (h : n < UINT_RANGE - 1) : toInt32 n ≠ -1 := by
  unfold toInt32 UINT_RANGE at *
  split <;> omega

theorem toUInt32_toInt32 (n : Nat) (h : n < UINT_RANGE) : toUInt32 (toInt32 n) = n := by
  unfold toInt32 toUInt32 UINT_RANGE at *
  split <;> omega

/-- The scan writes to the first free slot, if it is among the first `n`, and to
no other. -/
theorem storeFirstFree_at (v : Int) :
    ∀ (n : Nat) (pre post : List Int), (∀ x ∈ pre, x ≠ -1) → pre.length < n →
      storeFirstFree n (pre ++ (-1) :: post) v = pre ++ v :: post := by
  intro n
  induction n with
  | zero => intro pre post _ h; omega
  | succ n ih =>
    intro pre post h hlen
    cases pre with
    | nil => simp [storeFirstFree]
    | cons y ys =>
      have hy : y ≠ -1 := h y (List.mem_cons_self _ _)
      have := ih ys post (fun x hx => h x (List.mem_cons_of_mem _ hx))
        (by simp at hlen; omega)
      simp [storeFirstFree, hy, this]

/-- The scan leaves a queue without a free slot as it is. -/
theorem storeFirstFree_full (v : Int) :
    ∀ (n : Nat) (q : List Int), (∀ x ∈ q, x ≠ -1) → storeFirstFree n q v = q := by
  intro n
  induction n with
  | zero => intro q _; rfl
  | succ n ih =>
    intro q h
    cases q with
    | nil => rfl
    | cons y ys =>
      have hy : y ≠ -1 := h y (List.mem_cons_self _ _)
      simp [storeFirstFree, hy, ih ys (fun x hx => h x (List.mem_cons_of_mem _ hx))]

theorem foldl_storeFirstFree (n : Nat) (vs : List Int) :
    ∀ (pre : List Int) (m : Nat), (∀ x ∈ pre, x ≠ -1) → (∀ x ∈ vs, x ≠ -1) →
      vs.length ≤ m → pre.length + vs.length ≤ n →
      vs.foldl (storeFirstFree n) (pre ++ List.replicate m (-1)) =
        pre ++ vs ++ List.replicate (m - vs.length) (-1) := by
  induction vs with
  | nil => intro pre m _ _ _ _; simp
  | cons v vs ih =>
    intro pre m hpre hvs hlen hn
    obtain ⟨k, rfl⟩ : ∃ k, m = k + 1 := ⟨m - 1, by simp at hlen; omega⟩
    have hv : v ≠ -1 := hvs v (List.mem_cons_self _ _)
    rw [List.foldl_cons, List.replicate_succ,
      storeFirstFree_at v n pre _ hpre (by simp at hn; omega)]
    have h1 : pre ++ v :: List.replicate k (-1) = (pre ++ [v]) ++ List.replicate k (-1) := by
      simp
    rw [h1, ih (pre ++ [v]) k ?_ (fun x hx => hvs x (List.mem_cons_of_mem _ hx))
      (by simp at hlen; omega) (by simp at hn ⊢; omega)]
    · simp
    · intro x hx
      rcases List.mem_append.mp hx with h | h
      · exact hpre x h
      · simp at h; rw [h]; exact hv

theorem drained_enqueued (ids : List Nat) (k : Nat)
    (hids : ∀ id ∈ ids, id < UINT_RANGE - 1) :
    drained (ids.map toInt32 ++ List.replicate k (-1)) = ids := by
  induction ids with
  | nil => simp [drained]
  | cons a as ih =>
    have ha := hids a (List.mem_cons_self _ _)
    rw [List.map_cons, List.cons_append, drained_cons_used _ _ (toInt32_ne_sentinel a ha),
      ih (fun x hx => hids x (List.mem_cons_of_mem _ hx)),
      toUInt32_toInt32 a (by unfold UINT_RANGE at *; omega)]

theorem enqueueAllNmea_eq (ids : List Nat) :
    ∀ s : State, enqueueAllNmea ids s =
      { s with NMEA_Queue :=
          (ids.map toInt32).foldl (storeFirstFree MAX_NMEA_QUEUE) s.NMEA_Queue } := by
  induction ids with
  | nil => intro s; rfl
  | cons a as ih =>
    intro s
    show enqueueAllNmea as (processNmea a s).2 = _
    rw [ih]; rfl

theorem enqueueAllGce_eq (ids : List Nat) :
    ∀ s : State, enqueueAllGce ids s =
      { s with GCE_Queue :=
          (ids.map toInt32).foldl (storeFirstFree MAX_GCE_QUEUE) s.GCE_Queue } := by
  induction ids with
  | nil => intro s; rfl
  | cons a as ih =>
    intro s
    show enqueueAllGce as (processGlideComputer a s).2 = _
    rw [ih]; rfl

/-- Ids enqueued onto an empty queue of capacity `m` fill its first slots in the
order of enqueuing. -/
theorem enqueued_on_empty (ids : List Nat) (m : Nat) (hlen : ids.length ≤ m)
    (hids : ∀ id ∈ ids, id < UINT_RANGE - 1) :
    (ids.map toInt32).foldl (storeFirstFree m) (List.replicate m (-1)) =
      ids.map toInt32 ++ List.replicate (m - ids.length) (-1) := by
  have h := foldl_storeFirstFree m (ids.map toInt32) [] m (by simp)
    (by
      intro x hx
      obtain ⟨a, ha, rfl⟩ := List.mem_map.mp hx
      exact toInt32_ne_sentinel a (hids a ha))
    (by simpa using hlen) (by simpa using hlen)
  simpa using h

theorem take_enqueued (ids : List Nat) (m : Nat) (hlen : ids.length ≤ m) :
    (ids.map toInt32 ++ List.replicate (m - ids.length) (-1)).take m =
      ids.map toInt32 ++ List.replicate (m - ids.length) (-1) := by
  apply List.take_of_length_le
  simp
  omega

theorem filter_isNmea_of_isDispatch (t : List Obs) :
    t.filter Obs.isNmea = (t.filter Obs.isDispatch).filter Obs.isNmea := by
  induction t with
  | nil => rfl
  | cons o os ih => cases o <;> simp [List.filter_cons, Obs.isNmea, Obs.isDispatch, ih]

theorem filter_isGce_of_isDispatch (t : List Obs) :
    t.filter Obs.isGce = (t.filter Obs.isDispatch).filter Obs.isGce := by
  induction t with
  | nil => rfl
  | cons o os ih => cases o <;> simp [List.filter_cons, Obs.isGce, Obs.isDispatch, ih]

theorem filter_isNmea_calls (g n : List Nat) :
    (g.map Obs.gce_real ++ n.map Obs.nmea_real).filter Obs.isNmea = n.map Obs.nmea_real := by
  rw [List.filter_append]
  have h1 : (g.map Obs.gce_real).filter Obs.isNmea = [] := by
    induction g with
    | nil => rfl
    | cons a as ih => simp [List.filter_cons, Obs.isNmea, ih]
  have h2 : (n.map Obs.nmea_real).filter Obs.isNmea = n.map Obs.nmea_real := by
    induction n with
    | nil => rfl
    | cons a as ih => simp [List.filter_cons, Obs.isNmea, ih]
  rw [h1, h2, List.nil_append]

theorem filter_isGce_calls (g n : List Nat) :
    (g.map Obs.gce_real ++ n.map Obs.nmea_real).filter Obs.isGce = g.map Obs.gce_real := by
  rw [List.filter_append]
  have h1 : (g.map Obs.gce_real).filter Obs.isGce = g.map Obs.gce_real := by
    induction g with
    | nil => rfl
    | cons a as ih => simp [List.filter_cons, Obs.isGce, ih]
  have h2 : (n.map Obs.nmea_real).filter Obs.isGce = [] := by
    induction n with
    | nil => rfl
    | cons a as ih => simp [List.filter_cons, Obs.isGce, ih]
  rw [h1, h2, List.append_nil]

theorem exampleConfig_chains : ChainsWithin exampleConfig 3 := by
  intro id
  by_cases h0 : id = 0
  · exact ⟨[], by simp [IsChain, h0], by simp⟩
  · by_cases h5 : id = 5
    · exact ⟨[5, 7], by simp [IsChain, h5, exampleConfig, exampleEvents], by simp⟩
    · by_cases h9 : id = 9
      · exact ⟨[9, 5, 7], by simp [IsChain, h9, exampleConfig, exampleEvents], by simp⟩
      · exact ⟨[id], by simp [IsChain, h0, h5, h9, exampleConfig, exampleEvents], by simp⟩

theorem exampleConfig_keeps : ActionsKeepQueues exampleConfig := by
  intro id f hf c
  by_cases h5 : id = 5
  · subst h5
    have : f = actionToPan := by
      simpa [exampleConfig, exampleEvents] using hf.symm
    subst this
    exact ⟨rfl, rfl⟩
  · by_cases h9 : id = 9
    · subst h9
      have : f = actionShutdown := by
        simpa [exampleConfig, exampleEvents] using hf.symm
      subst this
      exact ⟨rfl, rfl⟩
    · simp [exampleConfig, exampleEvents, h5, h9] at hf

/-- C3: starting from empty queues, enqueue at most ten ids (none the sentinel)
with `processNmea` and at most ten with `processGlideComputer`.  When every
chain is finite and no callable writes to a queue, `DoQueuedEvents` returns,
the ids it hands to `processNmea_real` are the ids enqueued with `processNmea`
in the order of enqueuing, the same holds for `processGlideComputer_real`, and
all slots of both queues are empty afterwards; with nothing enqueued it leaves
the state, call log included, as it was. -/
theorem drain_in_insertion_order (cfg : InputConfig) (n fuel : Nat) (idsN idsG : List Nat)
    (s : State) (hn : ChainsWithin cfg n) (hf : n < fuel) (hk : ActionsKeepQueues cfg)
    (hN : s.NMEA_Queue = List.replicate MAX_NMEA_QUEUE (-1))
    (hG : s.GCE_Queue = List.replicate MAX_GCE_QUEUE (-1))
    (hlenN : idsN.length ≤ MAX_NMEA_QUEUE) (hlenG : idsG.length ≤ MAX_GCE_QUEUE)
    (hidsN : ∀ id ∈ idsN, id < UINT_RANGE - 1) (hidsG : ∀ id ∈ idsG, id < UINT_RANGE - 1) :
    (∃ s' t, DoQueuedEvents cfg fuel (enqueueAllGce idsG (enqueueAllNmea idsN s)) = some s' ∧
      s'.trace = s.trace ++ t ∧
      t.filter Obs.isNmea = idsN.map Obs.nmea_real ∧
      t.filter Obs.isGce = idsG.map Obs.gce_real ∧
      s'.NMEA_Queue = List.replicate MAX_NMEA_QUEUE (-1) ∧
      s'.GCE_Queue = List.replicate MAX_GCE_QUEUE (-1)) ∧
    DoQueuedEvents cfg fuel s = some s := by
  constructor
  · obtain ⟨s', t, hdo, htr, hcalls, hq⟩ :=
      DoQueuedEvents_returns cfg n fuel (enqueueAllGce idsG (enqueueAllNmea idsN s)) hn hf
    have hGq : (enqueueAllGce idsG (enqueueAllNmea idsN s)).GCE_Queue =
        idsG.map toInt32 ++ List.replicate (MAX_GCE_QUEUE - idsG.length) (-1) := by
      rw [enqueueAllGce_eq, enqueueAllNmea_eq]
      show (idsG.map toInt32).foldl (storeFirstFree MAX_GCE_QUEUE) s.GCE_Queue = _
      rw [hG, enqueued_on_empty idsG _ hlenG hidsG]
    have hNq : (enqueueAllGce idsG (enqueueAllNmea idsN s)).NMEA_Queue =
        idsN.map toInt32 ++ List.replicate (MAX_NMEA_QUEUE - idsN.length) (-1) := by
      rw [enqueueAllGce_eq, enqueueAllNmea_eq]
      show (idsN.map toInt32).foldl (storeFirstFree MAX_NMEA_QUEUE) s.NMEA_Queue = _
      rw [hN, enqueued_on_empty idsN _ hlenN hidsN]
    have htrace : (enqueueAllGce idsG (enqueueAllNmea idsN s)).trace = s.trace := by
      rw [enqueueAllGce_eq, enqueueAllNmea_eq]
    rw [hGq, hNq, take_enqueued idsG _ hlenG, take_enqueued idsN _ hlenN,
      drained_enqueued idsG _ hidsG, drained_enqueued idsN _ hidsN] at hcalls
    refine ⟨s', t, hdo, by rw [htr, htrace], ?_, ?_, (hq hk).2, (hq hk).1⟩
    · rw [filter_isNmea_of_isDispatch, hcalls, filter_isNmea_calls]
    · rw [filter_isGce_of_isDispatch, hcalls, filter_isGce_calls]
  · have hclear : clearQueues s = s := by
      unfold clearQueues
      rw [← hN, ← hG]
    have h1 : ∀ (k : Nat) (u : State),
        dispatchGCE cfg fuel (List.replicate k (-1)) u = some u := by
      intro k
      induction k with
      | zero => intro u; rfl
      | succ k ih => intro u; simp [List.replicate_succ, dispatchGCE, ih]
    have h2 : ∀ (k : Nat) (u : State),
        dispatchNMEA cfg fuel (List.replicate k (-1)) u = some u := by
      intro k
      induction k with
      | zero => intro u; rfl
      | succ k ih => intro u; simp [List.replicate_succ, dispatchNMEA, ih]
    unfold DoQueuedEvents
    simp only [hclear]
    rw [hG, hN, List.take_replicate, List.take_replicate, h1]
    simp only [Option.some_bind, h2]

/-- Witness of C3: NMEA ids 1, 3 and glide-computer ids 2, 4 enqueued in the
example are handed on in that order and the queues are empty afterwards. -/
theorem drain_in_insertion_order_witness :
    (∃ s' t, DoQueuedEvents exampleConfig 4
        (enqueueAllGce [2, 4] (enqueueAllNmea [1, 3] (exampleState 0 0 5))) = some s' ∧
      s'.trace = (exampleState 0 0 5).trace ++ t ∧
      t.filter Obs.isNmea = [1, 3].map Obs.nmea_real ∧
      t.filter Obs.isGce = [2, 4].map Obs.gce_real ∧
      s'.NMEA_Queue = List.replicate MAX_NMEA_QUEUE (-1) ∧
      s'.GCE_Queue = List.replicate MAX_GCE_QUEUE (-1)) ∧
    (DoQueuedEvents exampleConfig 4
        (enqueueAllGce [2, 4] (enqueueAllNmea [1, 3] (exampleState 0 0 5)))).map
      (fun u => u.trace) =
      some [Obs.gce_real 2, Obs.gce_real 4, Obs.nmea_real 1, Obs.action 5, Obs.nmea_real 3] :=
  ⟨(drain_in_insertion_order exampleConfig 3 4 [1, 3] [2, 4] (exampleState 0 0 5)
      exampleConfig_chains (by decide) exampleConfig_keeps rfl rfl (by decide) (by decide)
      (by decide) (by decide)).1,
   by decide⟩

/-- C4: enqueuing with `processNmea` into an `NMEA_Queue` whose ten slots are
all occupied, and with `processGlideComputer` into a `GCE_Queue` whose ten slots
are all occupied, leaves the whole state as it was: the ten items and their
order, and the other queue. -/
theorem enqueue_full_unchanged (id : Nat) (sN sG : State)
    (hN : QueueFull sN.NMEA_Queue) (hG : QueueFull sG.GCE_Queue) :
    (processNmea id sN).2 = sN ∧ (processGlideComputer id sG).2 = sG := by
  constructor
  · show ({ sN with NMEA_Queue :=
        storeFirstFree MAX_NMEA_QUEUE sN.NMEA_Queue (toInt32 id) } : State) = sN
    rw [storeFirstFree_full _ _ _ hN.2]
  · show ({ sG with GCE_Queue :=
        storeFirstFree MAX_GCE_QUEUE sG.GCE_Queue (toInt32 id) } : State) = sG
    rw [storeFirstFree_full _ _ _ hG.2]

/-- Witness of C4: id 21 enqueued into the full queues of `fullState`. -/
theorem enqueue_full_unchanged_witness :
    QueueFull fullState.NMEA_Queue ∧ QueueFull fullState.GCE_Queue ∧
    (processNmea 21 fullState).2 = fullState ∧
    (processGlideComputer 21 fullState).2 = fullState :=
  ⟨⟨rfl, by decide⟩, ⟨rfl, by decide⟩,
   enqueue_full_unchanged 21 fullState fullState ⟨rfl, by decide⟩ ⟨rfl, by decide⟩⟩

/-- Counterexample to C5: with no free slot in either queue, `processNmea` and
`processGlideComputer` drop the id and still return `true`. -/
theorem enqueue_full_returns_true :
    QueueFull fullState.NMEA_Queue ∧ QueueFull fullState.GCE_Queue ∧
    (processNmea 21 fullState).1 = true ∧
    (processNmea 21 fullState).2.NMEA_Queue = fullState.NMEA_Queue ∧
    (processGlideComputer 21 fullState).1 = true ∧
    (processGlideComputer 21 fullState).2.GCE_Queue = fullState.GCE_Queue :=
  ⟨⟨rfl, by decide⟩, ⟨rfl, by decide⟩, rfl, by decide, rfl, by decide⟩

/-- C5 (amended): `processNmea` and `processGlideComputer` return `true` in every
state; when one of the ten slots is free the id is written to the first free
slot, and when no slot is free the state is left as it was. -/
theorem enqueue_always_returns_true (id : Nat) (s : State) :
    (processNmea id s).1 = true ∧ (processGlideComputer id s).1 = true ∧
    (∀ pre post, s.NMEA_Queue = pre ++ (-1) :: post → (∀ x ∈ pre, x ≠ -1) →
      pre.length < MAX_NMEA_QUEUE →
      (processNmea id s).2.NMEA_Queue = pre ++ toInt32 id :: post) ∧
    (∀ pre post, s.GCE_Queue = pre ++ (-1) :: post → (∀ x ∈ pre, x ≠ -1) →
      pre.length < MAX_GCE_QUEUE →
      (processGlideComputer id s).2.GCE_Queue = pre ++ toInt32 id :: post) ∧
    ((∀ x ∈ s.NMEA_Queue, x ≠ -1) → (processNmea id s).2 = s) ∧
    ((∀ x ∈ s.GCE_Queue, x ≠ -1) → (processGlideComputer id s).2 = s) := by
  refine ⟨rfl, rfl, ?_, ?_, ?_, ?_⟩
  · intro pre post hq hpre hlen
    show storeFirstFree MAX_NMEA_QUEUE s.NMEA_Queue (toInt32 id) = _
    rw [hq, storeFirstFree_at _ _ _ _ hpre hlen]
  · intro pre post hq hpre hlen
    show storeFirstFree MAX_GCE_QUEUE s.GCE_Queue (toInt32 id) = _
    rw [hq, storeFirstFree_at _ _ _ _ hpre hlen]
  · intro h
    show ({ s with NMEA_Queue :=
        storeFirstFree MAX_NMEA_QUEUE s.NMEA_Queue (toInt32 id) } : State) = s
    rw [storeFirstFree_full _ _ _ h]
  · intro h
    show ({ s with GCE_Queue :=
        storeFirstFree MAX_GCE_QUEUE s.GCE_Queue (toInt32 id) } : State) = s
    rw [storeFirstFree_full _ _ _ h]

/-- Witness of C5 (amended): id 7 goes to the first slot of the empty NMEA queue
and `true` is returned. -/
theorem enqueue_always_returns_true_witness :
    (processNmea 7 (exampleState 0 0 5)).1 = true ∧
    (processNmea 7 (exampleState 0 0 5)).2.NMEA_Queue =
      [] ++ toInt32 7 :: List.replicate 9 (-1) :=
  ⟨(enqueue_always_returns_true 7 (exampleState 0 0 5)).1,
   (enqueue_always_returns_true 7 (exampleState 0 0 5)).2.2.1 [] (List.replicate 9 (-1))
      rfl (by simp) (by decide)⟩

/-! ## Modes and the menu timer -/

theorem filter_isDispatch_labels (f : Nat → Option String) (r : List Nat) :
    (r.map (fun i => Obs.SetLabelText i (f i))).filter Obs.isDispatch = [] := by
  induction r with
  | nil => rfl
  | cons a as ih => simp [List.filter_cons, Obs.isDispatch, ih]

theorem drawButtons_dispatched (cfg : InputConfig) (m : Nat) (full : Bool) (s : State) :
    Dispatched cfg s (drawButtons cfg m full s) [] := by
  unfold drawButtons
  split
  · exact dispatched_refl cfg s
  · exact ⟨⟨_, rfl, filter_isDispatch_labels _ _⟩, fun _ => ⟨rfl, rfl⟩⟩

theorem drawButtons_core (cfg : InputConfig) (m : Nat) (full : Bool) (s : State) :
    (drawButtons cfg m full s).toCore = s.toCore ∧
    (drawButtons cfg m full s).assert_failed = s.assert_failed := by
  unfold drawButtons
  split <;> exact ⟨rfl, rfl⟩

theorem setMode_dispatched (cfg : InputConfig) (m : Nat) (s : State) :
    Dispatched cfg s (setMode cfg m s) [] := by
  unfold setMode
  dsimp only
  split
  · exact ⟨⟨[], by simp, rfl⟩, fun _ => ⟨rfl, rfl⟩⟩
  · exact drawButtons_dispatched cfg m true _

theorem setMode_core (cfg : InputConfig) (m : Nat) (s : State) :
    (setMode cfg m s).toCore = { s.toCore with current_mode := m } := by
  unfold setMode
  dsimp only
  split
  · next h => rw [h]
  · rw [(drawButtons_core cfg _ true _).1]

theorem ProcessMenuTimer_dialog (cfg : InputConfig) (s : State) (hd : s.has_dialog = true) :
    ProcessMenuTimer cfg s = s.log Obs.ProcessMenuTimer := by
  have : (s.log Obs.ProcessMenuTimer).has_dialog = true := hd
  unfold ProcessMenuTimer
  simp [this]

theorem ProcessMenuTimer_core (cfg : InputConfig) (s : State) (hd : s.has_dialog = false) :
    (ProcessMenuTimer cfg s).toCore =
      { s.toCore with
        current_mode :=
          if s.MenuTimeOut = s.menu_timeout then
            (if s.panning then cfg.MODE_PAN else cfg.MODE_DEFAULT)
          else s.current_mode,
        MenuTimeOut := (s.MenuTimeOut + 1) % UINT_RANGE } := by
  have h1 : (s.log Obs.ProcessMenuTimer).has_dialog = false := hd
  have h2 : (s.log Obs.ProcessMenuTimer).toCore = s.toCore := rfl
  unfold ProcessMenuTimer
  simp only [h1]
  by_cases ht : s.MenuTimeOut = s.menu_timeout
  · by_cases hp : s.panning = true
    · have e1 : (s.log Obs.ProcessMenuTimer).MenuTimeOut =
          (s.log Obs.ProcessMenuTimer).menu_timeout := ht
      have e2 : (s.log Obs.ProcessMenuTimer).panning = true := hp
      simp [e1, e2, ht, hp, (drawButtons_core _ _ _ _).1, setMode_core, h2]
    · have e1 : (s.log Obs.ProcessMenuTimer).MenuTimeOut =
          (s.log Obs.ProcessMenuTimer).menu_timeout := ht
      have e2 : (s.log Obs.ProcessMenuTimer).panning = false := by simpa using hp
      simp [e1, e2, ht, hp, (drawButtons_core _ _ _ _).1, setMode_core, h2]
  · have e1 : ¬ (s.log Obs.ProcessMenuTimer).MenuTimeOut =
        (s.log Obs.ProcessMenuTimer).menu_timeout := ht
    simp [e1, ht, (drawButtons_core _ _ _ _).1, h2]

theorem ProcessMenuTimer_dispatched (cfg : InputConfig) (s : State) :
    Dispatched cfg s (ProcessMenuTimer cfg s) [Obs.ProcessMenuTimer] := by
  have hlog := dispatched_log cfg s Obs.ProcessMenuTimer rfl
  unfold ProcessMenuTimer
  simp only []
  split
  · exact hlog
  · have hset : Dispatched cfg (s.log Obs.ProcessMenuTimer)
        (if (s.log Obs.ProcessMenuTimer).MenuTimeOut =
            (s.log Obs.ProcessMenuTimer).menu_timeout then
          if (s.log Obs.ProcessMenuTimer).panning = true then
            setMode cfg cfg.MODE_PAN (s.log Obs.ProcessMenuTimer)
          else setMode cfg cfg.MODE_DEFAULT (s.log Obs.ProcessMenuTimer)
        else s.log Obs.ProcessMenuTimer) [] := by
      split
      · split
        · exact setMode_dispatched _ _ _
        · exact setMode_dispatched _ _ _
      · exact dispatched_refl _ _
    have hdraw := drawButtons_dispatched cfg
      (getModeID (if (s.log Obs.ProcessMenuTimer).MenuTimeOut =
            (s.log Obs.ProcessMenuTimer).menu_timeout then
          if (s.log Obs.ProcessMenuTimer).panning = true then
            setMode cfg cfg.MODE_PAN (s.log Obs.ProcessMenuTimer)
          else setMode cfg cfg.MODE_DEFAULT (s.log Obs.ProcessMenuTimer)
        else s.log Obs.ProcessMenuTimer)) false
      (if (s.log Obs.ProcessMenuTimer).MenuTimeOut =
            (s.log Obs.ProcessMenuTimer).menu_timeout then
          if (s.log Obs.ProcessMenuTimer).panning = true then
            setMode cfg cfg.MODE_PAN (s.log Obs.ProcessMenuTimer)
          else setMode cfg cfg.MODE_DEFAULT (s.log Obs.ProcessMenuTimer)
        else s.log Obs.ProcessMenuTimer)
    have h := dispatched_trans cfg _ _ _ _ _ (dispatched_trans cfg _ _ _ _ _ hlog hset) hdraw
    simp only [List.append_nil] at h
    exact ⟨h.1, h.2⟩

/-- Counterexample to C6: with NMEA id 1 and glide-computer id 2 queued,
`ProcessTimer` enters `processGlideComputer_real(2)` before
`processNmea_real(1)`. -/
theorem ProcessTimer_gce_before_nmea :
    queuedState.running = true ∧
    queuedState.NMEA_Queue = 1 :: List.replicate 9 (-1) ∧
    queuedState.GCE_Queue = 2 :: List.replicate 9 (-1) ∧
    (ProcessTimer exampleConfig 4 queuedState).map
        (fun u => u.trace.filter Obs.isDispatch) =
      some [Obs.gce_real 2, Obs.nmea_real 1, Obs.ProcessMenuTimer] :=
  ⟨rfl, by decide, by decide, by decide⟩

/-- C6 (amended): a `ProcessTimer` call with the running flag true (and every
chain finite) returns; it enters `processGlideComputer_real` for every occupied
slot of `GCE_Queue` in slot order, then `processNmea_real` for every occupied
slot of `NMEA_Queue` in slot order, and `ProcessMenuTimer` after all of them. -/
theorem ProcessTimer_dispatch_order (cfg : InputConfig) (n fuel : Nat) (s : State)
    (hn : ChainsWithin cfg n) (hf : n < fuel) (hrun : s.running = true) :
    ∃ s' t, ProcessTimer cfg fuel s = some s' ∧ s'.trace = s.trace ++ t ∧
      t.filter Obs.isDispatch =
        (drained (s.GCE_Queue.take MAX_GCE_QUEUE)).map Obs.gce_real ++
          (drained (s.NMEA_Queue.take MAX_NMEA_QUEUE)).map Obs.nmea_real ++
          [Obs.ProcessMenuTimer] := by
  obtain ⟨s₁, t₁, hdo, ht₁, hc₁, _⟩ := DoQueuedEvents_returns cfg n fuel s hn hf
  obtain ⟨⟨t₂, ht₂, hc₂⟩, _⟩ := ProcessMenuTimer_dispatched cfg s₁
  refine ⟨ProcessMenuTimer cfg s₁, t₁ ++ t₂, ?_, ?_, ?_⟩
  · simp [ProcessTimer, hrun, hdo]
  · rw [ht₂, ht₁, List.append_assoc]
  · rw [List.filter_append, hc₁, hc₂]

/-- Witness of C6 (amended): the example with NMEA id 1 and glide-computer id 2
queued. -/
theorem ProcessTimer_dispatch_order_witness :
    ∃ s' t, ProcessTimer exampleConfig 4 queuedState = some s' ∧
      s'.trace = queuedState.trace ++ t ∧
      t.filter Obs.isDispatch =
        (drained (queuedState.GCE_Queue.take MAX_GCE_QUEUE)).map Obs.gce_real ++
          (drained (queuedState.NMEA_Queue.take MAX_NMEA_QUEUE)).map Obs.nmea_real ++
          [Obs.ProcessMenuTimer] :=
  ProcessTimer_dispatch_order exampleConfig 3 4 queuedState exampleConfig_chains
    (by decide) rfl

/-- C7: with a valid current mode, `LeaveMode(name)` makes the default mode
current when the name of the current mode is `name` and leaves the state as it
was otherwise; in particular `LeaveMode("menu")` in a mode named "pan" changes
nothing. -/
theorem LeaveMode_by_name (cfg : InputConfig) (name : String) (s : State)
    (hvalid : s.current_mode < cfg.modes.length) :
    (cfg.modes.get ⟨s.current_mode, hvalid⟩ = name →
      (LeaveMode cfg name s).current_mode = cfg.MODE_DEFAULT) ∧
    (cfg.modes.get ⟨s.current_mode, hvalid⟩ ≠ name → LeaveMode cfg name s = s) ∧
    (cfg.modes.get ⟨s.current_mode, hvalid⟩ = "pan" → LeaveMode cfg "menu" s = s) := by
  have hget : cfg.modes.get? s.current_mode = some (cfg.modes.get ⟨s.current_mode, hvalid⟩) :=
    List.get?_eq_get hvalid
  refine ⟨?_, ?_, ?_⟩
  · intro h
    unfold LeaveMode
    rw [if_pos (by rw [hget, h])]
    show (setMode cfg cfg.MODE_DEFAULT s).toCore.current_mode = _
    rw [setMode_core]
  · intro h
    unfold LeaveMode
    rw [if_neg]
    rw [hget]
    intro hc
    exact h (Option.some.inj hc)
  · intro h
    unfold LeaveMode
    rw [if_neg]
    rw [hget, h]
    decide

/-- Witness of C7: in the example, `LeaveMode("menu")` in mode "pan" changes
nothing and `LeaveMode("pan")` leads to the default mode. -/
theorem LeaveMode_by_name_witness :
    (exampleState 1 0 5).current_mode < exampleConfig.modes.length ∧
    LeaveMode exampleConfig "menu" (exampleState 1 0 5) = exampleState 1 0 5 ∧
    (LeaveMode exampleConfig "pan" (exampleState 1 0 5)).current_mode = 0 :=
  ⟨by decide,
   (LeaveMode_by_name exampleConfig "menu" (exampleState 1 0 5) (by decide)).2.2 rfl,
   (LeaveMode_by_name exampleConfig "pan" (exampleState 1 0 5) (by decide)).1 rfl⟩

/-- Program state on return from `HideMenu` when no dialog is visible. -/
theorem HideMenu_core (cfg : InputConfig) (s : State) (hd : s.has_dialog = false) :
    (HideMenu cfg s).toCore =
      { s.toCore with
        current_mode := if s.panning then cfg.MODE_PAN else cfg.MODE_DEFAULT,
        MenuTimeOut := (s.menu_timeout + 1) % UINT_RANGE } := by
  unfold HideMenu
  rw [ProcessMenuTimer_core cfg { s with MenuTimeOut := s.menu_timeout } hd]
  simp

/-- State of the ticks after `HideMenu`: `k` calls of `ProcessMenuTimer`, none of
which sees the counter at the timeout. -/
theorem ticks_after_HideMenu (cfg : InputConfig) (s : State) (hd : s.has_dialog = false)
    (ht : s.menu_timeout < UINT_RANGE) :
    ∀ k, k ≤ s.menu_timeout →
      ((ProcessMenuTimer cfg)^[k] (HideMenu cfg s)).toCore =
        { s.toCore with
          current_mode := if s.panning then cfg.MODE_PAN else cfg.MODE_DEFAULT,
          MenuTimeOut := (s.menu_timeout + 1 + k) % UINT_RANGE } := by
  intro k
  induction k with
  | zero => intro _; rw [Function.iterate_zero, id_eq, HideMenu_core cfg s hd]
  | succ k ih =>
    intro hk
    have ih' := ih (by omega)
    have hd' : ((ProcessMenuTimer cfg)^[k] (HideMenu cfg s)).has_dialog = false := by
      show ((ProcessMenuTimer cfg)^[k] (HideMenu cfg s)).toCore.has_dialog = false
      rw [ih']; exact hd
    rw [Function.iterate_succ_apply', ProcessMenuTimer_core cfg _ hd']
    have hc : ((ProcessMenuTimer cfg)^[k] (HideMenu cfg s)).MenuTimeOut =
        (s.menu_timeout + 1 + k) % UINT_RANGE := by
      show ((ProcessMenuTimer cfg)^[k] (HideMenu cfg s)).toCore.MenuTimeOut = _
      rw [ih']
    have hm : ((ProcessMenuTimer cfg)^[k] (HideMenu cfg s)).menu_timeout = s.menu_timeout := by
      show ((ProcessMenuTimer cfg)^[k] (HideMenu cfg s)).toCore.menu_timeout = _
      rw [ih']
    have hne : ¬ ((ProcessMenuTimer cfg)^[k] (HideMenu cfg s)).MenuTimeOut =
        ((ProcessMenuTimer cfg)^[k] (HideMenu cfg s)).menu_timeout := by
      rw [hc, hm]
      unfold UINT_RANGE at *
      omega
    rw [if_neg hne, hc, ih']
    have harith : ((s.menu_timeout + 1 + k) % UINT_RANGE + 1) % UINT_RANGE =
        (s.menu_timeout + 1 + (k + 1)) % UINT_RANGE := by
      unfold UINT_RANGE
      omega
    simp [harith]

/-- Counterexample to C8: in mode 3 (menu) with timeout 3, `HideMenu` alone has
already switched to the default mode, before the first of the three following
ticks; and none of these ticks sees the counter at 3. -/
theorem HideMenu_transitions_at_once :
    (exampleState 3 0 3).current_mode = exampleConfig.MODE_MENU ∧
    (exampleState 3 0 3).menu_timeout = 3 ∧
    (HideMenu exampleConfig (exampleState 3 0 3)).current_mode = exampleConfig.MODE_DEFAULT ∧
    (HideMenu exampleConfig (exampleState 3 0 3)).MenuTimeOut = 4 ∧
    ∀ k, k < 3 →
      ((ProcessMenuTimer exampleConfig)^[k]
        (HideMenu exampleConfig (exampleState 3 0 3))).MenuTimeOut ≠ 3 := by
  decide

/-- C8 (amended): with no dialog visible, `HideMenu()` makes the transition
itself, in the `ProcessMenuTimer` call it ends with: on return the mode is
`MODE_PAN` if panning and `MODE_DEFAULT` otherwise and the counter is
`menu_timeout + 1`.  None of the following `n ≤ menu_timeout` calls of
`ProcessMenuTimer` sees the counter equal to `menu_timeout`, and the mode stays
what `HideMenu` made it. -/
theorem HideMenu_then_ticks (cfg : InputConfig) (s : State) (n : Nat)
    (hd : s.has_dialog = false) (ht : s.menu_timeout < UINT_RANGE)
    (hn : n ≤ s.menu_timeout) :
    (HideMenu cfg s).current_mode = (if s.panning then cfg.MODE_PAN else cfg.MODE_DEFAULT) ∧
    (HideMenu cfg s).MenuTimeOut = (s.menu_timeout + 1) % UINT_RANGE ∧
    (∀ k, k < n →
      ((ProcessMenuTimer cfg)^[k] (HideMenu cfg s)).MenuTimeOut ≠ s.menu_timeout) ∧
    (∀ k, k ≤ n →
      ((ProcessMenuTimer cfg)^[k] (HideMenu cfg s)).current_mode =
        (if s.panning then cfg.MODE_PAN else cfg.MODE_DEFAULT)) := by
  refine ⟨?_, ?_, ?_, ?_⟩
  · show (HideMenu cfg s).toCore.current_mode = _
    rw [HideMenu_core cfg s hd]
  · show (HideMenu cfg s).toCore.MenuTimeOut = _
    rw [HideMenu_core cfg s hd]
  · intro k hk
    show ((ProcessMenuTimer cfg)^[k] (HideMenu cfg s)).toCore.MenuTimeOut ≠ _
    rw [ticks_after_HideMenu cfg s hd ht k (by omega)]
    show (s.menu_timeout + 1 + k) % UINT_RANGE ≠ s.menu_timeout
    unfold UINT_RANGE at *
    omega
  · intro k hk
    show ((ProcessMenuTimer cfg)^[k] (HideMenu cfg s)).toCore.current_mode = _
    rw [ticks_after_HideMenu cfg s hd ht k (by omega)]

/-- Witness of C8 (amended): mode 3, timeout 3, three ticks after `HideMenu`. -/
theorem HideMenu_then_ticks_witness :
    (exampleState 3 0 3).has_dialog = false ∧ (exampleState 3 0 3).menu_timeout < UINT_RANGE ∧
    (HideMenu exampleConfig (exampleState 3 0 3)).current_mode = 0 ∧
    ((ProcessMenuTimer exampleConfig)^[3]
      (HideMenu exampleConfig (exampleState 3 0 3))).current_mode = 0 :=
  ⟨rfl, by decide,
   (HideMenu_then_ticks exampleConfig (exampleState 3 0 3) 3 rfl (by decide) (by decide)).1,
   (HideMenu_then_ticks exampleConfig (exampleState 3 0 3) 3 rfl (by decide)
      (by decide)).2.2.2 3 (by decide)⟩

/-- C9: with no dialog visible, `HideMenu()` sets the counter to `menu_timeout`
and evaluates it at once: on return the mode is `MODE_PAN` if panning and
`MODE_DEFAULT` otherwise, whatever the mode and the counter were before, and
the counter has moved on to `menu_timeout + 1`. -/
theorem HideMenu_immediate (cfg : InputConfig) (s : State) (hd : s.has_dialog = false) :
    (HideMenu cfg s).current_mode = (if s.panning then cfg.MODE_PAN else cfg.MODE_DEFAULT) ∧
    (HideMenu cfg s).MenuTimeOut = (s.menu_timeout + 1) % UINT_RANGE ∧
    HideMenu cfg s = ProcessMenuTimer cfg { s with MenuTimeOut := s.menu_timeout } := by
  refine ⟨?_, ?_, rfl⟩
  · show (HideMenu cfg s).toCore.current_mode = _
    rw [HideMenu_core cfg s hd]
  · show (HideMenu cfg s).toCore.MenuTimeOut = _
    rw [HideMenu_core cfg s hd]

/-- Witness of C9: `HideMenu` in mode 3 with counter 1 and timeout 5. -/
theorem HideMenu_immediate_witness :
    (exampleState 3 1 5).has_dialog = false ∧
    (HideMenu exampleConfig (exampleState 3 1 5)).current_mode = 0 ∧
    (HideMenu exampleConfig (exampleState 3 1 5)).MenuTimeOut = 6 :=
  ⟨rfl, (HideMenu_immediate exampleConfig (exampleState 3 1 5) rfl).1,
   (HideMenu_immediate exampleConfig (exampleState 3 1 5) rfl).2.1⟩

theorem ShowMenu_eq (cfg : InputConfig) (s : State) :
    ShowMenu cfg s =
      ProcessMenuTimer cfg
        { setMode cfg cfg.MODE_MENU (afterPanOff cfg s) with MenuTimeOut := 0 } := rfl

theorem trace_extends_of_dispatched (cfg : InputConfig) (s s' : State) (c : List Obs)
    (h : Dispatched cfg s s' c) : ∃ t, s'.trace = s.trace ++ t := by
  obtain ⟨⟨t, ht, _⟩, _⟩ := h
  exact ⟨t, ht⟩

/-- Counterexample to C10: with no dialog visible, `ShowMenu` returns with the
counter at 1; and with `menu_timeout` 0 it returns in the default mode, not in
the menu mode. -/
theorem ShowMenu_counter_is_one :
    (exampleState 0 7 5).has_dialog = false ∧
    (ShowMenu exampleConfig (exampleState 0 7 5)).current_mode = exampleConfig.MODE_MENU ∧
    (ShowMenu exampleConfig (exampleState 0 7 5)).MenuTimeOut = 1 ∧
    (exampleState 1 7 0).menu_timeout = 0 ∧
    (ShowMenu exampleConfig (exampleState 1 7 0)).current_mode = exampleConfig.MODE_DEFAULT ∧
    (ShowMenu exampleConfig (exampleState 1 7 0)).MenuTimeOut = 1 := by
  decide

/-- C10 (amended): `ShowMenu()` first calls `sub_Pan(0)` if panning is active, then
switches to `MODE_MENU`, sets the counter to 0 and calls `ProcessMenuTimer`.
If a dialog is visible then, it returns in `MODE_MENU` with the counter 0.  If
no dialog is visible it returns with the counter 1, in `MODE_MENU` when
`menu_timeout` is not 0; with `menu_timeout` 0 the `ProcessMenuTimer` call has
already fallen back to `MODE_PAN` (if panning) or `MODE_DEFAULT`. -/
theorem ShowMenu_result (cfg : InputConfig) (s : State) :
    (s.panning = true → ∃ t, (ShowMenu cfg s).trace = s.trace ++ Obs.sub_Pan 0 :: t) ∧
    ((afterPanOff cfg s).has_dialog = true →
      (ShowMenu cfg s).current_mode = cfg.MODE_MENU ∧ (ShowMenu cfg s).MenuTimeOut = 0) ∧
    ((afterPanOff cfg s).has_dialog = false →
      (ShowMenu cfg s).MenuTimeOut = 1 ∧
      ((afterPanOff cfg s).menu_timeout ≠ 0 → (ShowMenu cfg s).current_mode = cfg.MODE_MENU) ∧
      ((afterPanOff cfg s).menu_timeout = 0 →
        (ShowMenu cfg s).current_mode =
          (if (afterPanOff cfg s).panning then cfg.MODE_PAN else cfg.MODE_DEFAULT))) := by
  have hcore : ({ setMode cfg cfg.MODE_MENU (afterPanOff cfg s) with MenuTimeOut := 0 } :
      State).toCore =
      { (afterPanOff cfg s).toCore with current_mode := cfg.MODE_MENU, MenuTimeOut := 0 } := by
    show ({ (setMode cfg cfg.MODE_MENU (afterPanOff cfg s)).toCore with MenuTimeOut := 0 } :
      Core) = _
    rw [setMode_core]
  refine ⟨?_, ?_, ?_⟩
  · intro hp
    obtain ⟨t₁, ht₁⟩ := trace_extends_of_dispatched cfg _ _ _
      (setMode_dispatched cfg cfg.MODE_MENU (afterPanOff cfg s))
    obtain ⟨t₂, ht₂⟩ := trace_extends_of_dispatched cfg _ _ _
      (ProcessMenuTimer_dispatched cfg
        { setMode cfg cfg.MODE_MENU (afterPanOff cfg s) with MenuTimeOut := 0 })
    have h0 : (afterPanOff cfg s).trace = s.trace ++ [Obs.sub_Pan 0] := by
      unfold afterPanOff
      rw [if_pos hp]
    refine ⟨t₁ ++ t₂, ?_⟩
    rw [ShowMenu_eq, ht₂]
    show (setMode cfg cfg.MODE_MENU (afterPanOff cfg s)).trace ++ t₂ = _
    rw [ht₁, h0]
    simp
  · intro hd
    have hd' : ({ setMode cfg cfg.MODE_MENU (afterPanOff cfg s) with MenuTimeOut := 0 } :
        State).has_dialog = true := by
      show ({ setMode cfg cfg.MODE_MENU (afterPanOff cfg s) with MenuTimeOut := 0 } :
        State).toCore.has_dialog = true
      rw [hcore]; exact hd
    rw [ShowMenu_eq, ProcessMenuTimer_dialog cfg _ hd']
    constructor
    · show ({ setMode cfg cfg.MODE_MENU (afterPanOff cfg s) with MenuTimeOut := 0 } :
        State).toCore.current_mode = _
      rw [hcore]
    · rfl
  · intro hd
    have hd' : ({ setMode cfg cfg.MODE_MENU (afterPanOff cfg s) with MenuTimeOut := 0 } :
        State).has_dialog = false := by
      show ({ setMode cfg cfg.MODE_MENU (afterPanOff cfg s) with MenuTimeOut := 0 } :
        State).toCore.has_dialog = false
      rw [hcore]; exact hd
    have hres := ProcessMenuTimer_core cfg
      { setMode cfg cfg.MODE_MENU (afterPanOff cfg s) with MenuTimeOut := 0 } hd'
    rw [← ShowMenu_eq] at hres
    have hmt : ({ setMode cfg cfg.MODE_MENU (afterPanOff cfg s) with MenuTimeOut := 0 } :
        State).menu_timeout = (afterPanOff cfg s).menu_timeout := by
      show ({ setMode cfg cfg.MODE_MENU (afterPanOff cfg s) with MenuTimeOut := 0 } :
        State).toCore.menu_timeout = _
      rw [hcore]
    have hpan : ({ setMode cfg cfg.MODE_MENU (afterPanOff cfg s) with MenuTimeOut := 0 } :
        State).panning = (afterPanOff cfg s).panning := by
      show ({ setMode cfg cfg.MODE_MENU (afterPanOff cfg s) with MenuTimeOut := 0 } :
        State).toCore.panning = _
      rw [hcore]
    have hcm : ({ setMode cfg cfg.MODE_MENU (afterPanOff cfg s) with MenuTimeOut := 0 } :
        State).current_mode = cfg.MODE_MENU := by
      show ({ setMode cfg cfg.MODE_MENU (afterPanOff cfg s) with MenuTimeOut := 0 } :
        State).toCore.current_mode = _
      rw [hcore]
    have hz : ({ setMode cfg cfg.MODE_MENU (afterPanOff cfg s) with MenuTimeOut := 0 } :
        State).MenuTimeOut = 0 := rfl
    rw [hz, hmt, hpan, hcm] at hres
    refine ⟨?_, ?_, ?_⟩
    · show (ShowMenu cfg s).toCore.MenuTimeOut = 1
      rw [hres]
      rfl
    · intro hne
      show (ShowMenu cfg s).toCore.current_mode = _
      rw [hres]
      show (if 0 = (afterPanOff cfg s).menu_timeout then _ else cfg.MODE_MENU) = _
      rw [if_neg (fun h => hne h.symm)]
    · intro he
      show (ShowMenu cfg s).toCore.current_mode = _
      rw [hres]
      show (if 0 = (afterPanOff cfg s).menu_timeout then _ else cfg.MODE_MENU) = _
      rw [if_pos he.symm]

/-- Witness of C10 (amended): `ShowMenu` while panning in the example calls
`sub_Pan(0)` first and returns in the menu mode with the counter 1. -/
theorem ShowMenu_result_witness :
    (∃ t, (ShowMenu exampleConfig { exampleState 1 7 5 with panning := true }).trace =
      ({ exampleState 1 7 5 with panning := true } : State).trace ++ Obs.sub_Pan 0 :: t) ∧
    (ShowMenu exampleConfig { exampleState 1 7 5 with panning := true }).MenuTimeOut = 1 ∧
    (ShowMenu exampleConfig { exampleState 1 7 5 with panning := true }).current_mode = 3 :=
  ⟨(ShowMenu_result exampleConfig { exampleState 1 7 5 with panning := true }).1 rfl,
   ((ShowMenu_result exampleConfig { exampleState 1 7 5 with panning := true }).2.2 rfl).1,
   ((ShowMenu_result exampleConfig { exampleState 1 7 5 with panning := true }).2.2 rfl).2.1
      (by decide)⟩

/-! ## Redrawing the labels -/

theorem drawButtons_trace (cfg : InputConfig) (m : Nat) (full : Bool) (s : State) :
    (drawButtons cfg m full s).trace =
      s.trace ++ (if s.running then redrawCalls cfg m full else []) := by
  unfold drawButtons redrawCalls
  cases h : s.running <;> simp

theorem setMode_trace (cfg : InputConfig) (m : Nat) (s : State) :
    (setMode cfg m s).trace =
      s.trace ++ (if m ≠ s.current_mode ∧ s.running = true then redrawCalls cfg m true
                  else []) := by
  unfold setMode
  dsimp only
  split
  · next h => simp [h]
  · next h =>
    rw [drawButtons_trace]
    cases hr : s.running <;> simp [h, hr]

theorem setMode_assert (cfg : InputConfig) (m : Nat) (s : State) :
    (setMode cfg m s).assert_failed =
      (s.assert_failed || !(decide (m < cfg.modes.length))) := by
  unfold setMode
  dsimp only
  split
  · rfl
  · rw [(drawButtons_core cfg _ true _).2]

theorem redrawCalls_full (cfg : InputConfig) (m : Nat) :
    redrawCalls cfg m true =
      (List.range cfg.MAX_ITEMS).map
        (fun i => Obs.SetLabelText i ((cfg.menus m).items i).label) := by
  simp [redrawCalls]

/-- Counterexample to C11: with the running flag false, `setMode(3)` in mode 0
changes the mode and calls the renderer for no label, although a full redraw
of the menu of mode 3 consists of 32 calls. -/
theorem setMode_stopped_no_redraw :
    (stoppedState 0 0 5).current_mode ≠ 3 ∧
    (setMode exampleConfig 3 (stoppedState 0 0 5)).current_mode = 3 ∧
    (setMode exampleConfig 3 (stoppedState 0 0 5)).trace = (stoppedState 0 0 5).trace ∧
    (redrawCalls exampleConfig 3 true).length = 32 := by
  decide

/-- C11 (amended): `setMode(m)` with `m` the current mode leaves the program state
and the call log as they were.  Otherwise the current mode becomes `m`, and a
full redraw of the menu of mode `m` (one `SetLabelText` call for each of its
`MAX_ITEMS` items) is requested from the renderer when the running flag is
true; when the running flag is false no label is redrawn. -/
theorem setMode_redraw (cfg : InputConfig) (m : Nat) (s : State) :
    (m = s.current_mode →
      (setMode cfg m s).toCore = s.toCore ∧ (setMode cfg m s).trace = s.trace) ∧
    (m ≠ s.current_mode →
      (setMode cfg m s).current_mode = m ∧
      (s.running = true →
        (setMode cfg m s).trace = s.trace ++
          (List.range cfg.MAX_ITEMS).map
            (fun i => Obs.SetLabelText i ((cfg.menus m).items i).label)) ∧
      (s.running = false → (setMode cfg m s).trace = s.trace)) := by
  refine ⟨?_, ?_⟩
  · intro h
    refine ⟨?_, ?_⟩
    · rw [setMode_core, h]
    · rw [setMode_trace]
      simp [h]
  · intro h
    refine ⟨?_, ?_, ?_⟩
    · show (setMode cfg m s).toCore.current_mode = m
      rw [setMode_core]
    · intro hr
      rw [setMode_trace, ← redrawCalls_full]
      simp [h, hr]
    · intro hr
      rw [setMode_trace]
      simp [hr]

/-- Witness of C11 (amended): `setMode(3)` in mode 0 of the running example
redraws all 32 labels; `setMode(0)` changes nothing. -/
theorem setMode_redraw_witness :
    (setMode exampleConfig 3 (exampleState 0 0 5)).current_mode = 3 ∧
    (setMode exampleConfig 3 (exampleState 0 0 5)).trace =
      (exampleState 0 0 5).trace ++
        (List.range exampleConfig.MAX_ITEMS).map
          (fun i => Obs.SetLabelText i ((exampleConfig.menus 3).items i).label) ∧
    (setMode exampleConfig 0 (exampleState 0 0 5)).trace = (exampleState 0 0 5).trace :=
  ⟨((setMode_redraw exampleConfig 3 (exampleState 0 0 5)).2 (by decide)).1,
   ((setMode_redraw exampleConfig 3 (exampleState 0 0 5)).2 (by decide)).2.1 rfl,
   ((setMode_redraw exampleConfig 0 (exampleState 0 0 5)).1 rfl).2⟩

theorem ProcessMenuTimer_trace (cfg : InputConfig) (s : State) (hd : s.has_dialog = false) :
    (ProcessMenuTimer cfg s).trace =
      s.trace ++ [Obs.ProcessMenuTimer] ++
        (if s.running then
          (if timerMode cfg s ≠ s.current_mode then redrawCalls cfg (timerMode cfg s) true
           else []) ++ redrawCalls cfg (timerMode cfg s) false
         else []) := by
  have h1 : (s.log Obs.ProcessMenuTimer).has_dialog = false := hd
  have h2 : (s.log Obs.ProcessMenuTimer).toCore = s.toCore := rfl
  have h3 : (s.log Obs.ProcessMenuTimer).trace = s.trace ++ [Obs.ProcessMenuTimer] := rfl
  have hrun : ∀ m, (setMode cfg m (s.log Obs.ProcessMenuTimer)).running = s.running := by
    intro m
    show (setMode cfg m (s.log Obs.ProcessMenuTimer)).toCore.running = _
    rw [setMode_core]; rfl
  have hmode : ∀ m, (setMode cfg m (s.log Obs.ProcessMenuTimer)).current_mode = m := by
    intro m
    show (setMode cfg m (s.log Obs.ProcessMenuTimer)).toCore.current_mode = _
    rw [setMode_core]
  have hcm : (s.log Obs.ProcessMenuTimer).current_mode = s.current_mode := rfl
  have hrn : (s.log Obs.ProcessMenuTimer).running = s.running := rfl
  unfold ProcessMenuTimer
  simp only [h1]
  show (drawButtons cfg _ false _).trace = _
  rw [drawButtons_trace]
  by_cases ht : s.MenuTimeOut = s.menu_timeout
  · have e1 : (s.log Obs.ProcessMenuTimer).MenuTimeOut =
        (s.log Obs.ProcessMenuTimer).menu_timeout := ht
    by_cases hp : s.panning = true
    · have e2 : (s.log Obs.ProcessMenuTimer).panning = true := hp
      have hm : timerMode cfg s = cfg.MODE_PAN := by simp [timerMode, ht, hp]
      rw [if_pos e1, if_pos e2, hrun, getModeID, hmode, setMode_trace, h3, hm, hcm, hrn]
      cases hr : s.running <;> simp
    · have e2 : ¬ (s.log Obs.ProcessMenuTimer).panning = true := hp
      have hm : timerMode cfg s = cfg.MODE_DEFAULT := by simp [timerMode, ht, hp]
      rw [if_pos e1, if_neg e2, hrun, getModeID, hmode, setMode_trace, h3, hm, hcm, hrn]
      cases hr : s.running <;> simp
  · have e1 : ¬ (s.log Obs.ProcessMenuTimer).MenuTimeOut =
        (s.log Obs.ProcessMenuTimer).menu_timeout := ht
    have hm : timerMode cfg s = s.current_mode := by simp [timerMode, ht]
    rw [if_neg e1, getModeID, hcm, hrn, h3, hm]
    cases hr : s.running <;> simp

/-- Counterexample to C12: with no dialog visible and the running flag false,
`ProcessMenuTimer` increments the counter and redraws no label, although the
menu of the mode has a dynamic label. -/
theorem ProcessMenuTimer_stopped_no_redraw :
    (stoppedState 0 1 5).has_dialog = false ∧
    (ProcessMenuTimer dynamicConfig (stoppedState 0 1 5)).MenuTimeOut = 2 ∧
    (ProcessMenuTimer dynamicConfig (stoppedState 0 1 5)).current_mode = 0 ∧
    (ProcessMenuTimer dynamicConfig (stoppedState 0 1 5)).trace = [Obs.ProcessMenuTimer] ∧
    redrawCalls dynamicConfig 0 false =
      [Obs.SetLabelText 1 (some "Pan $(PanModeStatus)")] := by
  decide

/-- C12 (amended): with a dialog visible `ProcessMenuTimer()` leaves the program
state as it was and redraws nothing.  With no dialog visible the mode becomes
`MODE_PAN` (panning) or `MODE_DEFAULT` if the counter equals `menu_timeout` and
stays what it was otherwise, the counter is incremented by one (in 32-bit
unsigned arithmetic), and nothing else of the program state changes; when the
running flag is true the dynamic labels of the resulting mode are redrawn
(after the full redraw of a mode change), when it is false no label is
redrawn. -/
theorem ProcessMenuTimer_effect (cfg : InputConfig) (s : State) :
    (s.has_dialog = true →
      (ProcessMenuTimer cfg s).toCore = s.toCore ∧
      (ProcessMenuTimer cfg s).trace = s.trace ++ [Obs.ProcessMenuTimer]) ∧
    (s.has_dialog = false →
      (ProcessMenuTimer cfg s).toCore =
        { s.toCore with current_mode := timerMode cfg s,
                        MenuTimeOut := (s.MenuTimeOut + 1) % UINT_RANGE } ∧
      (timerMode cfg s ≠ s.current_mode → s.MenuTimeOut = s.menu_timeout) ∧
      (s.running = true →
        (ProcessMenuTimer cfg s).trace =
          s.trace ++ [Obs.ProcessMenuTimer] ++
            (if timerMode cfg s ≠ s.current_mode then redrawCalls cfg (timerMode cfg s) true
             else []) ++
            redrawCalls cfg (timerMode cfg s) false) ∧
      (s.running = false →
        (ProcessMenuTimer cfg s).trace = s.trace ++ [Obs.ProcessMenuTimer])) := by
  refine ⟨?_, ?_⟩
  · intro hd
    rw [ProcessMenuTimer_dialog cfg s hd]
    exact ⟨rfl, rfl⟩
  · intro hd
    refine ⟨?_, ?_, ?_, ?_⟩
    · rw [ProcessMenuTimer_core cfg s hd]
      rfl
    · intro hne
      by_contra hc
      exact hne (by simp [timerMode, hc])
    · intro hr
      rw [ProcessMenuTimer_trace cfg s hd, hr]
      simp
    · intro hr
      rw [ProcessMenuTimer_trace cfg s hd, hr]
      simp

/-- Witness of C12 (amended): in mode 3 of the running example with the counter
at the timeout, `ProcessMenuTimer` falls back to mode 0, redraws the menu of
mode 0 in full and then its dynamic label. -/
theorem ProcessMenuTimer_effect_witness :
    (ProcessMenuTimer dynamicConfig (exampleState 3 5 5)).current_mode = 0 ∧
    (ProcessMenuTimer dynamicConfig (exampleState 3 5 5)).MenuTimeOut = 6 ∧
    (ProcessMenuTimer dynamicConfig (exampleState 3 5 5)).trace =
      (exampleState 3 5 5).trace ++ [Obs.ProcessMenuTimer] ++
        (if timerMode dynamicConfig (exampleState 3 5 5) ≠ (exampleState 3 5 5).current_mode
         then redrawCalls dynamicConfig (timerMode dynamicConfig (exampleState 3 5 5)) true
         else []) ++
        redrawCalls dynamicConfig (timerMode dynamicConfig (exampleState 3 5 5)) false :=
  ⟨congrArg Core.current_mode
      ((ProcessMenuTimer_effect dynamicConfig (exampleState 3 5 5)).2 rfl).1,
   congrArg Core.MenuTimeOut
      ((ProcessMenuTimer_effect dynamicConfig (exampleState 3 5 5)).2 rfl).1,
   ((ProcessMenuTimer_effect dynamicConfig (exampleState 3 5 5)).2 rfl).2.2.1 rfl⟩

/-! ## Gestures and keys -/

/-- C13: when every chain is finite, `processGesture(pattern)` returns, and it
returns `true` exactly when the gesture table binds the pattern to a nonzero
event id; in that case the state it leaves is the one `processGo` leaves for
that id, and otherwise the state, call log included, is as it was. -/
theorem processGesture_binding (cfg : InputConfig) (n fuel : Nat) (data : String) (s : State)
    (hn : ChainsWithin cfg n) (hf : n < fuel) :
    ∃ r, processGesture cfg fuel data s = some r ∧
      (r.1 = true ↔ ∃ e, cfg.Gesture2Event data = some e ∧ e ≠ 0) ∧
      (∀ e, cfg.Gesture2Event data = some e → e ≠ 0 →
        processGo cfg fuel e s = some r.2) ∧
      ((¬ ∃ e, cfg.Gesture2Event data = some e ∧ e ≠ 0) → r.2 = s) := by
  unfold processGesture gesture_to_event
  cases hg : cfg.Gesture2Event data with
  | none =>
    refine ⟨(false, s), by simp, ?_, ?_, ?_⟩
    · simp
    · intro e he; cases he
    · intro _; rfl
  | some e =>
    by_cases he : e = 0
    · refine ⟨(false, s), by simp [he], ?_, ?_, ?_⟩
      · simp [he]
      · intro e' he' hne
        exact absurd (he ▸ (Option.some.inj he').symm) hne
      · intro _; rfl
    · obtain ⟨s', hgo, _⟩ := processGo_returns cfg n fuel e s hn hf
      refine ⟨(true, s'), by simp [he, hgo], ?_, ?_, ?_⟩
      · simp [he]
      · intro e' he' _
        rw [← Option.some.inj he']
        exact hgo
      · intro hnot
        exact absurd ⟨e, rfl, he⟩ hnot

/-- Witness of C13: in the example the gesture "DU" is bound to event 5 and the
gesture "UD" is not bound. -/
theorem processGesture_binding_witness :
    (∃ r, processGesture exampleConfig 4 "DU" (exampleState 0 0 5) = some r ∧
      (r.1 = true ↔ ∃ e, exampleConfig.Gesture2Event "DU" = some e ∧ e ≠ 0) ∧
      (∀ e, exampleConfig.Gesture2Event "DU" = some e → e ≠ 0 →
        processGo exampleConfig 4 e (exampleState 0 0 5) = some r.2) ∧
      ((¬ ∃ e, exampleConfig.Gesture2Event "DU" = some e ∧ e ≠ 0) →
        r.2 = exampleState 0 0 5)) ∧
    (processGesture exampleConfig 4 "DU" (exampleState 0 0 5)).map
      (fun r => (r.1, r.2.trace)) = some (true, [Obs.action 5]) ∧
    (processGesture exampleConfig 4 "UD" (exampleState 0 0 5)).map
      (fun r => (r.1, r.2.trace)) = some (false, []) :=
  ⟨processGesture_binding exampleConfig 3 4 "DU" (exampleState 0 0 5) exampleConfig_chains
    (by decide), by decide, by decide⟩

theorem redraw_or_not (cfg : InputConfig) (mode : Nat) (c : State → Prop) [DecidablePred c]
    (o : Option State) (s1 : State) (h : o = some s1) :
    ∃ r, o.map (fun u => (true, if c u then drawButtons cfg mode false u else u)) = some r ∧
      r.1 = true ∧ (r.2 = s1 ∨ r.2 = drawButtons cfg mode false s1) := by
  subst h
  refine ⟨(true, if c s1 then drawButtons cfg mode false s1 else s1), rfl, rfl, ?_⟩
  dsimp only
  split
  · right; rfl
  · left; rfl

/-- C14: take a key past the shutdown short-circuit (not key 0xF5 on an Altair), the
running flag true, every chain finite, and a key that resolves to a nonzero
event id.  Then `ProcessKey(mode, key)` returns `true`.  If the event id belongs
to a defined menu item of the mode whose button is disabled, no chain is
invoked: the state is the one before, at most with the dynamic labels redrawn.
Otherwise the state is the one `processGo` leaves for the resolved event id,
called once, at most with the dynamic labels redrawn. -/
theorem ProcessKey_dispatch (cfg : InputConfig) (n fuel mode key_code : Nat) (s : State)
    (hn : ChainsWithin cfg n) (hf : n < fuel) (hrun : s.running = true)
    (hshut : ¬ (cfg.is_altair = true ∧ key_code = 0xF5))
    (he : key_to_event cfg mode key_code ≠ 0) :
    ∃ r, ProcessKey cfg fuel mode key_code s = some r ∧ r.1 = true ∧
      (KeyItemDisabled cfg mode key_code s →
        (r.2 = s ∨ r.2 = drawButtons cfg mode false s)) ∧
      (¬ KeyItemDisabled cfg mode key_code s →
        ∃ s1, processGo cfg fuel (key_to_event cfg mode key_code) s = some s1 ∧
          (r.2 = s1 ∨ r.2 = drawButtons cfg mode false s1)) := by
  unfold KeyItemDisabled keyItem
  obtain ⟨s1, hgo, _⟩ := processGo_returns cfg n fuel (key_to_event cfg mode key_code) s hn hf
  have h1 : (cfg.is_altair && key_code == 0xF5) = false := by
    cases ha : cfg.is_altair
    · rfl
    · simp only [Bool.true_and]
      have : key_code ≠ 0xF5 := fun h => hshut ⟨ha, h⟩
      simpa using this
  have hPK : ∀ o : Option State,
      o = (if (if (decide ((cfg.menus mode).FindByEvent (key_to_event cfg mode key_code) ≥ 0) &&
              ((cfg.menus mode).items
                ((cfg.menus mode).FindByEvent (key_to_event cfg mode key_code)).toNat).defined)
              = true
            then (cfg.menus mode).FindByEvent (key_to_event cfg mode key_code) else -1) < 0 ∨
          s.IsEnabled (if (decide ((cfg.menus mode).FindByEvent
                (key_to_event cfg mode key_code) ≥ 0) &&
              ((cfg.menus mode).items
                ((cfg.menus mode).FindByEvent (key_to_event cfg mode key_code)).toNat).defined)
              = true
            then (cfg.menus mode).FindByEvent (key_to_event cfg mode key_code)
            else -1).toNat = true
        then processGo cfg fuel (key_to_event cfg mode key_code) s else some s) →
      ∀ u, o = some u →
      ∃ r, ProcessKey cfg fuel mode key_code s = some r ∧ r.1 = true ∧
        (r.2 = u ∨ r.2 = drawButtons cfg mode false u) := by
    intro o ho u hu
    obtain ⟨r, hr, hr1, hr2⟩ := redraw_or_not cfg mode
      (fun u => mode = getModeID u ∧
        (if (decide ((cfg.menus mode).FindByEvent (key_to_event cfg mode key_code) ≥ 0) &&
              ((cfg.menus mode).items
                ((cfg.menus mode).FindByEvent (key_to_event cfg mode key_code)).toNat).defined)
              = true
            then (cfg.menus mode).FindByEvent (key_to_event cfg mode key_code) else -1) > 0 ∧
        (if (decide ((cfg.menus mode).FindByEvent (key_to_event cfg mode key_code) ≥ 0) &&
              ((cfg.menus mode).items
                ((cfg.menus mode).FindByEvent (key_to_event cfg mode key_code)).toNat).defined)
              = true
            then ((cfg.menus mode).items
                ((cfg.menus mode).FindByEvent (key_to_event cfg mode key_code)).toNat).label
            else none) ≠ none) o u hu
    refine ⟨r, ?_, hr1, hr2⟩
    rw [← hr, ho]
    unfold ProcessKey
    simp only [h1, hrun, he]
    rfl
  generalize hi : (cfg.menus mode).FindByEvent (key_to_event cfg mode key_code) = i at *
  by_cases hdis : 0 ≤ i ∧ ((cfg.menus mode).items i.toNat).defined = true ∧
      s.IsEnabled i.toNat = false
  · obtain ⟨r, hr, hr1, hr2⟩ := hPK (some s) (by
      have h0 : ¬ i < 0 := by omega
      simp [hdis.1, hdis.2.1, hdis.2.2, h0]) s rfl
    exact ⟨r, hr, hr1, fun _ => hr2, fun hnot => absurd hdis hnot⟩
  · obtain ⟨r, hr, hr1, hr2⟩ := hPK (some s1) (by
      rw [← hgo]
      symm
      apply if_pos
      by_cases hfound : (decide (i ≥ 0) && ((cfg.menus mode).items i.toNat).defined) = true
      · right
        rw [if_pos hfound]
        simp at hfound
        cases hen : s.IsEnabled i.toNat
        · exact absurd ⟨hfound.1, hfound.2, hen⟩ hdis
        · rfl
      · left
        rw [if_neg hfound]
        decide) s1 rfl
    exact ⟨r, hr, hr1, fun h => absurd h hdis, fun _ => ⟨s1, hgo, hr2⟩⟩

/-- Witness of C14: key 65 ('A') in the default mode of the example is bound to
event 5, which chains to event 7 without a callable: the callable of event 5 is
called and nothing else.  With the menu item of event 5 disabled, no callable is
called. -/
theorem ProcessKey_dispatch_witness :
    (∃ r, ProcessKey exampleConfig 4 0 65 (exampleState 0 0 5) = some r ∧ r.1 = true ∧
      (KeyItemDisabled exampleConfig 0 65 (exampleState 0 0 5) →
        (r.2 = exampleState 0 0 5 ∨
          r.2 = drawButtons exampleConfig 0 false (exampleState 0 0 5))) ∧
      (¬ KeyItemDisabled exampleConfig 0 65 (exampleState 0 0 5) →
        ∃ s1, processGo exampleConfig 4 (key_to_event exampleConfig 0 65)
            (exampleState 0 0 5) = some s1 ∧
          (r.2 = s1 ∨ r.2 = drawButtons exampleConfig 0 false s1))) ∧
    (ProcessKey exampleConfig 4 0 65 (exampleState 0 0 5)).map
      (fun r => (r.1, r.2.trace)) = some (true, [Obs.action 5]) ∧
    (ProcessKey dynamicConfig 4 0 65 (disabledState 0 0 5)).map
      (fun r => (r.1, r.2.trace, r.2.current_mode)) =
      some (true, [Obs.SetLabelText 1 (some "Pan $(PanModeStatus)")], 0) :=
  ⟨ProcessKey_dispatch exampleConfig 3 4 0 65 (exampleState 0 0 5) exampleConfig_chains
    (by decide) rfl (by decide) (by decide), by decide, by decide⟩

/-- C15: on an Altair, `ProcessKey(mode, 0xF5)` calls `SignalShutdown`, changes
nothing of the program state, calls no callable and returns `true`, for every
mode, every binding table, every value of the running flag and whatever the
number of loop tests allowed to `processGo`. -/
theorem ProcessKey_shutdown_key (cfg : InputConfig) (fuel mode : Nat) (s : State)
    (ha : cfg.is_altair = true) :
    ProcessKey cfg fuel mode 0xF5 s = some (true, s.log Obs.SignalShutdown) ∧
    (s.log Obs.SignalShutdown).toCore = s.toCore ∧
    (s.log Obs.SignalShutdown).trace = s.trace ++ [Obs.SignalShutdown] := by
  refine ⟨?_, rfl, rfl⟩
  unfold ProcessKey
  simp [ha]

/-- Witness of C15: key 0xF5 on the Altair example with the running flag false. -/
theorem ProcessKey_shutdown_key_witness :
    altairConfig.is_altair = true ∧
    (ProcessKey altairConfig 0 3 0xF5 (stoppedState 3 0 5)).map
      (fun r => (r.1, r.2.trace)) = some (true, [Obs.SignalShutdown]) :=
  ⟨rfl, by
    rw [(ProcessKey_shutdown_key altairConfig 0 3 (stoppedState 3 0 5) rfl).1]
    decide⟩

/-! ## Ids out of range and the running flag during a drain -/

theorem dispatchGCE_free (cfg : InputConfig) (fuel : Nat) :
    ∀ (k : Nat) (u : State), dispatchGCE cfg fuel (List.replicate k (-1)) u = some u := by
  intro k
  induction k with
  | zero => intro u; rfl
  | succ k ih => intro u; simp [List.replicate_succ, dispatchGCE, ih]

theorem dispatchNMEA_free (cfg : InputConfig) (fuel : Nat) :
    ∀ (k : Nat) (u : State), dispatchNMEA cfg fuel (List.replicate k (-1)) u = some u := by
  intro k
  induction k with
  | zero => intro u; rfl
  | succ k ih => intro u; simp [List.replicate_succ, dispatchNMEA, ih]

theorem processNmea_real_out_of_range (cfg : InputConfig) (fuel ne_id : Nat) (s : State)
    (h : ne_id ≥ cfg.NE_COUNT) :
    processNmea_real cfg fuel ne_id s = some (false, s.log (Obs.nmea_real ne_id)) := by
  unfold processNmea_real
  simp only [h, if_true]
  split <;> rfl

theorem processGlideComputer_real_out_of_range (cfg : InputConfig) (fuel gce_id : Nat)
    (s : State) (h : gce_id ≥ cfg.GCE_COUNT) :
    processGlideComputer_real cfg fuel gce_id s =
      some (false, s.log (Obs.gce_real gce_id)) := by
  unfold processGlideComputer_real
  simp only [h, if_true]
  split <;> rfl

theorem storeFirstFree_empty (n k : Nat) (v : Int) :
    storeFirstFree (n + 1) (List.replicate (k + 1) (-1)) v = v :: List.replicate k (-1) := by
  simp [storeFirstFree, List.replicate_succ]

theorem dispatchNMEA_single (cfg : InputConfig) (fuel ne_id k : Nat) (u : State)
    (h : ne_id ≥ cfg.NE_COUNT) (hid : ne_id < UINT_RANGE) :
    ∃ u', dispatchNMEA cfg fuel (toInt32 ne_id :: List.replicate k (-1)) u = some u' ∧
      u'.toCore = u.toCore ∧ u'.assert_failed = u.assert_failed ∧
      (u'.trace = u.trace ∨ u'.trace = u.trace ++ [Obs.nmea_real ne_id]) := by
  by_cases hx : toInt32 ne_id = -1
  · refine ⟨u, ?_, rfl, rfl, Or.inl rfl⟩
    rw [hx]
    exact dispatchNMEA_free cfg fuel (k + 1) u
  · refine ⟨u.log (Obs.nmea_real ne_id), ?_, rfl, rfl, Or.inr rfl⟩
    simp only [dispatchNMEA, hx, ne_eq, not_false_eq_true, if_true]
    rw [toUInt32_toInt32 ne_id hid, processNmea_real_out_of_range cfg fuel ne_id u h]
    simp only [Option.some_bind]
    exact dispatchNMEA_free cfg fuel k _

theorem dispatchGCE_single (cfg : InputConfig) (fuel gce_id k : Nat) (u : State)
    (h : gce_id ≥ cfg.GCE_COUNT) (hid : gce_id < UINT_RANGE) :
    ∃ u', dispatchGCE cfg fuel (toInt32 gce_id :: List.replicate k (-1)) u = some u' ∧
      u'.toCore = u.toCore ∧ u'.assert_failed = u.assert_failed ∧
      (u'.trace = u.trace ∨ u'.trace = u.trace ++ [Obs.gce_real gce_id]) := by
  by_cases hx : toInt32 gce_id = -1
  · refine ⟨u, ?_, rfl, rfl, Or.inl rfl⟩
    rw [hx]
    exact dispatchGCE_free cfg fuel (k + 1) u
  · refine ⟨u.log (Obs.gce_real gce_id), ?_, rfl, rfl, Or.inr rfl⟩
    simp only [dispatchGCE, hx, ne_eq, not_false_eq_true, if_true]
    rw [toUInt32_toInt32 gce_id hid, processGlideComputer_real_out_of_range cfg fuel gce_id u h]
    simp only [Option.some_bind]
    exact dispatchGCE_free cfg fuel k _

/-- C16: for `ne_id ≥ NE_COUNT` and `gce_id ≥ GCE_COUNT`, `processNmea_real` and
`processGlideComputer_real` return `false` and leave the program state as it
was (only their own entry is logged, no callable is called), whatever the tables
`N2Event` and `GC2Event` hold; and when such ids are enqueued on empty queues
and drained by `DoQueuedEvents`, the program state is again as before, the log
gains at most the two entries of the `_real` functions, and no callable is
called, whatever the number of loop tests allowed to `processGo`. -/
theorem out_of_range_is_noop (cfg : InputConfig) (fuel ne_id gce_id : Nat) (s : State)
    (hN : ne_id ≥ cfg.NE_COUNT) (hG : gce_id ≥ cfg.GCE_COUNT)
    (hidN : ne_id < UINT_RANGE) (hidG : gce_id < UINT_RANGE)
    (hqN : s.NMEA_Queue = List.replicate MAX_NMEA_QUEUE (-1))
    (hqG : s.GCE_Queue = List.replicate MAX_GCE_QUEUE (-1)) :
    processNmea_real cfg fuel ne_id s = some (false, s.log (Obs.nmea_real ne_id)) ∧
    processGlideComputer_real cfg fuel gce_id s = some (false, s.log (Obs.gce_real gce_id)) ∧
    (∀ tbl, processNmea_real { cfg with N2Event := tbl } fuel ne_id s =
      processNmea_real cfg fuel ne_id s) ∧
    (∀ tbl, processGlideComputer_real { cfg with GC2Event := tbl } fuel gce_id s =
      processGlideComputer_real cfg fuel gce_id s) ∧
    ∃ s' t, DoQueuedEvents cfg fuel
        (processGlideComputer gce_id (processNmea ne_id s).2).2 = some s' ∧
      s'.toCore = s.toCore ∧ s'.trace = s.trace ++ t ∧
      ∀ o ∈ t, o = Obs.gce_real gce_id ∨ o = Obs.nmea_real ne_id := by
  refine ⟨processNmea_real_out_of_range cfg fuel ne_id s hN,
    processGlideComputer_real_out_of_range cfg fuel gce_id s hG, ?_, ?_, ?_⟩
  · intro tbl
    rw [processNmea_real_out_of_range cfg fuel ne_id s hN,
      processNmea_real_out_of_range { cfg with N2Event := tbl } fuel ne_id s hN]
  · intro tbl
    rw [processGlideComputer_real_out_of_range cfg fuel gce_id s hG,
      processGlideComputer_real_out_of_range { cfg with GC2Event := tbl } fuel gce_id s hG]
  · have hclear : clearQueues (processGlideComputer gce_id (processNmea ne_id s).2).2 = s := by
      show ({ s with GCE_Queue := List.replicate MAX_GCE_QUEUE (-1),
                     NMEA_Queue := List.replicate MAX_NMEA_QUEUE (-1) } : State) = s
      rw [← hqN, ← hqG]
    have hg : (processGlideComputer gce_id (processNmea ne_id s).2).2.GCE_Queue =
        toInt32 gce_id :: List.replicate 9 (-1) := by
      show storeFirstFree MAX_GCE_QUEUE s.GCE_Queue (toInt32 gce_id) = _
      rw [hqG]
      exact storeFirstFree_empty 9 9 _
    have hn : (processGlideComputer gce_id (processNmea ne_id s).2).2.NMEA_Queue =
        toInt32 ne_id :: List.replicate 9 (-1) := by
      show storeFirstFree MAX_NMEA_QUEUE s.NMEA_Queue (toInt32 ne_id) = _
      rw [hqN]
      exact storeFirstFree_empty 9 9 _
    obtain ⟨u, hu, hcu, _, htu⟩ := dispatchGCE_single cfg fuel gce_id 9 s hG hidG
    obtain ⟨v, hv, hcv, _, htv⟩ := dispatchNMEA_single cfg fuel ne_id 9 u hN hidN
    have htake : ∀ x : Int, (x :: List.replicate 9 (-1)).take 10 = x :: List.replicate 9 (-1) :=
      fun x => List.take_of_length_le (by simp)
    have hdo : DoQueuedEvents cfg fuel
        (processGlideComputer gce_id (processNmea ne_id s).2).2 = some v := by
      unfold DoQueuedEvents
      simp only [hclear, hg, hn, MAX_GCE_QUEUE, MAX_NMEA_QUEUE, htake, hu, Option.some_bind, hv]
    rcases htu with htu | htu <;> rcases htv with htv | htv
    · exact ⟨v, [], hdo, hcv.trans hcu, by rw [htv, htu]; simp, by simp⟩
    · exact ⟨v, [Obs.nmea_real ne_id], hdo, hcv.trans hcu, by rw [htv, htu], by simp⟩
    · exact ⟨v, [Obs.gce_real gce_id], hdo, hcv.trans hcu, by rw [htv, htu], by simp⟩
    · exact ⟨v, [Obs.gce_real gce_id, Obs.nmea_real ne_id], hdo, hcv.trans hcu,
        by rw [htv, htu]; simp, by simp⟩

/-- Witness of C16: NMEA id 4 and glide-computer id 40 are the first ids out of
range in the example. -/
theorem out_of_range_is_noop_witness :
    (4 : Nat) ≥ exampleConfig.NE_COUNT ∧ (40 : Nat) ≥ exampleConfig.GCE_COUNT ∧
    processNmea_real exampleConfig 0 4 (exampleState 2 1 5) =
      some (false, (exampleState 2 1 5).log (Obs.nmea_real 4)) ∧
    (DoQueuedEvents exampleConfig 0
        (processGlideComputer 40 (processNmea 4 (exampleState 2 1 5)).2).2).map
      (fun u => (u.trace, u.current_mode, u.MenuTimeOut)) =
      some ([Obs.gce_real 40, Obs.nmea_real 4], 2, 1) :=
  ⟨by decide, by decide,
   (out_of_range_is_noop exampleConfig 0 4 40 (exampleState 2 1 5) (by decide) (by decide)
      (by decide) (by decide) rfl rfl).1,
   by decide⟩

theorem dispatchGCE_append (cfg : InputConfig) (fuel : Nat) (b : List Int) :
    ∀ (a : List Int) (s : State),
      dispatchGCE cfg fuel (a ++ b) s =
        (dispatchGCE cfg fuel a s).bind (fun u => dispatchGCE cfg fuel b u) := by
  intro a
  induction a with
  | nil => intro s; rfl
  | cons x xs ih =>
    intro s
    by_cases hx : x = -1
    · simp [dispatchGCE, hx, ih]
    · simp only [List.cons_append, dispatchGCE, hx, ne_eq, not_false_eq_true, if_true]
      cases processGlideComputer_real cfg fuel (toUInt32 x) s with
      | none => rfl
      | some r => simp [ih]

theorem dispatchNMEA_append (cfg : InputConfig) (fuel : Nat) (b : List Int) :
    ∀ (a : List Int) (s : State),
      dispatchNMEA cfg fuel (a ++ b) s =
        (dispatchNMEA cfg fuel a s).bind (fun u => dispatchNMEA cfg fuel b u) := by
  intro a
  induction a with
  | nil => intro s; rfl
  | cons x xs ih =>
    intro s
    by_cases hx : x = -1
    · simp [dispatchNMEA, hx, ih]
    · simp only [List.cons_append, dispatchNMEA, hx, ne_eq, not_false_eq_true, if_true]
      cases processNmea_real cfg fuel (toUInt32 x) s with
      | none => rfl
      | some r => simp [ih]

/-- With the running flag false, the first dispatch loop only enters
`processGlideComputer_real` for each occupied slot. -/
theorem dispatchGCE_stopped (cfg : InputConfig) (fuel : Nat) :
    ∀ (q : List Int) (u : State), u.running = false →
      dispatchGCE cfg fuel q u =
        some { u with trace := u.trace ++ (drained q).map Obs.gce_real } := by
  intro q
  induction q with
  | nil => intro u _; simp [dispatchGCE, drained]
  | cons x xs ih =>
    intro u hu
    by_cases hx : x = -1
    · rw [hx, drained_cons_free]
      simp only [dispatchGCE, ne_eq, not_true_eq_false, if_false]
      exact ih u hu
    · have hlog : (u.log (Obs.gce_real (toUInt32 x))).running = false := hu
      simp only [dispatchGCE, hx, ne_eq, not_false_eq_true, if_true,
        processGlideComputer_real, hlog, Bool.not_false, Option.some_bind]
      rw [ih _ hlog, drained_cons_used x xs hx]
      simp [State.log]

/-- With the running flag false, the second dispatch loop only enters
`processNmea_real` for each occupied slot. -/
theorem dispatchNMEA_stopped (cfg : InputConfig) (fuel : Nat) :
    ∀ (q : List Int) (u : State), u.running = false →
      dispatchNMEA cfg fuel q u =
        some { u with trace := u.trace ++ (drained q).map Obs.nmea_real } := by
  intro q
  induction q with
  | nil => intro u _; simp [dispatchNMEA, drained]
  | cons x xs ih =>
    intro u hu
    by_cases hx : x = -1
    · rw [hx, drained_cons_free]
      simp only [dispatchNMEA, ne_eq, not_true_eq_false, if_false]
      exact ih u hu
    · have hlog : (u.log (Obs.nmea_real (toUInt32 x))).running = false := hu
      simp only [dispatchNMEA, hx, ne_eq, not_false_eq_true, if_true,
        processNmea_real, hlog, Bool.not_false, Option.some_bind]
      rw [ih _ hlog, drained_cons_used x xs hx]
      simp [State.log]

theorem processGo_some_dispatched (cfg : InputConfig) :
    ∀ (fuel id : Nat) (s s' : State), processGo cfg fuel id s = some s' →
      Dispatched cfg s s' [] := by
  intro fuel
  induction fuel with
  | zero => intro id s s' h; simp [processGo] at h
  | succ f ih =>
    intro id s s' h
    unfold processGo at h
    split at h
    · have := dispatched_trans cfg _ _ _ _ _ (dispatched_runEntry cfg id s) (ih _ _ _ h)
      simpa using this
    · cases h
      exact dispatched_refl cfg s

theorem processGlideComputer_real_some (cfg : InputConfig) (fuel id : Nat) (s : State)
    (r : Bool × State) (h : processGlideComputer_real cfg fuel id s = some r) :
    Dispatched cfg s r.2 [Obs.gce_real id] := by
  have hlog := dispatched_log cfg s (Obs.gce_real id) rfl
  unfold processGlideComputer_real at h
  simp only [] at h
  split at h
  · cases h; exact hlog
  · split at h
    · cases h; exact hlog
    · split at h
      · cases hgo : processGo cfg fuel (cfg.GC2Event id) (s.log (Obs.gce_real id)) with
        | none => rw [hgo] at h; cases h
        | some s' =>
          rw [hgo] at h
          cases h
          simpa using dispatched_trans cfg _ _ _ _ _ hlog
            (processGo_some_dispatched cfg _ _ _ _ hgo)
      · cases h; exact hlog

theorem processNmea_real_some (cfg : InputConfig) (fuel id : Nat) (s : State)
    (r : Bool × State) (h : processNmea_real cfg fuel id s = some r) :
    Dispatched cfg s r.2 [Obs.nmea_real id] := by
  have hlog := dispatched_log cfg s (Obs.nmea_real id) rfl
  unfold processNmea_real at h
  simp only [] at h
  split at h
  · cases h; exact hlog
  · split at h
    · cases h; exact hlog
    · split at h
      · cases hgo : processGo cfg fuel (cfg.N2Event id) (s.log (Obs.nmea_real id)) with
        | none => rw [hgo] at h; cases h
        | some s' =>
          rw [hgo] at h
          cases h
          simpa using dispatched_trans cfg _ _ _ _ _ hlog
            (processGo_some_dispatched cfg _ _ _ _ hgo)
      · cases h; exact hlog

theorem dispatchGCE_some (cfg : InputConfig) (fuel : Nat) :
    ∀ (q : List Int) (s s' : State), dispatchGCE cfg fuel q s = some s' →
      Dispatched cfg s s' ((drained q).map Obs.gce_real) := by
  intro q
  induction q with
  | nil =>
    intro s s' h
    cases h
    simpa [drained] using dispatched_refl cfg s
  | cons x xs ih =>
    intro s s' h
    by_cases hx : x = -1
    · simp only [dispatchGCE, hx, ne_eq, not_true_eq_false, if_false] at h
      rw [hx, drained_cons_free]
      exact ih s s' h
    · simp only [dispatchGCE, hx, ne_eq, not_false_eq_true, if_true] at h
      cases hr : processGlideComputer_real cfg fuel (toUInt32 x) s with
      | none => rw [hr] at h; cases h
      | some r =>
        rw [hr, Option.some_bind] at h
        rw [drained_cons_used x xs hx]
        simpa using dispatched_trans cfg _ _ _ _ _
          (processGlideComputer_real_some cfg fuel _ s r hr) (ih _ _ h)

theorem dispatchNMEA_some (cfg : InputConfig) (fuel : Nat) :
    ∀ (q : List Int) (s s' : State), dispatchNMEA cfg fuel q s = some s' →
      Dispatched cfg s s' ((drained q).map Obs.nmea_real) := by
  intro q
  induction q with
  | nil =>
    intro s s' h
    cases h
    simpa [drained] using dispatched_refl cfg s
  | cons x xs ih =>
    intro s s' h
    by_cases hx : x = -1
    · simp only [dispatchNMEA, hx, ne_eq, not_true_eq_false, if_false] at h
      rw [hx, drained_cons_free]
      exact ih s s' h
    · simp only [dispatchNMEA, hx, ne_eq, not_false_eq_true, if_true] at h
      cases hr : processNmea_real cfg fuel (toUInt32 x) s with
      | none => rw [hr] at h; cases h
      | some r =>
        rw [hr, Option.some_bind] at h
        rw [drained_cons_used x xs hx]
        simpa using dispatched_trans cfg _ _ _ _ _
          (processNmea_real_some cfg fuel _ s r hr) (ih _ _ h)

/-- C17: let the running flag be false at a point of the dispatch of
`DoQueuedEvents`, after the slots `g₁` of the copy of `GCE_Queue` and the slots
`n₁` of the copy of `NMEA_Queue` (none of the latter before all of the former).
Then `DoQueuedEvents` returns; for the remaining slots `g₂`, `n₂` it only enters
the `_real` functions, which call no callable and leave the program state as it
is at that point; and both queues are empty on return (no callable writes to
them), so the remaining ids are not kept for a later call. -/
theorem drain_stops_when_flag_cleared (cfg : InputConfig) (fuel : Nat) (s u : State)
    (g₁ g₂ n₁ n₂ : List Int) (hk : ActionsKeepQueues cfg)
    (hg : s.GCE_Queue.take MAX_GCE_QUEUE = g₁ ++ g₂)
    (hn : s.NMEA_Queue.take MAX_NMEA_QUEUE = n₁ ++ n₂)
    (hpoint : g₂ = [] ∨ n₁ = [])
    (hu : drainPrefix cfg fuel g₁ n₁ s = some u) (hrun : u.running = false) :
    ∃ s', DoQueuedEvents cfg fuel s = some s' ∧ s'.toCore = u.toCore ∧
      s'.trace = u.trace ++ (drained g₂).map Obs.gce_real ++ (drained n₂).map Obs.nmea_real ∧
      s'.GCE_Queue = List.replicate MAX_GCE_QUEUE (-1) ∧
      s'.NMEA_Queue = List.replicate MAX_NMEA_QUEUE (-1) := by
  unfold drainPrefix at hu
  cases hv : dispatchGCE cfg fuel g₁ (clearQueues s) with
  | none => rw [hv] at hu; cases hu
  | some v =>
    rw [hv, Option.some_bind] at hu
    have hq₁ := (dispatchGCE_some cfg fuel g₁ _ _ hv).2 hk
    have hq₂ := (dispatchNMEA_some cfg fuel n₁ _ _ hu).2 hk
    have hqG : u.GCE_Queue = List.replicate MAX_GCE_QUEUE (-1) := hq₂.1.trans hq₁.1
    have hqN : u.NMEA_Queue = List.replicate MAX_NMEA_QUEUE (-1) := hq₂.2.trans hq₁.2
    rcases hpoint with hg₂ | hn₁
    · subst hg₂
      refine ⟨{ u with trace := u.trace ++ (drained n₂).map Obs.nmea_real }, ?_, rfl, ?_,
        hqG, hqN⟩
      · unfold DoQueuedEvents
        simp only [hg, hn, List.append_nil, hv, Option.some_bind]
        rw [dispatchNMEA_append, hu, Option.some_bind, dispatchNMEA_stopped cfg fuel n₂ u hrun]
      · simp [drained]
    · subst hn₁
      have huv : v = u := by
        simp only [dispatchNMEA] at hu
        exact Option.some.inj hu
      subst huv
      refine ⟨{ v with trace := v.trace ++ (drained g₂).map Obs.gce_real ++
          (drained n₂).map Obs.nmea_real }, ?_, rfl, rfl, hqG, hqN⟩
      unfold DoQueuedEvents
      simp only [hg, hn, List.nil_append]
      rw [dispatchGCE_append, hv, Option.some_bind, dispatchGCE_stopped cfg fuel g₂ v hrun,
        Option.some_bind]
      exact dispatchNMEA_stopped cfg fuel n₂
        { v with trace := v.trace ++ (drained g₂).map Obs.gce_real } hrun

/-- Witness of C17: in the example NMEA id 2 is bound to event 9, whose callable
clears the running flag; id 1, queued behind it and bound to event 5, is handed
to `processNmea_real` and no callable is called for it. -/
theorem drain_stops_when_flag_cleared_witness :
    drainPrefix exampleConfig 4 (List.replicate 10 (-1)) [2] shutdownQueuedState =
      some shutdownMidDrain ∧
    shutdownMidDrain.running = false ∧
    (∃ s', DoQueuedEvents exampleConfig 4 shutdownQueuedState = some s' ∧
      s'.toCore = shutdownMidDrain.toCore ∧
      s'.trace = shutdownMidDrain.trace ++ (drained []).map Obs.gce_real ++
        (drained (1 :: List.replicate 8 (-1))).map Obs.nmea_real ∧
      s'.GCE_Queue = List.replicate MAX_GCE_QUEUE (-1) ∧
      s'.NMEA_Queue = List.replicate MAX_NMEA_QUEUE (-1)) ∧
    (DoQueuedEvents exampleConfig 4 shutdownQueuedState).map (fun u => u.trace) =
      some [Obs.nmea_real 2, Obs.action 9, Obs.nmea_real 1] :=
  ⟨rfl, rfl,
   drain_stops_when_flag_cleared exampleConfig 4 shutdownQueuedState shutdownMidDrain
     (List.replicate 10 (-1)) [] [2] (1 :: List.replicate 8 (-1)) exampleConfig_keeps
     (by decide) (by decide) (Or.inl rfl) rfl rfl,
   by decide⟩

/-! ## Interleavings of enqueues and timer calls -/

theorem storeFirstFree_sentinel :
    ∀ (n : Nat) (q : List Int), storeFirstFree n q (-1) = q := by
  intro n
  induction n with
  | zero => intro q; rfl
  | succ n ih =>
    intro q
    cases q with
    | nil => rfl
    | cons y ys =>
      by_cases hy : y = -1
      · simp [storeFirstFree, hy]
      · simp [storeFirstFree, hy, ih ys]

theorem lt_sentinel_of_toInt32 (id : Nat) (h : id < UINT_RANGE) (hx : toInt32 id ≠ -1) :
    id < UINT_RANGE - 1 := by
  unfold toInt32 UINT_RANGE at *
  split at hx <;> omega

theorem holds_empty (acc : List Nat) : Holds (List.replicate 10 (-1)) acc :=
  ⟨[], by simp, by simp, List.nil_sublist _, by simp⟩

/-- An enqueue keeps the queue a gap-free record of ids taken in order from the
ids enqueued so far. -/
theorem holds_enqueue (q : List Int) (acc : List Nat) (id : Nat) (h : Holds q acc)
    (hid : id < UINT_RANGE) : Holds (storeFirstFree 10 q (toInt32 id)) (acc ++ [id]) := by
  obtain ⟨l, hq, hlen, hsub, hl⟩ := h
  have hpre : ∀ x ∈ l.map toInt32, x ≠ -1 := by
    intro x hx
    obtain ⟨a, ha, rfl⟩ := List.mem_map.mp hx
    exact toInt32_ne_sentinel a (hl a ha)
  by_cases hx : toInt32 id = -1
  · rw [hx, storeFirstFree_sentinel]
    exact ⟨l, hq, hlen, hsub.trans (List.sublist_append_left acc [id]), hl⟩
  · by_cases hfull : l.length = 10
    · have hq' : q = l.map toInt32 := by rw [hq, hfull]; simp
      rw [hq', storeFirstFree_full _ _ _ hpre, ← hq']
      exact ⟨l, hq, hlen, hsub.trans (List.sublist_append_left acc [id]), hl⟩
    · have hlt : l.length < 10 := by omega
      obtain ⟨k, hk⟩ : ∃ k, 10 - l.length = k + 1 := ⟨10 - l.length - 1, by omega⟩
      refine ⟨l ++ [id], ?_, by simp; omega, List.Sublist.append hsub (List.Sublist.refl _), ?_⟩
      · rw [hq, hk, List.replicate_succ,
          storeFirstFree_at _ _ _ _ hpre (by simpa using hlt)]
        have hk' : 10 - (l ++ [id]).length = k := by simp; omega
        rw [hk']
        simp
      · intro a ha
        rcases List.mem_append.mp ha with h | h
        · exact hl a h
        · simp at h
          rw [h]
          exact lt_sentinel_of_toInt32 id hid hx

theorem drained_holds (q : List Int) (acc : List Nat) (h : Holds q acc) :
    ∃ l : List Nat, l.Sublist acc ∧ drained (q.take 10) = l := by
  obtain ⟨l, hq, hlen, hsub, hl⟩ := h
  refine ⟨l, hsub, ?_⟩
  rw [hq, take_enqueued l 10 hlen, drained_enqueued l _ hl]

theorem ProcessMenuTimer_running (cfg : InputConfig) (s : State) :
    (ProcessMenuTimer cfg s).running = s.running := by
  cases hd : s.has_dialog with
  | true => rw [ProcessMenuTimer_dialog cfg s hd]; rfl
  | false =>
    show (ProcessMenuTimer cfg s).toCore.running = _
    rw [ProcessMenuTimer_core cfg s hd]

theorem filter_isNmea_timer (g n : List Nat) :
    (g.map Obs.gce_real ++ n.map Obs.nmea_real ++ [Obs.ProcessMenuTimer]).filter Obs.isNmea =
      n.map Obs.nmea_real := by
  rw [List.filter_append, filter_isNmea_calls]
  simp [Obs.isNmea]

theorem filter_isGce_timer (g n : List Nat) :
    (g.map Obs.gce_real ++ n.map Obs.nmea_real ++ [Obs.ProcessMenuTimer]).filter Obs.isGce =
      g.map Obs.gce_real := by
  rw [List.filter_append, filter_isGce_calls]
  simp [Obs.isGce]

/-- A `ProcessTimer` call returns when every chain is finite.  Called with the
running flag true it hands on the occupied slots of both queues and leaves
both queues empty (no callable writes to them); called with the running flag
false it hands on nothing and the running flag stays false. -/
theorem ProcessTimer_returns (cfg : InputConfig) (n fuel : Nat) (s : State)
    (hn : ChainsWithin cfg n) (hf : n < fuel) (hk : ActionsKeepQueues cfg) :
    ∃ s' t, ProcessTimer cfg fuel s = some s' ∧ s'.trace = s.trace ++ t ∧
      (s.running = true →
        t.filter Obs.isDispatch =
          (drained (s.GCE_Queue.take MAX_GCE_QUEUE)).map Obs.gce_real ++
            (drained (s.NMEA_Queue.take MAX_NMEA_QUEUE)).map Obs.nmea_real ++
            [Obs.ProcessMenuTimer] ∧
        s'.GCE_Queue = List.replicate MAX_GCE_QUEUE (-1) ∧
        s'.NMEA_Queue = List.replicate MAX_NMEA_QUEUE (-1)) ∧
      (s.running = false →
        t.filter Obs.isDispatch = [Obs.ProcessMenuTimer] ∧ s'.running = false) := by
  cases hrun : s.running with
  | true =>
    obtain ⟨s₁, t₁, hdo, ht₁, hc₁, hq₁⟩ := DoQueuedEvents_returns cfg n fuel s hn hf
    obtain ⟨⟨t₂, ht₂, hc₂⟩, hq₂⟩ := ProcessMenuTimer_dispatched cfg s₁
    refine ⟨ProcessMenuTimer cfg s₁, t₁ ++ t₂, ?_, ?_, ?_, ?_⟩
    · simp [ProcessTimer, hrun, hdo]
    · rw [ht₂, ht₁, List.append_assoc]
    · intro _
      refine ⟨by rw [List.filter_append, hc₁, hc₂], ?_, ?_⟩
      · exact (hq₂ hk).1.trans (hq₁ hk).1
      · exact (hq₂ hk).2.trans (hq₁ hk).2
    · intro h; cases h
  | false =>
    obtain ⟨⟨t₂, ht₂, hc₂⟩, _⟩ := ProcessMenuTimer_dispatched cfg s
    refine ⟨ProcessMenuTimer cfg s, t₂, ?_, ht₂, ?_, ?_⟩
    · simp [ProcessTimer, hrun]
    · intro h; cases h
    · intro _
      exact ⟨hc₂, by rw [ProcessMenuTimer_running, hrun]⟩

/-- Along an interleaving, as long as the running flag is true, each queue holds
ids enqueued since the last `ProcessTimer` call. -/
theorem runOps_holds (cfg : InputConfig) (n fuel : Nat)
    (hn : ChainsWithin cfg n) (hf : n < fuel) (hk : ActionsKeepQueues cfg) :
    ∀ (ops : List Op) (accN accG : List Nat) (s : State),
      (s.running = true → Holds s.NMEA_Queue accN ∧ Holds s.GCE_Queue accG) →
      (∀ o ∈ ops, o.valid) →
      ∃ s₁, runOps cfg fuel ops s = some s₁ ∧
        (s₁.running = true →
          Holds s₁.NMEA_Queue (pendingNmea accN ops) ∧
          Holds s₁.GCE_Queue (pendingGce accG ops)) := by
  intro ops
  induction ops with
  | nil => intro accN accG s h _; exact ⟨s, rfl, h⟩
  | cons o ops ih =>
    intro accN accG s h hv
    have hvo : o.valid := hv o (List.mem_cons_self _ _)
    have hvs : ∀ o' ∈ ops, o'.valid := fun o' ho' => hv o' (List.mem_cons_of_mem _ ho')
    cases o with
    | nmea id =>
      exact ih (accN ++ [id]) accG (processNmea id s).2
        (fun hr => ⟨holds_enqueue _ _ id (h hr).1 hvo, (h hr).2⟩) hvs
    | gce id =>
      exact ih accN (accG ++ [id]) (processGlideComputer id s).2
        (fun hr => ⟨(h hr).1, holds_enqueue _ _ id (h hr).2 hvo⟩) hvs
    | tick =>
      obtain ⟨s', t, hpt, _, hT, hF⟩ := ProcessTimer_returns cfg n fuel s hn hf hk
      obtain ⟨s₁, hs₁, hinv⟩ := ih [] [] s' (by
        intro hr'
        cases hrun : s.running with
        | true =>
          obtain ⟨_, hG, hN⟩ := hT hrun
          rw [hG, hN]
          exact ⟨holds_empty [], holds_empty []⟩
        | false =>
          rw [(hF hrun).2] at hr'
          cases hr') hvs
      exact ⟨s₁, by simp [runOps, hpt, hs₁], hinv⟩

theorem runOps_append (cfg : InputConfig) (fuel : Nat) (b : List Op) :
    ∀ (a : List Op) (s : State),
      runOps cfg fuel (a ++ b) s = (runOps cfg fuel a s).bind (fun u => runOps cfg fuel b u) := by
  intro a
  induction a with
  | nil => intro s; rfl
  | cons o os ih =>
    intro s
    cases o with
    | nmea id => exact ih _
    | gce id => exact ih _
    | tick =>
      simp only [List.cons_append, runOps]
      cases ProcessTimer cfg fuel s with
      | none => rfl
      | some u => simp [ih]

/-- C18: take any interleaving `ops` of enqueues and `ProcessTimer` calls, started
with empty queues, every chain finite and no callable writing to a queue.
The interleaving returns, and the `ProcessTimer` call that follows it hands to
`processNmea_real` (to `processGlideComputer_real`) only ids that were enqueued
with `processNmea` (with `processGlideComputer`) since the previous
`ProcessTimer` call, each enqueued id at most once and in the order of
enqueuing.  So an id enqueued before a `ProcessTimer` call is handed on within
that call or not at all: no later call hands it on, and none hands it on twice. -/
theorem tick_dispatches_only_pending (cfg : InputConfig) (n fuel : Nat) (ops : List Op)
    (s₀ : State) (hn : ChainsWithin cfg n) (hf : n < fuel) (hk : ActionsKeepQueues cfg)
    (hqN : s₀.NMEA_Queue = List.replicate MAX_NMEA_QUEUE (-1))
    (hqG : s₀.GCE_Queue = List.replicate MAX_GCE_QUEUE (-1))
    (hv : ∀ o ∈ ops, o.valid) :
    ∃ (s s' : State) (t : List Obs) (lN lG : List Nat), runOps cfg fuel ops s₀ = some s ∧
      ProcessTimer cfg fuel s = some s' ∧
      runOps cfg fuel (ops ++ [Op.tick]) s₀ = some s' ∧
      s'.trace = s.trace ++ t ∧
      t.filter Obs.isNmea = lN.map Obs.nmea_real ∧
      t.filter Obs.isGce = lG.map Obs.gce_real ∧
      lN.Sublist (pendingNmea [] ops) ∧ lG.Sublist (pendingGce [] ops) := by
  obtain ⟨s, hs, hinv⟩ := runOps_holds cfg n fuel hn hf hk ops [] [] s₀
    (fun _ => by rw [hqN, hqG]; exact ⟨holds_empty [], holds_empty []⟩) hv
  obtain ⟨s', t, hpt, ht, hT, hF⟩ := ProcessTimer_returns cfg n fuel s hn hf hk
  have happ : runOps cfg fuel (ops ++ [Op.tick]) s₀ = some s' := by
    rw [runOps_append, hs]
    simp [runOps, hpt]
  cases hrun : s.running with
  | true =>
    obtain ⟨hc, _, _⟩ := hT hrun
    obtain ⟨hN, hG⟩ := hinv hrun
    obtain ⟨lN, hsubN, hdN⟩ := drained_holds _ _ hN
    obtain ⟨lG, hsubG, hdG⟩ := drained_holds _ _ hG
    have hdN' : drained (s.NMEA_Queue.take MAX_NMEA_QUEUE) = lN := hdN
    have hdG' : drained (s.GCE_Queue.take MAX_GCE_QUEUE) = lG := hdG
    rw [hdN', hdG'] at hc
    refine ⟨s, s', t, lN, lG, hs, hpt, happ, ht, ?_, ?_, hsubN, hsubG⟩
    · rw [filter_isNmea_of_isDispatch, hc, filter_isNmea_timer]
    · rw [filter_isGce_of_isDispatch, hc, filter_isGce_timer]
  | false =>
    obtain ⟨hc, _⟩ := hF hrun
    refine ⟨s, s', t, [], [], hs, hpt, happ, ht, ?_, ?_, List.nil_sublist _,
      List.nil_sublist _⟩
    · rw [filter_isNmea_of_isDispatch, hc]; rfl
    · rw [filter_isGce_of_isDispatch, hc]; rfl

/-- Witness of C18: NMEA id 1 and glide-computer id 2 are enqueued before the
first timer call and handed on in it; the second timer call hands on NMEA id 3
only. -/
theorem tick_dispatches_only_pending_witness :
    (∃ (s s' : State) (t : List Obs) (lN lG : List Nat),
      runOps exampleConfig 4 [Op.nmea 1, Op.gce 2, Op.tick, Op.nmea 3]
        (exampleState 0 0 5) = some s ∧
      ProcessTimer exampleConfig 4 s = some s' ∧
      runOps exampleConfig 4 ([Op.nmea 1, Op.gce 2, Op.tick, Op.nmea 3] ++ [Op.tick])
        (exampleState 0 0 5) = some s' ∧
      s'.trace = s.trace ++ t ∧
      t.filter Obs.isNmea = lN.map Obs.nmea_real ∧
      t.filter Obs.isGce = lG.map Obs.gce_real ∧
      lN.Sublist (pendingNmea [] [Op.nmea 1, Op.gce 2, Op.tick, Op.nmea 3]) ∧
      lG.Sublist (pendingGce [] [Op.nmea 1, Op.gce 2, Op.tick, Op.nmea 3])) ∧
    pendingNmea [] [Op.nmea 1, Op.gce 2, Op.tick, Op.nmea 3] = [3] ∧
    (runOps exampleConfig 4 [Op.nmea 1, Op.gce 2, Op.tick, Op.nmea 3, Op.tick]
        (exampleState 0 0 5)).map (fun u => u.trace.filter Obs.isDispatch) =
      some [Obs.gce_real 2, Obs.nmea_real 1, Obs.ProcessMenuTimer, Obs.nmea_real 3,
        Obs.ProcessMenuTimer] :=
  ⟨tick_dispatches_only_pending exampleConfig 3 4 [Op.nmea 1, Op.gce 2, Op.tick, Op.nmea 3]
      (exampleState 0 0 5) exampleConfig_chains (by decide) exampleConfig_keeps rfl rfl
      (by
        intro o ho
        simp only [List.mem_cons, List.mem_singleton, List.not_mem_nil, or_false] at ho
        rcases ho with h | h | h | h <;> subst h <;> simp [Op.valid, UINT_RANGE]),
    by decide, by decide⟩

/-! ## Validity of the current mode -/

theorem setMode_valid (cfg : InputConfig) (m : Nat) (s : State) (hm : m < cfg.modes.length) :
    (setMode cfg m s).current_mode = m ∧
    (setMode cfg m s).assert_failed = s.assert_failed := by
  refine ⟨?_, ?_⟩
  · show (setMode cfg m s).toCore.current_mode = m
    rw [setMode_core]
  · rw [setMode_assert]
    simp [hm]

theorem LookupMode_valid (cfg : InputConfig) (name : String)
    (h : LookupMode cfg name ≥ 0) : (LookupMode cfg name).toNat < cfg.modes.length := by
  unfold LookupMode at *
  split at h
  · next hmem =>
    rw [if_pos hmem]
    simpa using List.indexOf_lt_length.mpr hmem
  · omega

theorem ProcessMenuTimer_assert (cfg : InputConfig) (s : State) (hc : ModesValid cfg) :
    (ProcessMenuTimer cfg s).assert_failed = s.assert_failed := by
  cases hd : s.has_dialog with
  | true => rw [ProcessMenuTimer_dialog cfg s hd]; rfl
  | false =>
    have h1 : (s.log Obs.ProcessMenuTimer).has_dialog = false := hd
    unfold ProcessMenuTimer
    simp only [h1]
    show (drawButtons cfg _ false _).assert_failed = _
    rw [(drawButtons_core cfg _ false _).2]
    split
    · split
      · rw [(setMode_valid cfg _ _ hc.2.1).2]; rfl
      · rw [(setMode_valid cfg _ _ hc.1).2]; rfl
    · rfl

theorem ProcessMenuTimer_valid (cfg : InputConfig) (s : State) (hc : ModesValid cfg)
    (hs : s.current_mode < cfg.modes.length) :
    (ProcessMenuTimer cfg s).current_mode < cfg.modes.length := by
  cases hd : s.has_dialog with
  | true => rw [ProcessMenuTimer_dialog cfg s hd]; exact hs
  | false =>
    show (ProcessMenuTimer cfg s).toCore.current_mode < _
    rw [ProcessMenuTimer_core cfg s hd]
    show (if s.MenuTimeOut = s.menu_timeout then
        (if s.panning = true then cfg.MODE_PAN else cfg.MODE_DEFAULT)
      else s.current_mode) < _
    split
    · split
      · exact hc.2.1
      · exact hc.1
    · exact hs

/-- Each admissible operation keeps the current mode valid and violates no
assertion. -/
theorem modeOp_apply_valid (cfg : InputConfig) (o : ModeOp) (s : State)
    (hc : ModesValid cfg) (ho : o.admissible cfg)
    (hs : s.current_mode < cfg.modes.length) (ha : s.assert_failed = false) :
    (o.apply cfg s).current_mode < cfg.modes.length ∧
    (o.apply cfg s).assert_failed = false := by
  cases o with
  | byId m =>
    have hm : m < cfg.modes.length := ho
    show (setMode cfg m s).current_mode < _ ∧ (setMode cfg m s).assert_failed = false
    rw [(setMode_valid cfg m s hm).1, (setMode_valid cfg m s hm).2]
    exact ⟨hm, ha⟩
  | byName name =>
    show (setModeByName cfg name s).current_mode < _ ∧
      (setModeByName cfg name s).assert_failed = false
    unfold setModeByName
    dsimp only
    split
    · next h =>
      have hm := LookupMode_valid cfg name h
      rw [(setMode_valid cfg _ s hm).1, (setMode_valid cfg _ s hm).2]
      exact ⟨hm, ha⟩
    · exact ⟨hs, ha⟩
  | leave name =>
    show (LeaveMode cfg name s).current_mode < _ ∧ (LeaveMode cfg name s).assert_failed = false
    unfold LeaveMode
    split
    · rw [(setMode_valid cfg _ s hc.1).1, (setMode_valid cfg _ s hc.1).2]
      exact ⟨hc.1, ha⟩
    · exact ⟨hs, ha⟩
  | showMenu =>
    show (ShowMenu cfg s).current_mode < _ ∧ (ShowMenu cfg s).assert_failed = false
    rw [ShowMenu_eq]
    have ha' : (afterPanOff cfg s).assert_failed = false := by
      unfold afterPanOff
      split
      · exact ha
      · exact ha
    have hm := setMode_valid cfg cfg.MODE_MENU (afterPanOff cfg s) hc.2.2
    refine ⟨ProcessMenuTimer_valid cfg _ hc ?_, ?_⟩
    · show (setMode cfg cfg.MODE_MENU (afterPanOff cfg s)).current_mode < _
      rw [hm.1]
      exact hc.2.2
    · rw [ProcessMenuTimer_assert cfg _ hc]
      show (setMode cfg cfg.MODE_MENU (afterPanOff cfg s)).assert_failed = false
      rw [hm.2]
      exact ha'
  | hideMenu =>
    show (HideMenu cfg s).current_mode < _ ∧ (HideMenu cfg s).assert_failed = false
    unfold HideMenu
    exact ⟨ProcessMenuTimer_valid cfg _ hc hs, by rw [ProcessMenuTimer_assert cfg _ hc]; exact ha⟩
  | menuTimer =>
    exact ⟨ProcessMenuTimer_valid cfg s hc hs, (ProcessMenuTimer_assert cfg s hc).trans ha⟩

/-- C19: let the mode constants `MODE_DEFAULT`, `MODE_PAN`, `MODE_MENU` be modes of
the configuration and start in `MODE_DEFAULT`.  After any sequence of
`setMode(m)` (with `m` a mode, as `setMode` asserts), `setMode(name)`,
`LeaveMode`, `ShowMenu`, `HideMenu` and `ProcessMenuTimer` the current mode is
an index into the mode set, and no assertion has been violated.  The mode set
belongs to the configuration, which no operation takes as a result. -/
theorem current_mode_always_valid (cfg : InputConfig) (ops : List ModeOp) (s : State)
    (hc : ModesValid cfg) (hs : s.current_mode = cfg.MODE_DEFAULT)
    (ha : s.assert_failed = false) (hops : ∀ o ∈ ops, o.admissible cfg) :
    (ops.foldl (fun u o => o.apply cfg u) s).current_mode < cfg.modes.length ∧
    (ops.foldl (fun u o => o.apply cfg u) s).assert_failed = false := by
  have hgen : ∀ (l : List ModeOp) (u : State), (∀ o ∈ l, o.admissible cfg) →
      u.current_mode < cfg.modes.length → u.assert_failed = false →
      (l.foldl (fun u o => o.apply cfg u) u).current_mode < cfg.modes.length ∧
      (l.foldl (fun u o => o.apply cfg u) u).assert_failed = false := by
    intro l
    induction l with
    | nil => intro u _ hu hau; exact ⟨hu, hau⟩
    | cons o os ih =>
      intro u hl hu hau
      have hstep := modeOp_apply_valid cfg o u hc (hl o (List.mem_cons_self _ _)) hu hau
      exact ih (o.apply cfg u) (fun o' ho' => hl o' (List.mem_cons_of_mem _ ho'))
        hstep.1 hstep.2
  exact hgen ops s hops (by rw [hs]; exact hc.1) ha

/-- Witness of C19: a sequence of all six operations in the example. -/
theorem current_mode_always_valid_witness :
    ModesValid exampleConfig ∧
    ([ModeOp.showMenu, ModeOp.byId 2, ModeOp.leave "infobox",
        ModeOp.byName "pan", ModeOp.hideMenu, ModeOp.menuTimer].foldl
      (fun u o => o.apply exampleConfig u) (exampleState 0 0 5)).current_mode <
      exampleConfig.modes.length ∧
    ([ModeOp.showMenu, ModeOp.byId 2, ModeOp.leave "infobox",
        ModeOp.byName "pan", ModeOp.hideMenu, ModeOp.menuTimer].foldl
      (fun u o => o.apply exampleConfig u) (exampleState 0 0 5)).assert_failed = false :=
  ⟨⟨by decide, by decide, by decide⟩,
   current_mode_always_valid exampleConfig
     [ModeOp.showMenu, ModeOp.byId 2, ModeOp.leave "infobox",
       ModeOp.byName "pan", ModeOp.hideMenu, ModeOp.menuTimer]
     (exampleState 0 0 5) ⟨by decide, by decide, by decide⟩ rfl rfl
     (by
       intro o ho
       simp only [List.mem_cons, List.mem_singleton, List.not_mem_nil, or_false] at ho
       rcases ho with h | h | h | h | h | h <;> subst h <;>
         first
         | exact trivial
         | exact (by decide : (2 : Nat) < exampleConfig.modes.length))⟩

/-! ## The timeout over many ticks -/

theorem ProcessMenuTimer_tick (cfg : InputConfig) (s : State) (hd : s.has_dialog = false) :
    (ProcessMenuTimer cfg s).has_dialog = false ∧
    (ProcessMenuTimer cfg s).menu_timeout = s.menu_timeout ∧
    (ProcessMenuTimer cfg s).MenuTimeOut = (s.MenuTimeOut + 1) % UINT_RANGE := by
  have h := ProcessMenuTimer_core cfg s hd
  refine ⟨?_, ?_, ?_⟩
  · show (ProcessMenuTimer cfg s).toCore.has_dialog = false
    rw [h]; exact hd
  · show (ProcessMenuTimer cfg s).toCore.menu_timeout = _
    rw [h]
  · show (ProcessMenuTimer cfg s).toCore.MenuTimeOut = _
    rw [h]

/-- One `ProcessMenuTimer()` call with no dialog visible, in terms of the program
state `c₀` up to mode `m` and counter `c`: the mode becomes the fallback mode
if `c` equals `menu_timeout` and the counter is incremented. -/
theorem ProcessMenuTimer_step (cfg : InputConfig) (v : State) (c₀ : Core) (m c : Nat)
    (hv : v.toCore = { c₀ with current_mode := m, MenuTimeOut := c })
    (hd : c₀.has_dialog = false) :
    (ProcessMenuTimer cfg v).toCore =
      { c₀ with
        current_mode :=
          if c = c₀.menu_timeout then (if c₀.panning then cfg.MODE_PAN else cfg.MODE_DEFAULT)
          else m,
        MenuTimeOut := (c + 1) % UINT_RANGE } := by
  have hdv : v.has_dialog = false := by
    show v.toCore.has_dialog = false
    rw [hv]; exact hd
  have h1 : v.MenuTimeOut = c := by
    show v.toCore.MenuTimeOut = c
    rw [hv]
  have h2 : v.menu_timeout = c₀.menu_timeout := by
    show v.toCore.menu_timeout = _
    rw [hv]
  have h3 : v.panning = c₀.panning := by
    show v.toCore.panning = _
    rw [hv]
  have h4 : v.current_mode = m := by
    show v.toCore.current_mode = m
    rw [hv]
  rw [ProcessMenuTimer_core cfg v hdv, h1, h2, h3, h4, hv]

/-- Program state after `HideMenu` and any number `k` of further
`ProcessMenuTimer` calls, with no dialog visible: the mode is the fallback mode
and the counter has been incremented `k` times. -/
theorem ticks_after_HideMenu_all (cfg : InputConfig) (s : State) (hd : s.has_dialog = false) :
    ∀ k, ((ProcessMenuTimer cfg)^[k] (HideMenu cfg s)).toCore =
      { s.toCore with
        current_mode := if s.panning then cfg.MODE_PAN else cfg.MODE_DEFAULT,
        MenuTimeOut := (s.menu_timeout + 1 + k) % UINT_RANGE } := by
  intro k
  induction k with
  | zero => rw [Function.iterate_zero, id_eq, HideMenu_core cfg s hd]
  | succ k ih =>
    rw [Function.iterate_succ_apply',
      ProcessMenuTimer_step cfg _ s.toCore _ _ ih hd]
    have harith : ((s.menu_timeout + 1 + k) % UINT_RANGE + 1) % UINT_RANGE =
        (s.menu_timeout + 1 + (k + 1)) % UINT_RANGE := by
      unfold UINT_RANGE
      omega
    rw [harith, ite_self]

/-- Program state after `ShowMenu` and any number `k` of further
`ProcessMenuTimer` calls, with no dialog visible: the mode is `MODE_MENU` while
`k` is below `menu_timeout` and the fallback mode from then on, and the counter
has been incremented `k + 1` times from 0. -/
theorem ticks_after_ShowMenu (cfg : InputConfig) (s : State)
    (hd : (afterPanOff cfg s).has_dialog = false)
    (ht : (afterPanOff cfg s).menu_timeout < UINT_RANGE) :
    ∀ k, ((ProcessMenuTimer cfg)^[k] (ShowMenu cfg s)).toCore =
      { (afterPanOff cfg s).toCore with
        current_mode :=
          if (afterPanOff cfg s).menu_timeout ≤ k then
            (if (afterPanOff cfg s).panning then cfg.MODE_PAN else cfg.MODE_DEFAULT)
          else cfg.MODE_MENU,
        MenuTimeOut := (1 + k) % UINT_RANGE } := by
  intro k
  induction k with
  | zero =>
    have hp : ({ setMode cfg cfg.MODE_MENU (afterPanOff cfg s) with MenuTimeOut := 0 } :
        State).toCore =
        { (afterPanOff cfg s).toCore with current_mode := cfg.MODE_MENU, MenuTimeOut := 0 } := by
      show ({ (setMode cfg cfg.MODE_MENU (afterPanOff cfg s)).toCore with MenuTimeOut := 0 } :
        Core) = _
      rw [setMode_core]
    rw [Function.iterate_zero, id_eq, ShowMenu_eq,
      ProcessMenuTimer_step cfg _ (afterPanOff cfg s).toCore _ _ hp hd]
    have hmode : (if 0 = (afterPanOff cfg s).menu_timeout then
          (if (afterPanOff cfg s).panning then cfg.MODE_PAN else cfg.MODE_DEFAULT)
        else cfg.MODE_MENU) =
        (if (afterPanOff cfg s).menu_timeout ≤ 0 then
          (if (afterPanOff cfg s).panning then cfg.MODE_PAN else cfg.MODE_DEFAULT)
        else cfg.MODE_MENU) := by
      by_cases h0 : (afterPanOff cfg s).menu_timeout = 0
      · rw [if_pos h0.symm, if_pos (show (afterPanOff cfg s).menu_timeout ≤ 0 by omega)]
      · rw [if_neg (fun h => h0 h.symm),
          if_neg (show ¬ (afterPanOff cfg s).menu_timeout ≤ 0 by omega)]
    show ({ (afterPanOff cfg s).toCore with
      current_mode := if 0 = (afterPanOff cfg s).menu_timeout then
          (if (afterPanOff cfg s).panning then cfg.MODE_PAN else cfg.MODE_DEFAULT)
        else cfg.MODE_MENU,
      MenuTimeOut := (0 + 1) % UINT_RANGE } : Core) = _
    rw [hmode]
  | succ k ih =>
    rw [Function.iterate_succ_apply',
      ProcessMenuTimer_step cfg _ (afterPanOff cfg s).toCore _ _ ih hd]
    have hmode : (if (1 + k) % UINT_RANGE = (afterPanOff cfg s).menu_timeout then
          (if (afterPanOff cfg s).panning then cfg.MODE_PAN else cfg.MODE_DEFAULT)
        else
          (if (afterPanOff cfg s).menu_timeout ≤ k then
            (if (afterPanOff cfg s).panning then cfg.MODE_PAN else cfg.MODE_DEFAULT)
          else cfg.MODE_MENU)) =
        (if (afterPanOff cfg s).menu_timeout ≤ k + 1 then
          (if (afterPanOff cfg s).panning then cfg.MODE_PAN else cfg.MODE_DEFAULT)
        else cfg.MODE_MENU) := by
      by_cases h1 : (1 + k) % UINT_RANGE = (afterPanOff cfg s).menu_timeout
      · have h3 : (afterPanOff cfg s).menu_timeout ≤ k + 1 := by
          unfold UINT_RANGE at h1
          omega
        rw [if_pos h1, if_pos h3]
      · rw [if_neg h1]
        by_cases h2 : (afterPanOff cfg s).menu_timeout ≤ k
        · have h3 : (afterPanOff cfg s).menu_timeout ≤ k + 1 := by omega
          rw [if_pos h2, if_pos h3]
        · have h3 : ¬ (afterPanOff cfg s).menu_timeout ≤ k + 1 := by
            unfold UINT_RANGE at h1 ht
            omega
          rw [if_neg h2, if_neg h3]
    have harith : ((1 + k) % UINT_RANGE + 1) % UINT_RANGE = (1 + (k + 1)) % UINT_RANGE := by
      unfold UINT_RANGE
      omega
    rw [hmode, harith]

/-- A `ProcessMenuTimer()` call changes the mode only if no dialog is visible and
the counter equals `menu_timeout`. -/
theorem ProcessMenuTimer_mode_change (cfg : InputConfig) (u : State)
    (h : (ProcessMenuTimer cfg u).current_mode ≠ u.current_mode) :
    u.has_dialog = false ∧ u.MenuTimeOut = u.menu_timeout := by
  cases hd : u.has_dialog with
  | true =>
    rw [ProcessMenuTimer_dialog cfg u hd] at h
    exact absurd rfl h
  | false =>
    refine ⟨rfl, ?_⟩
    by_contra hne
    apply h
    show (ProcessMenuTimer cfg u).toCore.current_mode = _
    rw [ProcessMenuTimer_core cfg u hd]
    show (if u.MenuTimeOut = u.menu_timeout then _ else u.current_mode) = _
    rw [if_neg hne]

/-- A `ProcessMenuTimer()` call with no dialog visible in a state that already is
in the fallback mode: whatever the counter, the call logs itself and the
partial redraw of `drawButtons(getModeID())`, and nothing else. -/
theorem ProcessMenuTimer_trace_settled (cfg : InputConfig) (u : State)
    (hd : u.has_dialog = false)
    (hm : u.current_mode = (if u.panning then cfg.MODE_PAN else cfg.MODE_DEFAULT)) :
    (ProcessMenuTimer cfg u).trace =
      u.trace ++ [Obs.ProcessMenuTimer] ++
        (if u.running then redrawCalls cfg u.current_mode false else []) := by
  have htm : timerMode cfg u = u.current_mode := by
    unfold timerMode
    split
    · exact hm.symm
    · rfl
  rw [ProcessMenuTimer_trace cfg u hd, htm]
  simp

/-- C20: the timeout transition after `ShowMenu` or `HideMenu`, followed through
any number `k` of `ProcessMenuTimer()` calls with no dialog visible and nothing
else run in between. After `HideMenu` the transition is the one made inside
`HideMenu`: after every `k` the mode is still the fallback mode (`MODE_PAN`
while panning, else `MODE_DEFAULT`) and only the counter has moved, by `k`.
After `ShowMenu` (whose own call is the first increment) the mode after `k`
calls is `MODE_MENU` while `k < menu_timeout` and the fallback mode for every
`k ≥ menu_timeout`, also past the wrap of the 32-bit counter; so the mode
changes on the call number `k + 1` exactly if `k + 1 = menu_timeout` (and the
fallback mode differs from `MODE_MENU`): on one call and on no later one. In any
state a call changes the mode only if no dialog is visible and the counter equals
`menu_timeout`; and a call made in the fallback mode, whatever the counter,
logs itself and the partial redraw only. -/
theorem timeout_transition_once (cfg : InputConfig) (s : State)
    (hd : s.has_dialog = false)
    (hd' : (afterPanOff cfg s).has_dialog = false)
    (ht : (afterPanOff cfg s).menu_timeout < UINT_RANGE) :
    (∀ k, ((ProcessMenuTimer cfg)^[k] (HideMenu cfg s)).toCore =
      { s.toCore with
        current_mode := if s.panning then cfg.MODE_PAN else cfg.MODE_DEFAULT,
        MenuTimeOut := (s.menu_timeout + 1 + k) % UINT_RANGE }) ∧
    (∀ k, ((ProcessMenuTimer cfg)^[k] (ShowMenu cfg s)).toCore =
      { (afterPanOff cfg s).toCore with
        current_mode :=
          if (afterPanOff cfg s).menu_timeout ≤ k then
            (if (afterPanOff cfg s).panning then cfg.MODE_PAN else cfg.MODE_DEFAULT)
          else cfg.MODE_MENU,
        MenuTimeOut := (1 + k) % UINT_RANGE }) ∧
    (∀ k, ((ProcessMenuTimer cfg)^[k + 1] (ShowMenu cfg s)).current_mode ≠
          ((ProcessMenuTimer cfg)^[k] (ShowMenu cfg s)).current_mode ↔
        k + 1 = (afterPanOff cfg s).menu_timeout ∧
        (if (afterPanOff cfg s).panning then cfg.MODE_PAN else cfg.MODE_DEFAULT) ≠
          cfg.MODE_MENU) ∧
    (∀ u : State, (ProcessMenuTimer cfg u).current_mode ≠ u.current_mode →
        u.has_dialog = false ∧ u.MenuTimeOut = u.menu_timeout) ∧
    (∀ u : State, u.has_dialog = false →
        u.current_mode = (if u.panning then cfg.MODE_PAN else cfg.MODE_DEFAULT) →
        (ProcessMenuTimer cfg u).trace =
          u.trace ++ [Obs.ProcessMenuTimer] ++
            (if u.running then redrawCalls cfg u.current_mode false else [])) := by
  refine ⟨ticks_after_HideMenu_all cfg s hd, ticks_after_ShowMenu cfg s hd' ht, ?_,
    ProcessMenuTimer_mode_change cfg, ProcessMenuTimer_trace_settled cfg⟩
  intro k
  have h1 : ((ProcessMenuTimer cfg)^[k + 1] (ShowMenu cfg s)).current_mode =
      (if (afterPanOff cfg s).menu_timeout ≤ k + 1 then
        (if (afterPanOff cfg s).panning then cfg.MODE_PAN else cfg.MODE_DEFAULT)
      else cfg.MODE_MENU) := by
    show ((ProcessMenuTimer cfg)^[k + 1] (ShowMenu cfg s)).toCore.current_mode = _
    rw [ticks_after_ShowMenu cfg s hd' ht (k + 1)]
  have h0 : ((ProcessMenuTimer cfg)^[k] (ShowMenu cfg s)).current_mode =
      (if (afterPanOff cfg s).menu_timeout ≤ k then
        (if (afterPanOff cfg s).panning then cfg.MODE_PAN else cfg.MODE_DEFAULT)
      else cfg.MODE_MENU) := by
    show ((ProcessMenuTimer cfg)^[k] (ShowMenu cfg s)).toCore.current_mode = _
    rw [ticks_after_ShowMenu cfg s hd' ht k]
  rw [h1, h0]
  by_cases hk : (afterPanOff cfg s).menu_timeout ≤ k
  · have hk1 : (afterPanOff cfg s).menu_timeout ≤ k + 1 := by omega
    rw [if_pos hk, if_pos hk1]
    constructor
    · intro h
      exact absurd rfl h
    · intro h
      omega
  · rw [if_neg hk]
    by_cases hk1 : (afterPanOff cfg s).menu_timeout ≤ k + 1
    · rw [if_pos hk1]
      constructor
      · intro h
        exact ⟨by omega, h⟩
      · intro h
        exact h.2
    · rw [if_neg hk1]
      constructor
      · intro h
        exact absurd rfl h
      · intro h
        omega

/-- Witness of C20: the running example with `menu_timeout` 3. After `ShowMenu`
and two further calls the mode is still the menu mode 3, the third call moves
it to the default mode 0, and it is 0 after ten calls and after `2^32 + 2`
calls, when the counter is at 3 again; after `HideMenu` and ten calls it is 0. -/
theorem timeout_transition_once_witness :
    (exampleState 0 0 3).has_dialog = false ∧
    (afterPanOff exampleConfig (exampleState 0 0 3)).has_dialog = false ∧
    (afterPanOff exampleConfig (exampleState 0 0 3)).menu_timeout < UINT_RANGE ∧
    ((ProcessMenuTimer exampleConfig)^[2]
      (ShowMenu exampleConfig (exampleState 0 0 3))).current_mode = 3 ∧
    ((ProcessMenuTimer exampleConfig)^[3]
      (ShowMenu exampleConfig (exampleState 0 0 3))).current_mode = 0 ∧
    ((ProcessMenuTimer exampleConfig)^[10]
      (ShowMenu exampleConfig (exampleState 0 0 3))).current_mode = 0 ∧
    ((ProcessMenuTimer exampleConfig)^[4294967298]
      (ShowMenu exampleConfig (exampleState 0 0 3))).toCore =
      { (exampleState 0 0 3).toCore with current_mode := 0, MenuTimeOut := 3 } ∧
    ((ProcessMenuTimer exampleConfig)^[10]
      (HideMenu exampleConfig (exampleState 0 0 3))).current_mode = 0 :=
  ⟨rfl, rfl, by decide,
   congrArg Core.current_mode
     ((timeout_transition_once exampleConfig (exampleState 0 0 3) rfl rfl (by decide)).2.1 2),
   congrArg Core.current_mode
     ((timeout_transition_once exampleConfig (exampleState 0 0 3) rfl rfl (by decide)).2.1 3),
   congrArg Core.current_mode
     ((timeout_transition_once exampleConfig (exampleState 0 0 3) rfl rfl (by decide)).2.1 10),
   (timeout_transition_once exampleConfig (exampleState 0 0 3) rfl rfl
     (by decide)).2.1 4294967298,
   congrArg Core.current_mode
     ((timeout_transition_once exampleConfig (exampleState 0 0 3) rfl rfl (by decide)).1 10)⟩


/-! ## The timer call with the running flag false -/

theorem ProcessMenuTimer_queues (cfg : InputConfig) (s : State) :
    (ProcessMenuTimer cfg s).GCE_Queue = s.GCE_Queue ∧
    (ProcessMenuTimer cfg s).NMEA_Queue = s.NMEA_Queue := by
  cases hd : s.has_dialog with
  | true => rw [ProcessMenuTimer_dialog cfg s hd]; exact ⟨rfl, rfl⟩
  | false =>
    have h := ProcessMenuTimer_core cfg s hd
    refine ⟨?_, ?_⟩
    · show (ProcessMenuTimer cfg s).toCore.GCE_Queue = _
      rw [h]
    · show (ProcessMenuTimer cfg s).toCore.NMEA_Queue = _
      rw [h]

/-- C24: with the running flag false at its start, `ProcessTimer` does not call
`DoQueuedEvents`: it returns whatever the number of loop tests allowed to
`processGo`, both queues hold the same slots afterwards, and the only call it
logs is the entry of `ProcessMenuTimer` (no entry of a `_real` function, no
callable, no label).  `ProcessMenuTimer` is executed all the same: with no
dialog visible the counter has advanced by one. -/
theorem ProcessTimer_stopped (cfg : InputConfig) (fuel : Nat) (s : State)
    (hrun : s.running = false) :
    ∃ s', ProcessTimer cfg fuel s = some s' ∧ s' = ProcessMenuTimer cfg s ∧
      s'.GCE_Queue = s.GCE_Queue ∧ s'.NMEA_Queue = s.NMEA_Queue ∧
      s'.trace = s.trace ++ [Obs.ProcessMenuTimer] ∧
      (s.has_dialog = false → s'.MenuTimeOut = (s.MenuTimeOut + 1) % UINT_RANGE) := by
  refine ⟨ProcessMenuTimer cfg s, ?_, rfl, (ProcessMenuTimer_queues cfg s).1,
    (ProcessMenuTimer_queues cfg s).2, ?_, ?_⟩
  · simp [ProcessTimer, hrun]
  · cases hd : s.has_dialog with
    | true => rw [ProcessMenuTimer_dialog cfg s hd]; rfl
    | false =>
      rw [ProcessMenuTimer_trace cfg s hd, hrun]
      simp
  · intro hd
    exact (ProcessMenuTimer_tick cfg s hd).2.2

/-- Witness of C24: the example with NMEA id 1 and glide-computer id 2 queued and
the running flag false. -/
theorem ProcessTimer_stopped_witness :
    ({ queuedState with running := false } : State).running = false ∧
    (∃ s', ProcessTimer exampleConfig 0 { queuedState with running := false } = some s' ∧
      s' = ProcessMenuTimer exampleConfig { queuedState with running := false } ∧
      s'.GCE_Queue = ({ queuedState with running := false } : State).GCE_Queue ∧
      s'.NMEA_Queue = ({ queuedState with running := false } : State).NMEA_Queue ∧
      s'.trace = ({ queuedState with running := false } : State).trace ++
        [Obs.ProcessMenuTimer] ∧
      (({ queuedState with running := false } : State).has_dialog = false →
        s'.MenuTimeOut =
          (({ queuedState with running := false } : State).MenuTimeOut + 1) % UINT_RANGE)) ∧
    (ProcessTimer exampleConfig 0 { queuedState with running := false }).map
      (fun u => (u.trace, u.NMEA_Queue, u.GCE_Queue, u.MenuTimeOut)) =
      some ([Obs.ProcessMenuTimer], 1 :: List.replicate 9 (-1), 2 :: List.replicate 9 (-1), 1) :=
  ⟨rfl, ProcessTimer_stopped exampleConfig 0 { queuedState with running := false } rfl,
   by decide⟩

/-! ## The counter after a chain -/

theorem runEntry_no_action (cfg : InputConfig) (e : Nat) (s : State)
    (h : hasAction cfg e = false) : runEntry cfg e s = s := by
  unfold hasAction at h
  unfold runEntry
  cases he : (cfg.events e).event with
  | none => rfl
  | some f => rw [he] at h; cases h

theorem runEntry_action_counter (cfg : InputConfig) (e : Nat) (s : State)
    (h : hasAction cfg e = true) : (runEntry cfg e s).MenuTimeOut = 0 := by
  unfold hasAction at h
  unfold runEntry
  cases he : (cfg.events e).event with
  | none => rw [he] at h; cases h
  | some f => rfl

/-- The loop body run along a list of entries leaves the state as it was when
no entry has a callable, and the counter at 0 when one has. -/
theorem foldl_runEntry_counter (cfg : InputConfig) :
    ∀ (l : List Nat) (s : State),
      (l.filter (hasAction cfg) = [] → l.foldl (fun t e => runEntry cfg e t) s = s) ∧
      (l.filter (hasAction cfg) ≠ [] →
        (l.foldl (fun t e => runEntry cfg e t) s).MenuTimeOut = 0) := by
  intro l
  induction l with
  | nil => intro s; exact ⟨fun _ => rfl, fun h => absurd rfl h⟩
  | cons x xs ih =>
    intro s
    cases hx : hasAction cfg x with
    | false =>
      rw [List.foldl_cons, runEntry_no_action cfg x s hx, List.filter_cons_of_neg (by simp [hx])]
      exact ih s
    | true =>
      rw [List.foldl_cons, List.filter_cons_of_pos hx]
      constructor
      · intro h
        exact absurd h (List.cons_ne_nil _ _)
      · intro _
        by_cases hxs : xs.filter (hasAction cfg) = []
        · rw [(ih (runEntry cfg x s)).1 hxs]
          exact runEntry_action_counter cfg x s hx
        · exact (ih (runEntry cfg x s)).2 hxs

/-- C22: for the chain `l` of `id` and more loop tests than entries, `processGo`
returns having called the callables of the entries `t`, all of them entries of
the chain with a callable.  If it has called at least one, the counter
`MenuTimeOut` is 0 afterwards, whatever the callables did to it; if it has
called none, in particular if no entry of the chain has a callable, if `id` is
0 or if the running flag was false on entry, the state is as it was. -/
theorem processGo_resets_counter (cfg : InputConfig) (id fuel : Nat) (l : List Nat)
    (s : State) (hl : IsChain cfg id l) (hf : l.length < fuel) :
    ∃ (s' : State) (t : List Nat), processGo cfg fuel id s = some s' ∧
      s'.trace = s.trace ++ t.map Obs.action ∧
      (∀ e ∈ t, e ∈ l ∧ hasAction cfg e = true) ∧
      (t ≠ [] → s'.MenuTimeOut = 0) ∧
      (t = [] → s' = s) ∧
      ((∀ e ∈ l, hasAction cfg e = false) → s' = s) ∧
      (id = 0 → s' = s) ∧
      (s.running = false → s' = s) := by
  obtain ⟨k, _, hgo, _, _⟩ := processGo_of_chain cfg l id fuel s hl hf
  obtain ⟨hnone, hsome⟩ := foldl_runEntry_counter cfg (l.take k) s
  obtain ⟨f, rfl⟩ : ∃ f, fuel = f + 1 := ⟨fuel - 1, by omega⟩
  have hmem : ∀ e ∈ (l.take k).filter (hasAction cfg), e ∈ l ∧ hasAction cfg e = true := by
    intro e he
    obtain ⟨h1, h2⟩ := List.mem_filter.mp he
    exact ⟨List.mem_of_mem_take h1, h2⟩
  refine ⟨afterEntries cfg l k s, (l.take k).filter (hasAction cfg), hgo,
    afterEntries_trace cfg l k s, hmem, ?_, ?_, ?_, ?_, ?_⟩
  · intro hne
    exact hsome hne
  · intro he
    exact hnone he
  · intro hall
    apply hnone
    apply List.filter_eq_nil_iff.mpr
    intro e he
    simp [hall e (List.mem_of_mem_take he)]
  · intro hid
    have h0 := processGo_zero_id cfg f s
    rw [← hid, hgo] at h0
    exact Option.some.inj h0
  · intro hrun
    have h0 := processGo_not_running cfg f id s hrun
    rw [hgo] at h0
    exact Option.some.inj h0

/-- Witness of C22: in the example the chain of event 5 is 5, 7; the callable of
event 5 is called and the counter, 7 before, is 0 afterwards. -/
theorem processGo_resets_counter_witness :
    IsChain exampleConfig 5 [5, 7] ∧
    (∃ (s' : State) (t : List Nat),
      processGo exampleConfig 3 5 (exampleState 0 7 5) = some s' ∧
      s'.trace = (exampleState 0 7 5).trace ++ t.map Obs.action ∧
      (∀ e ∈ t, e ∈ [5, 7] ∧ hasAction exampleConfig e = true) ∧
      (t ≠ [] → s'.MenuTimeOut = 0) ∧
      (t = [] → s' = exampleState 0 7 5) ∧
      ((∀ e ∈ [5, 7], hasAction exampleConfig e = false) → s' = exampleState 0 7 5) ∧
      ((5 : Nat) = 0 → s' = exampleState 0 7 5) ∧
      ((exampleState 0 7 5).running = false → s' = exampleState 0 7 5)) ∧
    (processGo exampleConfig 3 5 (exampleState 0 7 5)).map
      (fun u => (u.trace, u.MenuTimeOut)) = some ([Obs.action 5], 0) ∧
    (processGo exampleConfig 3 7 (exampleState 0 7 5)).map
      (fun u => (u.trace, u.MenuTimeOut)) = some ([], 7) :=
  ⟨by simp [IsChain, exampleConfig, exampleEvents],
   processGo_resets_counter exampleConfig 5 3 [5, 7] (exampleState 0 7 5)
     (by simp [IsChain, exampleConfig, exampleEvents]) (by decide),
   by decide, by decide⟩

/-! ## The occupied slots of a queue -/

theorem occupiedPrefix_empty : OccupiedPrefix (List.replicate 10 (-1)) [] :=
  ⟨by simp, by simp, by simp⟩

theorem gapFree_of_occupiedPrefix (q pre : List Int) (h : OccupiedPrefix q pre) :
    GapFree q := by
  obtain ⟨hpre, hlen, hq⟩ := h
  refine ⟨by rw [hq]; simp; omega, ?_⟩
  intro i j hij hj hi
  have hi' : pre.length ≤ i := by
    by_contra hlt
    have hlt' : i < pre.length := by omega
    rw [hq, List.getElem?_append_left hlt'] at hi
    obtain ⟨h', he⟩ := List.getElem?_eq_some.mp hi
    exact hpre _ (List.getElem_mem h') he
  rw [hq, List.getElem?_append_right (by omega), List.getElem?_replicate]
  simp
  omega

/-- The scan writes just behind the occupied slots. -/
theorem storeFirstFree_occupiedPrefix (q pre : List Int) (v : Int)
    (h : OccupiedPrefix q pre) (hlt : pre.length < 10) :
    storeFirstFree 10 q v = pre ++ v :: List.replicate (9 - pre.length) (-1) := by
  obtain ⟨hpre, _, hq⟩ := h
  obtain ⟨k, hk⟩ : ∃ k, 10 - pre.length = k + 1 := ⟨9 - pre.length, by omega⟩
  have hk' : 9 - pre.length = k := by omega
  rw [hq, hk, hk', List.replicate_succ, storeFirstFree_at v 10 pre _ hpre hlt]

/-- An enqueue keeps the occupied slots a prefix of the queue. -/
theorem occupiedPrefix_enqueue (q pre : List Int) (v : Int) (h : OccupiedPrefix q pre) :
    ∃ pre', OccupiedPrefix (storeFirstFree 10 q v) pre' := by
  by_cases hv : v = -1
  · rw [hv, storeFirstFree_sentinel]
    exact ⟨pre, h⟩
  · by_cases hlt : pre.length < 10
    · refine ⟨pre ++ [v], ?_, by simp; omega, ?_⟩
      · intro x hx
        rcases List.mem_append.mp hx with hx | hx
        · exact h.1 x hx
        · simp at hx; rw [hx]; exact hv
      · rw [storeFirstFree_occupiedPrefix q pre v h hlt]
        have : 10 - (pre ++ [v]).length = 9 - pre.length := by simp
        rw [this]
        simp
    · obtain ⟨hpre, hlen, hq⟩ := h
      have hfull : q = pre := by
        rw [hq]
        have : 10 - pre.length = 0 := by omega
        rw [this]
        simp
      refine ⟨pre, ?_⟩
      rw [hfull, storeFirstFree_full v 10 pre hpre]
      exact ⟨hpre, hlen, hfull ▸ hq⟩

/-- Along any sequence of enqueues and `DoQueuedEvents` calls the occupied slots
of both queues stay prefixes. -/
theorem runQueueOps_occupiedPrefix (cfg : InputConfig) (n fuel : Nat)
    (hn : ChainsWithin cfg n) (hf : n < fuel) (hk : ActionsKeepQueues cfg) :
    ∀ (ops : List QueueOp) (s : State),
      (∃ p, OccupiedPrefix s.NMEA_Queue p) → (∃ p, OccupiedPrefix s.GCE_Queue p) →
      ∃ s₁, runQueueOps cfg fuel ops s = some s₁ ∧
        (∃ p, OccupiedPrefix s₁.NMEA_Queue p) ∧ (∃ p, OccupiedPrefix s₁.GCE_Queue p) := by
  intro ops
  induction ops with
  | nil => intro s hN hG; exact ⟨s, rfl, hN, hG⟩
  | cons o ops ih =>
    intro s hN hG
    cases o with
    | nmea id =>
      obtain ⟨p, hp⟩ := hN
      exact ih (processNmea id s).2 (occupiedPrefix_enqueue _ p (toInt32 id) hp) hG
    | gce id =>
      obtain ⟨p, hp⟩ := hG
      exact ih (processGlideComputer id s).2 hN (occupiedPrefix_enqueue _ p (toInt32 id) hp)
    | drain =>
      obtain ⟨s', _, hdo, _, _, hq⟩ := DoQueuedEvents_returns cfg n fuel s hn hf
      obtain ⟨hG', hN'⟩ := hq hk
      obtain ⟨s₁, hs₁, h₁⟩ := ih s' ⟨[], by rw [hN']; exact occupiedPrefix_empty⟩
        ⟨[], by rw [hG']; exact occupiedPrefix_empty⟩
      exact ⟨s₁, by simp [runQueueOps, hdo, hs₁], h₁⟩

/-- C23: start with both queues empty, every chain finite and no callable
writing to a queue, and take any sequence of `processNmea`,
`processGlideComputer` (with any ids) and `DoQueuedEvents` calls.  The sequence
returns, and in the state reached each queue has ten slots, none occupied behind
an empty one: its occupied slots are a prefix `pre`, and as long as a slot is
free the next enqueue writes its id to slot `pre.length`, just behind them. -/
theorem queues_stay_gap_free (cfg : InputConfig) (n fuel : Nat) (ops : List QueueOp)
    (s₀ : State) (hn : ChainsWithin cfg n) (hf : n < fuel) (hk : ActionsKeepQueues cfg)
    (hqN : s₀.NMEA_Queue = List.replicate MAX_NMEA_QUEUE (-1))
    (hqG : s₀.GCE_Queue = List.replicate MAX_GCE_QUEUE (-1)) :
    ∃ (s : State) (pN pG : List Int), runQueueOps cfg fuel ops s₀ = some s ∧
      GapFree s.NMEA_Queue ∧ GapFree s.GCE_Queue ∧
      OccupiedPrefix s.NMEA_Queue pN ∧ OccupiedPrefix s.GCE_Queue pG ∧
      (pN.length < 10 → ∀ id, (processNmea id s).2.NMEA_Queue =
        pN ++ toInt32 id :: List.replicate (9 - pN.length) (-1)) ∧
      (pG.length < 10 → ∀ id, (processGlideComputer id s).2.GCE_Queue =
        pG ++ toInt32 id :: List.replicate (9 - pG.length) (-1)) := by
  obtain ⟨s, hs, ⟨pN, hN⟩, ⟨pG, hG⟩⟩ := runQueueOps_occupiedPrefix cfg n fuel hn hf hk ops s₀
    ⟨[], by rw [hqN]; exact occupiedPrefix_empty⟩ ⟨[], by rw [hqG]; exact occupiedPrefix_empty⟩
  refine ⟨s, pN, pG, hs, gapFree_of_occupiedPrefix _ _ hN, gapFree_of_occupiedPrefix _ _ hG,
    hN, hG, ?_, ?_⟩
  · intro hlt id
    exact storeFirstFree_occupiedPrefix _ pN (toInt32 id) hN hlt
  · intro hlt id
    exact storeFirstFree_occupiedPrefix _ pG (toInt32 id) hG hlt

/-- Witness of C23: two NMEA ids are enqueued, the queues are drained, and two
more NMEA ids and a glide-computer id are enqueued. -/
theorem queues_stay_gap_free_witness :
    (∃ (s : State) (pN pG : List Int),
      runQueueOps exampleConfig 4
        [QueueOp.nmea 1, QueueOp.nmea 3, QueueOp.drain, QueueOp.nmea 3, QueueOp.gce 2,
          QueueOp.nmea 0] (exampleState 0 0 5) = some s ∧
      GapFree s.NMEA_Queue ∧ GapFree s.GCE_Queue ∧
      OccupiedPrefix s.NMEA_Queue pN ∧ OccupiedPrefix s.GCE_Queue pG ∧
      (pN.length < 10 → ∀ id, (processNmea id s).2.NMEA_Queue =
        pN ++ toInt32 id :: List.replicate (9 - pN.length) (-1)) ∧
      (pG.length < 10 → ∀ id, (processGlideComputer id s).2.GCE_Queue =
        pG ++ toInt32 id :: List.replicate (9 - pG.length) (-1))) ∧
    (runQueueOps exampleConfig 4
        [QueueOp.nmea 1, QueueOp.nmea 3, QueueOp.drain, QueueOp.nmea 3, QueueOp.gce 2,
          QueueOp.nmea 0] (exampleState 0 0 5)).map
      (fun u => (u.NMEA_Queue, u.GCE_Queue)) =
      some ([3, 0, -1, -1, -1, -1, -1, -1, -1, -1], [2, -1, -1, -1, -1, -1, -1, -1, -1, -1]) :=
  ⟨queues_stay_gap_free exampleConfig 3 4
      [QueueOp.nmea 1, QueueOp.nmea 3, QueueOp.drain, QueueOp.nmea 3, QueueOp.gce 2,
        QueueOp.nmea 0] (exampleState 0 0 5) exampleConfig_chains (by decide)
      exampleConfig_keeps rfl rfl,
   by decide⟩

/-! ## The redraw after a key -/

/-- C21: evaluation of the code where it departs from the claim.  Key 65 in mode
1 resolves to event 5, whose callable leaves the mode at 1.  With the dynamic
menu item of event 5 in slot 0, `ProcessKey` calls the callable and redraws no
label, while `processButton(0)` redraws the label of slot 0, and `ProcessKey`
does so too when the same item is in slot 1.  With a fixed label for event 5 in
slot 2, `ProcessKey` redraws the dynamic labels of the menu although the item
is not dynamic, while `processButton(2)` redraws none. -/
theorem ProcessKey_slot_zero_no_redraw :
    key_to_event slotZeroConfig 1 65 = 5 ∧ keyItem slotZeroConfig 1 65 = 0 ∧
    ((slotZeroConfig.menus 1).items 0).defined = true ∧
    ((slotZeroConfig.menus 1).items 0).IsDynamic = true ∧
    (ProcessKey slotZeroConfig 4 1 65 (exampleState 1 0 5)).map
      (fun r => (r.1, r.2.current_mode, r.2.trace)) = some (true, 1, [Obs.action 5]) ∧
    (processButton slotZeroConfig 4 0 (exampleState 1 0 5)).map
      (fun r => (r.1, r.2.current_mode, r.2.trace)) =
      some (true, 1, [Obs.action 5, Obs.SetLabelText 0 (some "Pan $(PanModeStatus)")]) ∧
    (ProcessKey dynamicConfig 4 1 65 (exampleState 1 0 5)).map
      (fun r => (r.1, r.2.current_mode, r.2.trace)) =
      some (true, 1, [Obs.action 5, Obs.SetLabelText 1 (some "Pan $(PanModeStatus)")]) ∧
    keyItem mixedConfig 1 65 = 2 ∧
    ((mixedConfig.menus 1).items 2).IsDynamic = false ∧
    (ProcessKey mixedConfig 4 1 65 (exampleState 1 0 5)).map
      (fun r => (r.1, r.2.current_mode, r.2.trace)) =
      some (true, 1, [Obs.action 5, Obs.SetLabelText 1 (some "$(CheckFlying)Quit")]) ∧
    (processButton mixedConfig 4 2 (exampleState 1 0 5)).map
      (fun r => (r.1, r.2.current_mode, r.2.trace)) = some (true, 1, [Obs.action 5]) := by
  decide

end InputEvents
